import Mathlib

/-!
# jsyoda: interactive objects (`objects.js`)

A shallow embedding of the object layer of the game: the room's member
sequence with `bringToFront`, the `CharacterObject` dialogue/quest machine, the
`DoorObject` open/teleport machine, the `ContainerObject` and `PickableObject`
machines, the movable object that hides an item, the wandering and the shooting
monster, and the frame handler of a projectile, followed by theorems about them.

Conventions of the embedding

* Item indices and tile indices are natural numbers.  An optional item index
  (`null`/`undefined` or a number) is an `Option Nat`; the source tests such
  values by JavaScript truthiness, under which `null`, `undefined` and `0` are
  all false (`js_truthy`).
* Calls into collaborators that are not part of `objects.js`
  (`Game.show_speech`, `Game.explain`, `Game.player.teleport_to_room`, the
  behaviour callbacks) are recorded, in call order, as a list of `Effect`s.
* The static table `MAIN_ITEMS` and the built-in `String.prototype.replace`
  are parameters (`names`, `item_tile`, `replace`); so are `EMPTY_TILE`, the
  answers of `get_obstacles` and the result of the collision test of a sprite.
* Numbers are IEEE 754 doubles in the source.  The values that `on_frame`
  computes from `Math.random()` before it takes `Math.floor` are parameters,
  doubles given as exact rationals; `NearestDouble` and `JitterValue` say which
  values the arithmetic of the runtime can give them.
* A call that throws is recorded by the effect `type_error`, the last effect of
  the call; what the method assigned before the throw stays assigned.
* Objects created at run time are told apart by a reference, a natural number;
  the member sequence of a room is a list of references.
-/

namespace JsYoda

/-! ## JavaScript helpers -/

/-- Truthiness of an optional number: `null`, `undefined` and `0` are false. -/
def js_truthy : Option Nat → Bool
  | some (_ + 1) => true
  | _ => false

/-- Truthiness of an optional string: `undefined` and the empty string are false. -/
def js_truthy_str : Option String → Bool
  | none => false
  | some s => s != ""

/-- The built-in `Array.prototype.indexOf`: index of the first element equal to
`a`, or `-1`. -/
def indexOf {α : Type} [DecidableEq α] : List α → α → Int
  | [], _ => -1
  | b :: l, a =>
    if b = a then 0
    else
      let i := indexOf l a
      if i < 0 then -1 else i + 1

/-- The built-in `Array.prototype.splice(start, deleteCount)`, as the array it
leaves behind.  A negative `start` counts from the end of the array (clamped at
`0`), a `start` beyond the end is clamped to the length. -/
def splice {α : Type} (l : List α) (start : Int) (deleteCount : Nat) : List α :=
  let len : Int := l.length
  let s : Nat := if start < 0 then (max (len + start) 0).toNat else (min start len).toNat
  l.take s ++ l.drop (s + deleteCount)

/-- The built-in `Array.prototype.unshift(x)`, as the array it leaves behind. -/
def unshift {α : Type} (l : List α) (x : α) : List α := x :: l

/-! ## StaticObject -/

/-- The `state` strings used by the objects of `objects.js`. -/
inductive ObjState where
  | INIT
  | UNSOLVED
  | SOLVED
  | BLINKING
  deriving DecidableEq, Repr

/-- Method `StaticObject.prototype.bringToFront`, acting on `this.room.objects`.
(`this.zindex++` touches no field that is read anywhere in `objects.js`.) -/
def bringToFront {α : Type} [DecidableEq α] (objects : List α) (self : α) : List α :=
  let i := indexOf objects self
  let objects := splice objects i 1
  unshift objects self

/-! ## Constants of `game.js` -/

/-- The keys of the table `DIRECTIONS`. -/
inductive Direction where
  | up
  | down
  | left
  | right
  deriving DecidableEq, Repr

/-- The table `DIRECTIONS`: the step `(dx, dy)` of a direction. -/
def DIRECTIONS : Direction → Int × Int
  | .up => (0, -1)
  | .down => (0, 1)
  | .left => (-1, 0)
  | .right => (1, 0)

/-- The constant `VIEWPORT_SIDE`. -/
def VIEWPORT_SIDE : Nat := 9

/-- The constant `VIEWPORT_SIDE_PX`. -/
def VIEWPORT_SIDE_PX : Int := VIEWPORT_SIDE * 32

/-- The fields of `Game.grid` that the objects read. -/
structure Grid where
  width : Int
  height : Int
  deriving DecidableEq, Repr

/-- Whether the table `Game.grid.offsets` has an entry `offsets[x][y]`: it has
one for each cell of the grid, `0 <= x < width` and `0 <= y < height` (the
loop over the grid in `game.js` reads `offsets[x][y]` for exactly these). -/
def Grid.has_offsets (grid : Grid) (x y : Int) : Bool :=
  decide (0 ≤ x) && decide (x < grid.width) && decide (0 ≤ y) && decide (y < grid.height)

/-- The grid that `init_game` builds: `new jstile.Grid(15, 15, 32, 32, ...)`. -/
def init_game_grid : Grid := { width := 15, height := 15 }

/-! ## Effects on collaborators -/

/-- A teleport target: a cell `{x, y}` of the world map, or a direct room
reference. -/
inductive TeleportTarget where
  | cell (x y : Int)
  | room (ref : Nat)
  deriving DecidableEq, Repr

/-- What the completion callback handed to `Game.show_speech` does when the
message is dismissed. -/
inductive Deferred where
  /-- Creates `new PickableObject(room, item, cx, cy)`, then calls
  `enterRoom().bringToFront()` and `on_bump()` on it. -/
  | spawn_payment (item : Nat) (cx cy : Int)
  | on_solve (item : Nat)
  | on_bringmore (item : Nat)
  deriving DecidableEq, Repr

/-- A call into a collaborator. -/
inductive Effect where
  | show_speech (text : String) (callback : List Deferred)
  | on_bringmore (item : Nat)
  | explain (msg : String)
  /-- Calls `Game.player.teleport_to_room` for the given target and in-room coordinates. -/
  | teleport (target : TeleportTarget) (inroom_coords : Option (Int × Int))
  /-- Calls `Game.player.pickup(obj)` for the object with the given reference. -/
  | pickup (ref : Nat)
  /-- Calls `this.on_pickup()` of a pickable object. -/
  | on_pickup
  /-- Calls `Game.player.finish_pickup()`. -/
  | finish_pickup
  /-- Calls the callback `on_open` of a container. -/
  | on_open
  /-- Calls `Game.player.on_hit(hit)`. -/
  | player_on_hit (hit : Int)
  /-- Calls `Projectile.factory(name, direction, speed, damage, this)`. -/
  | spawn_projectile (name : String) (direction : Direction) (speed damage : Int)
  /-- Adds the explosion animation at the given position to the parent of the
  projectile. -/
  | explosion (left top : Int)
  /-- Calls `on_hit(damage)` of the object with the given reference. -/
  | obj_on_hit (ref : Nat) (damage : Int)
  /-- The call ends here by throwing a `TypeError`: no later statement of the
  method is executed, and what was assigned before stays assigned. -/
  | type_error
  deriving DecidableEq, Repr

/-! ## ActiveObject -/

/-- The tile chosen by the constructor `ActiveObject(room, item_index, ...)`:
a non-negative `item_index` is an index into `MAIN_ITEMS` (`item_tile` is
`MAIN_ITEMS[i].tile_index`), a negative one is the negated tile index. -/
def ActiveObject.tile_of (item_tile : Nat → Nat) (item_index : Int) : Nat :=
  if item_index ≥ 0 then item_tile item_index.toNat else (-item_index).toNat

/-- The field `item_index` set by the constructor `ActiveObject`: the index
itself when it is non-negative, and `null` otherwise. -/
def ActiveObject.item_of (item_index : Int) : Option Nat :=
  if item_index ≥ 0 then some item_index.toNat else none

/-! ## CharacterObject -/

/-- The `behaviour` descriptor of a character. -/
structure Behaviour where
  unsolved_text : String
  desired_items : List Nat
  notneeded_text : Option String
  bringmore_text : Option String
  thankyou_text : String
  payment_item : Option Nat
  solved_text : String
  /-- Whether the optional callback `on_solve` is present. -/
  has_on_solve : Bool
  /-- Whether the optional callback `on_bringmore` is present. -/
  has_on_bringmore : Bool
  deriving DecidableEq, Repr

/-- The quest object of a room. -/
structure Quest where
  solved : Bool
  deriving DecidableEq, Repr

structure CharacterObject where
  state : ObjState
  obstacle : Bool
  tile_index : Nat
  cx : Int
  cy : Int
  behaviour : Behaviour
  deriving DecidableEq, Repr

/-- The constructor `CharacterObject(room, char_index, cx, cy, behaviour)`.
(A `desired_items` given as a single number, which the constructor wraps into
an array, is a one-element list here.) -/
def CharacterObject.new (item_tile : Nat → Nat) (char_index : Int) (cx cy : Int)
    (behaviour : Behaviour) : CharacterObject :=
  { state := .UNSOLVED, obstacle := true,
    tile_index := ActiveObject.tile_of item_tile char_index, cx := cx, cy := cy,
    behaviour := behaviour }

/-- The loop of `subst_names` that builds `desired_text`, from index `i` on:
`n` is the number of iterations left, `len` the length of `desired_items`. -/
def desired_text_loop (names : Nat → String) (items : List Nat) (len : Nat) :
    Nat → Nat → String → String
  | 0, _, acc => acc
  | n + 1, i, acc =>
    let acc := if i = len - 1 then acc ++ " and " else acc ++ ", "
    let acc := acc ++ names (items.getD 1 0)
    desired_text_loop names items len n (i + 1) acc

/-- The text `desired_text` that `subst_names` hands to `replace` for `%1`. -/
def desired_text (names : Nat → String) (items : List Nat) : String :=
  if items.length > 0 then
    desired_text_loop names items items.length (items.length - 1) 1 (names (items.getD 0 0))
  else ""

/-- The text that `subst_names` hands to `replace` for `%2`. -/
def payment_text (names : Nat → String) (payment_item : Option Nat) : String :=
  if js_truthy payment_item then names (payment_item.getD 0) else ""

/-- Method `CharacterObject.prototype.subst_names`; `replace str pat by` is
`str.replace(/pat/g, by)`. -/
def CharacterObject.subst_names (replace : String → String → String → String)
    (names : Nat → String) (c : CharacterObject) (str : String) : String :=
  replace (replace str "%1" (desired_text names c.behaviour.desired_items))
    "%2" (payment_text names c.behaviour.payment_item)

/-- Method `CharacterObject.prototype.on_bump`: the character is left as it is. -/
def CharacterObject.on_bump (replace : String → String → String → String)
    (names : Nat → String) (c : CharacterObject) : CharacterObject × List Effect :=
  if c.state = .UNSOLVED then
    (c, [.show_speech (c.subst_names replace names c.behaviour.unsolved_text) []])
  else
    (c, [.show_speech (c.subst_names replace names c.behaviour.solved_text) []])

/-- Method `CharacterObject.prototype.try_give`. -/
def CharacterObject.try_give (c : CharacterObject) (item_index : Nat) :
    Bool × CharacterObject :=
  let i := indexOf c.behaviour.desired_items item_index
  if i ≥ 0 then
    (true, { c with behaviour :=
      { c.behaviour with desired_items := splice c.behaviour.desired_items i 1 } })
  else
    (false, c)

/-- What `on_item` returns and leaves behind. -/
structure ItemResult where
  consumed : Bool
  ch : CharacterObject
  quest : Option Quest
  effects : List Effect
  deriving DecidableEq, Repr

/-- Method `CharacterObject.prototype.on_item`; `quest` is `this.room.quest`. -/
def CharacterObject.on_item (replace : String → String → String → String)
    (names : Nat → String) (c : CharacterObject) (quest : Option Quest)
    (item_index : Nat) : ItemResult :=
  let (desirable, c) := c.try_give item_index
  if !desirable then
    { consumed := false, ch := c, quest := quest,
      effects :=
        if js_truthy_str c.behaviour.notneeded_text then
          [.show_speech (c.behaviour.notneeded_text.getD "") []]
        else [] }
  else if c.behaviour.desired_items.length = 0 then
    let c := { c with state := .SOLVED }
    let quest := quest.map fun q => { q with solved := true }
    { consumed := true, ch := c, quest := quest,
      effects :=
        [.show_speech (c.subst_names replace names c.behaviour.thankyou_text)
          ((if js_truthy c.behaviour.payment_item then
              [Deferred.spawn_payment (c.behaviour.payment_item.getD 0) c.cx c.cy]
            else []) ++
           (if c.behaviour.has_on_solve then [Deferred.on_solve item_index] else []))] }
  else
    { consumed := true, ch := c, quest := quest,
      effects :=
        if js_truthy_str c.behaviour.bringmore_text then
          [.show_speech (c.subst_names replace names (c.behaviour.bringmore_text.getD ""))
            (if c.behaviour.has_on_bringmore then [Deferred.on_bringmore item_index] else [])]
        else if c.behaviour.has_on_bringmore then [.on_bringmore item_index]
        else [] }

/-- A call made on a character by the player. -/
inductive CharEvent where
  | bump
  | item (item_index : Nat)
  deriving DecidableEq, Repr

/-- One call on a character, keeping the character and the room's quest. -/
def CharacterObject.step (replace : String → String → String → String)
    (names : Nat → String) (s : CharacterObject × Option Quest) :
    CharEvent → CharacterObject × Option Quest
  | .bump => ((s.1.on_bump replace names).1, s.2)
  | .item x => let r := s.1.on_item replace names s.2 x; (r.ch, r.quest)

/-- A sequence of calls on a character, in order. -/
def CharacterObject.run (replace : String → String → String → String)
    (names : Nat → String) (s : CharacterObject × Option Quest) (es : List CharEvent) :
    CharacterObject × Option Quest :=
  es.foldl (CharacterObject.step replace names) s

/-! ## DoorObject -/

/-- One of `DOOR_SETS`; `open_` is the field `open`. -/
structure DoorSet where
  closed : Nat
  open_ : Nat
  overlay : Option Nat
  deriving DecidableEq, Repr

structure DoorObject where
  state : ObjState
  obstacle : Bool
  tile_index : Nat
  cx : Int
  cy : Int
  door_set : DoorSet
  inroom_coords : Option (Int × Int)
  teleport_target : Option TeleportTarget
  required_key : Option Nat
  opened : Bool
  deriving DecidableEq, Repr

/-- The constructor
`DoorObject(room, door_set, cx, cy, teleport_target, required_key, inroom_coords)`,
which hands `-door_set.closed` to the `ActiveObject` constructor. -/
def DoorObject.new (item_tile : Nat → Nat) (door_set : DoorSet) (cx cy : Int)
    (teleport_target : Option TeleportTarget) (required_key : Option Nat)
    (inroom_coords : Option (Int × Int)) : DoorObject :=
  { state := .INIT, obstacle := true,
    tile_index := ActiveObject.tile_of item_tile (-(door_set.closed : Int)),
    cx := cx, cy := cy, door_set := door_set, inroom_coords := inroom_coords,
    teleport_target := teleport_target, required_key := required_key, opened := false }

/-- Method `StaticObject.prototype.updateTile`, on a door. -/
def DoorObject.updateTile (d : DoorObject) (tile_index : Nat) : DoorObject :=
  { d with tile_index := tile_index }

/-- Method `DoorObject.prototype.on_bump`. -/
def DoorObject.on_bump (names : Nat → String) (d : DoorObject) : DoorObject × List Effect :=
  match d.opened, d.teleport_target with
  | true, some target =>
    let effects := [Effect.teleport target d.inroom_coords]
    if !js_truthy d.required_key then
      let d := { d with opened := false }
      let d := d.updateTile d.door_set.closed
      ({ d with obstacle := true }, effects)
    else (d, effects)
  | opened, teleport_target =>
    if !opened && !js_truthy d.required_key then
      let d := { d with opened := true }
      let d := d.updateTile d.door_set.open_
      if teleport_target.isNone then ({ d with obstacle := false }, []) else (d, [])
    else if !opened && js_truthy d.required_key then
      (d, [.explain ("You need " ++ names (d.required_key.getD 0) ++ " to open this door.")])
    else (d, [])

/-- What `DoorObject.prototype.on_item` returns and leaves behind; `ret` is the
returned value, `none` for `undefined`. -/
structure DoorItemResult where
  ret : Option Bool
  door : DoorObject
  effects : List Effect
  deriving DecidableEq, Repr

/-- Whether the caller, which tests the returned value for truthiness, takes the
item away from the player. -/
def DoorItemResult.consumed (r : DoorItemResult) : Bool := r.ret == some true

/-- Method `DoorObject.prototype.on_item`. -/
def DoorObject.on_item (names : Nat → String) (d : DoorObject) (item_index : Nat) :
    DoorItemResult :=
  if !d.opened && some item_index == d.required_key then
    let d := { d with opened := true }
    let d := d.updateTile d.door_set.open_
    let d := if d.teleport_target.isNone then { d with obstacle := false } else d
    { ret := some true, door := d,
      effects := [.explain ("You have used " ++ names item_index ++ " to open the door.")] }
  else if js_truthy d.required_key then
    { ret := none, door := d,
      effects := [.explain ("Wrong key, you need " ++ names (d.required_key.getD 0) ++ ".")] }
  else
    { ret := none, door := d, effects := [.explain "This door does not need a key."] }

/-- A call made on a door by the player. -/
inductive DoorEvent where
  | bump
  | item (item_index : Nat)
  deriving DecidableEq, Repr

/-- One call on a door, keeping the door. -/
def DoorObject.step (names : Nat → String) (d : DoorObject) : DoorEvent → DoorObject
  | .bump => (d.on_bump names).1
  | .item x => (d.on_item names x).door

/-- A sequence of calls on a door, in order. -/
def DoorObject.run (names : Nat → String) (d : DoorObject) (es : List DoorEvent) : DoorObject :=
  es.foldl (DoorObject.step names) d

/-- The number of `teleport_to_room` calls among the effects. -/
def teleports (effects : List Effect) : Nat :=
  (effects.filter fun e => match e with | .teleport _ _ => true | _ => false).length

/-- Modelled from the spec: the list of names "rendered as a natural-language
list (comma-separated, "and" before the final item)", which the source's
docstring calls the "list of remaining desired items' names". -/
def natural_list (names : Nat → String) : List Nat → String
  | [] => ""
  | [a] => names a
  | [a, b] => names a ++ " and " ++ names b
  | a :: b :: c :: l => names a ++ ", " ++ natural_list names (b :: c :: l)

/-- The string `s` written `n` times in a row. -/
def repeated (s : String) : Nat → String
  | 0 => ""
  | n + 1 => s ++ repeated s n

/-! ## PickableObject -/

/-- The constant `BLINK_DELAY`: the number of frames between blinking on and off. -/
def BLINK_DELAY : Int := 3

structure PickableObject where
  state : ObjState
  obstacle : Bool
  tile_index : Nat
  cx : Int
  cy : Int
  item_index : Option Nat
  /-- The tile shown by `this.sprite`; `none` while there is no sprite. -/
  sprite : Option Nat
  blink_tiles : List Nat
  blinkdelay : Int
  /-- The field `take_delay`; `none` while it is `undefined`. -/
  take_delay : Option Int
  deriving DecidableEq, Repr

/-- The constructor `PickableObject(room, item_index, cx, cy)`; `empty_tile` is
the constant `EMPTY_TILE`.  The registration `room.addObj(this)` made by the
`StaticObject` constructor is part of `World.new_pickable`. -/
def PickableObject.new (item_tile : Nat → Nat) (empty_tile : Nat) (item_index : Int)
    (cx cy : Int) : PickableObject :=
  { state := .INIT, obstacle := true,
    tile_index := ActiveObject.tile_of item_tile item_index, cx := cx, cy := cy,
    item_index := ActiveObject.item_of item_index, sprite := none,
    blink_tiles := [empty_tile, ActiveObject.tile_of item_tile item_index],
    blinkdelay := 0, take_delay := none }

/-- Method `StaticObject.prototype.enterRoom`, on a pickable object: the sprite
is created with the tile of the object. -/
def PickableObject.enterRoom (p : PickableObject) : PickableObject :=
  { p with sprite := some p.tile_index }

/-- Method `PickableObject.prototype.on_bump`; `self` is the reference of `this`. -/
def PickableObject.on_bump (p : PickableObject) (self : Nat) : PickableObject × List Effect :=
  ({ p with state := .BLINKING, take_delay := some 6 }, [.pickup self])

/-- The comparison `take_delay <= 0`, false for `undefined`. -/
def take_delay_elapsed : Option Int → Bool
  | some t => decide (t ≤ 0)
  | none => false

/-- Method `PickableObject.prototype.on_frame`; `space` and `enter` are
`jstile.keytracker[32]` and `jstile.keytracker[13]`.  (The array `blink_tiles`
has two entries from the constructor on; on an empty array `shift` would give
`undefined`, which is left out here.) -/
def PickableObject.on_frame (p : PickableObject) (space enter : Bool) :
    PickableObject × List Effect :=
  if p.state = .BLINKING then
    let p := { p with blinkdelay := p.blinkdelay - 1 }
    let p :=
      if p.blinkdelay ≤ 0 then
        match p.blink_tiles with
        | tile :: rest =>
          { p with sprite := p.sprite.map fun _ => tile, blink_tiles := rest ++ [tile],
                   blinkdelay := BLINK_DELAY }
        | [] => { p with blinkdelay := BLINK_DELAY }
      else p
    let p :=
      match p.take_delay with
      | some t => if t > 0 then { p with take_delay := some (t - 1) } else p
      | none => p
    if (space || enter) && take_delay_elapsed p.take_delay then
      (p, [.on_pickup, .finish_pickup])
    else (p, [])
  else (p, [])

/-- The object after a sequence of frames, given the state of the two keys on
each frame. -/
def PickableObject.frames (p : PickableObject) (keys : List (Bool × Bool)) : PickableObject :=
  keys.foldl (fun p k => (p.on_frame k.1 k.2).1) p

/-! ## The room and its objects -/

/-- The methods of the room that the objects call to register and unregister
themselves; their source is not part of `objects.js`. -/
structure RoomOps where
  addObj : List Nat → Nat → List Nat
  removeObj : List Nat → Nat → List Nat

/-- Modelled from the spec: the room methods `addObj` and `removeObj`, whose
source is missing: "`addObj(e)` appends to the end (lowest priority) of the
member sequence; `removeObj(e)` removes by identity". -/
def Room.ops : RoomOps :=
  { addObj := fun objects e => objects ++ [e],
    removeObj := fun objects e => objects.filter fun o => o ≠ e }

/-- The part of the game that object creation touches: the member sequence
`room.objects` of the room, as object references, and the pickable objects
created so far, newest first, each with its reference. -/
structure World where
  objects : List Nat
  pickables : List (Nat × PickableObject)
  deriving DecidableEq, Repr

/-- The reference of a newly created object: different from the reference of
the object that creates it and from every reference in the world. -/
def World.fresh (w : World) (self : Nat) : Nat :=
  (self :: (w.objects ++ w.pickables.map Prod.fst)).foldr max 0 + 1

/-- The expression `new PickableObject(room, item, cx, cy).enterRoom().bringToFront()`
evaluated by the object `self`, followed by `on_bump()` on the new object when
`bump` is set.  Gives the reference of the new object, the world and the
effects. -/
def World.new_pickable (ops : RoomOps) (item_tile : Nat → Nat) (empty_tile : Nat)
    (w : World) (self : Nat) (item : Nat) (cx cy : Int) (bump : Bool) :
    Nat × World × List Effect :=
  let ref := w.fresh self
  let obj := PickableObject.new item_tile empty_tile item cx cy
  let objects := ops.addObj w.objects ref
  let obj := obj.enterRoom
  let objects := bringToFront objects ref
  let (obj, effects) := if bump then obj.on_bump ref else (obj, [])
  (ref, { objects := objects, pickables := (ref, obj) :: w.pickables }, effects)

/-! ## ContainerObject -/

/-- One of `CONTAINER_SETS`; `open_` is the field `open`. -/
structure ContainerSet where
  closed : Nat
  open_ : Nat
  deriving DecidableEq, Repr

structure ContainerObject where
  state : ObjState
  obstacle : Bool
  tile_index : Nat
  cx : Int
  cy : Int
  stored_item_index : Option Nat
  container_set : ContainerSet
  opened : Bool
  /-- Whether the property `on_bump` is still the method, not yet set to `null`. -/
  has_on_bump : Bool
  /-- Whether a callback `on_open` has been assigned. -/
  has_on_open : Bool
  deriving DecidableEq, Repr

/-- The constructor `ContainerObject(room, container_set, cx, cy, stored_item_index)`. -/
def ContainerObject.new (item_tile : Nat → Nat) (container_set : ContainerSet) (cx cy : Int)
    (stored_item_index : Option Nat) : ContainerObject :=
  { state := .INIT, obstacle := true,
    tile_index := ActiveObject.tile_of item_tile (-(container_set.closed : Int)),
    cx := cx, cy := cy, stored_item_index := stored_item_index,
    container_set := container_set, opened := false, has_on_bump := true,
    has_on_open := false }

/-- Method `ContainerObject.prototype.on_bump`; `self` is the reference of `this`. -/
def ContainerObject.on_bump (ops : RoomOps) (item_tile : Nat → Nat) (empty_tile : Nat)
    (w : World) (c : ContainerObject) (self : Nat) : World × ContainerObject × List Effect :=
  if !c.opened then
    let c := { c with opened := true }
    let c := { c with tile_index := c.container_set.open_ }
    if js_truthy c.stored_item_index then
      let (_, w, effects) :=
        w.new_pickable ops item_tile empty_tile self (c.stored_item_index.getD 0) c.cx c.cy true
      let c := { c with has_on_bump := false }
      (w, c, effects ++ if c.has_on_open then [.on_open] else [])
    else (w, c, [])
  else (w, c, [])

/-- A bump of the player against the container: `on_bump` is called while the
property holds the method; once it is `null` the container is a static
obstacle and nothing is called. -/
def ContainerObject.bump (ops : RoomOps) (item_tile : Nat → Nat) (empty_tile : Nat)
    (s : World × ContainerObject) (self : Nat) : World × ContainerObject :=
  if s.2.has_on_bump then
    let r := s.2.on_bump ops item_tile empty_tile s.1 self
    (r.1, r.2.1)
  else s

/-- The world and the container after `n` bumps in a row. -/
def ContainerObject.bumps (ops : RoomOps) (item_tile : Nat → Nat) (empty_tile : Nat)
    (self : Nat) : Nat → World × ContainerObject → World × ContainerObject
  | 0, s => s
  | n + 1, s =>
    ContainerObject.bumps ops item_tile empty_tile self n
      (ContainerObject.bump ops item_tile empty_tile s self)

/-! ## WanderingMonster -/

/-- One of `MONSTER_SETS`: a tile for each direction. -/
structure MonsterSet where
  down : Nat
  up : Nat
  left : Nat
  right : Nat
  deriving DecidableEq, Repr

/-- The lookup `monster_set[direction]`. -/
def MonsterSet.tile (m : MonsterSet) : Direction → Nat
  | .up => m.up
  | .down => m.down
  | .left => m.left
  | .right => m.right

structure WanderingMonster where
  state : ObjState
  obstacle : Bool
  tile_index : Nat
  cx : Int
  cy : Int
  /-- Whether `this.sprite` is a sprite (and not `null`). -/
  sprite : Bool
  /-- The field `room`: the reference of a room, or `none` for `null`. -/
  room : Option Nat
  monster_set : MonsterSet
  direction : Direction
  walk_delay : Int
  walk_timer : Int
  hp : Int
  max_hp : Int
  hit : Int
  loot : Option Nat
  deriving DecidableEq, Repr

/-- The constructor
`WanderingMonster(room, monster_set, cx, cy, walk_delay, hp, hit, loot)`. -/
def WanderingMonster.new (item_tile : Nat → Nat) (room : Nat) (monster_set : MonsterSet)
    (cx cy : Int) (walk_delay hp hit : Int) (loot : Option Nat) : WanderingMonster :=
  { state := .INIT, obstacle := true,
    tile_index := ActiveObject.tile_of item_tile (-(monster_set.down : Int)),
    cx := cx, cy := cy, sprite := false, room := some room, monster_set := monster_set,
    direction := .down, walk_delay := walk_delay, walk_timer := walk_delay, hp := hp,
    max_hp := hp, hit := hit, loot := loot }

/-- An entry of `possible_positions`. -/
structure Candidate where
  cx : Int
  cy : Int
  new_dir : Direction
  deriving DecidableEq, Repr

/-- The array `possible_positions` of `WanderingMonster.prototype.on_frame`. -/
def WanderingMonster.possible_positions (m : WanderingMonster) : List Candidate :=
  [ { cx := m.cx - 1, cy := m.cy, new_dir := .left },
    { cx := m.cx + 1, cy := m.cy, new_dir := .right },
    { cx := m.cx, cy := m.cy + 1, new_dir := .down },
    { cx := m.cx, cy := m.cy - 1, new_dir := .up } ]

/-- Whether the loop of `on_frame` pushes the candidate `p`: it is skipped when
the bounds test of the source holds or `get_obstacles` reports an obstacle. -/
def WanderingMonster.keeps (grid : Grid) (obstacle : Int → Int → Bool) (p : Candidate) : Bool :=
  if p.cx < 0 || p.cx ≥ grid.width || p.cy < 0 || p.cy ≥ grid.width then false
  else if obstacle p.cx p.cy then false
  else true

/-- The array `shuffled_positions` at the end of the loop. -/
def WanderingMonster.shuffled_positions (grid : Grid) (obstacle : Int → Int → Bool)
    (m : WanderingMonster) : List Candidate :=
  m.possible_positions.filter (WanderingMonster.keeps grid obstacle)

/-- The expression `arr[Math.floor(Math.random() * arr.length)]`, where `v` is
the value of the product `Math.random() * arr.length` as the runtime computes
it (a double, whose floor is exact); `none` for `undefined`. -/
def random_entry {α : Type} (arr : List α) (v : ℚ) : Option α :=
  let i : Int := ⌊v⌋
  if i < 0 then none else arr[i.toNat]?

/-- The value to which `on_frame` re-arms `walk_timer`:
`walk_delay + Math.floor(v)`, where `v` is the value of the expression
`Math.random() * (walk_delay * 0.25) - (walk_delay * 0.125)` as the runtime
computes it (a double, whose floor is exact). -/
def rearm (walk_delay : Int) (v : ℚ) : Int :=
  walk_delay + ⌊v⌋

/-- Method `WanderingMonster.prototype.on_bump`. -/
def WanderingMonster.on_bump (m : WanderingMonster) : List Effect := [.player_on_hit m.hit]

/-- Method `StaticObject.prototype.updatePos(nx, ny)`, on a monster: the cell is
assigned first, then `Game.grid.offsets[this.cx][this.cy]` is read to place the
sprite, which throws when the table has no such entry.  Gives the monster and
whether the call threw. -/
def WanderingMonster.updatePos (grid : Grid) (m : WanderingMonster) (nx ny : Int) :
    WanderingMonster × Bool :=
  let m := { m with cx := nx }
  let m := { m with cy := ny }
  (m, !grid.has_offsets m.cx m.cy)

/-- Method `WanderingMonster.prototype.on_frame`, called as the frame hook of
the sprite of the monster.  `grid` is `Game.grid`, `obstacle x y` tells whether
`this.room.get_obstacles(x, y)` is truthy, `player` is the cell of
`Game.player`; `r1` is the value of `Math.random() * shuffled_positions.length`
and `r2` the value of `Math.random() * (this.walk_delay * 0.25) -
(this.walk_delay * 0.125)`, both as the runtime computes them when the timer
expires.  When `updatePos` throws, the method ends there: the effects end with
`type_error` and `walk_timer` is not re-armed. -/
def WanderingMonster.on_frame (grid : Grid) (obstacle : Int → Int → Bool)
    (player : Int × Int) (r1 r2 : ℚ) (m : WanderingMonster) :
    WanderingMonster × List Effect :=
  let m := { m with walk_timer := m.walk_timer - 1 }
  if m.walk_timer ≤ 0 then
    let shuffled_positions := m.shuffled_positions grid obstacle
    let (m, effects, thrown) :=
      match random_entry shuffled_positions r1 with
      | some selected_pos =>
        let m :=
          if m.direction ≠ selected_pos.new_dir then
            let m := { m with direction := selected_pos.new_dir }
            { m with tile_index := m.monster_set.tile m.direction }
          else m
        if player.1 = selected_pos.cx ∧ player.2 = selected_pos.cy then
          (m, m.on_bump, false)
        else
          let r := m.updatePos grid selected_pos.cx selected_pos.cy
          (r.1, [], r.2)
      | none => (m, [], false)
    if thrown then (m, effects ++ [.type_error])
    else ({ m with walk_timer := rearm m.walk_delay r2 }, effects)
  else (m, [])

/-- Method `StaticObject.prototype.remove` with no argument, on a monster with
reference `self`. -/
def WanderingMonster.remove (ops : RoomOps) (w : World) (m : WanderingMonster) (self : Nat) :
    World × WanderingMonster :=
  let m := if m.sprite then { m with sprite := false } else m
  let w := { w with objects := ops.removeObj w.objects self }
  (w, { m with room := none })

/-- Method `WanderingMonster.prototype.on_hit`; `self` is the reference of `this`. -/
def WanderingMonster.on_hit (ops : RoomOps) (item_tile : Nat → Nat) (empty_tile : Nat)
    (w : World) (m : WanderingMonster) (self : Nat) (damage : Int) :
    World × WanderingMonster :=
  let m := { m with hp := m.hp - damage }
  if m.hp ≤ 0 then
    let w :=
      if js_truthy m.loot then
        (w.new_pickable ops item_tile empty_tile self (m.loot.getD 0) m.cx m.cy false).2.1
      else w
    m.remove ops w self
  else (w, m)

/-! ## ShootingMonster -/

structure ShootingMonster where
  base : WanderingMonster
  fire_delay : Int
  fire_timer : Int
  sees_player : Bool
  deriving DecidableEq, Repr

/-- The constructor of `ShootingMonster`; a `fire_delay` that is missing or `0`
becomes `10`.  (`loot_chance` is handed on and ignored.) -/
def ShootingMonster.new (item_tile : Nat → Nat) (room : Nat) (monster_set : MonsterSet)
    (cx cy : Int) (walk_delay hp hit : Int) (loot : Option Nat) (fire_delay : Option Int) :
    ShootingMonster :=
  { base := WanderingMonster.new item_tile room monster_set cx cy walk_delay hp hit loot,
    fire_delay := match fire_delay with
      | some f => if f = 0 then 10 else f
      | none => 10,
    fire_timer := 0, sees_player := false }

/-- The `while` loop of `ShootingMonster.prototype.on_frame`, with `n` rounds
left and `p` at `(x, y)`: gives `sees_player` and `player_obscured` at its end. -/
def ShootingMonster.look (obstacle : Int → Int → Bool) (player : Int × Int) (dx dy : Int) :
    Nat → Int → Int → Bool × Bool
  | 0, _, _ => (false, false)
  | n + 1, x, y =>
    let x := x + dx
    let y := y + dy
    if obstacle x y then (false, true)
    else if player.1 = x ∧ player.2 = y then (true, false)
    else ShootingMonster.look obstacle player dx dy n x y

/-- The value of `this.sees_player` when the first `if` of `on_frame` is left;
`obstacle x y` tells whether `Game.currentroom.get_obstacles(x, y)` is truthy. -/
def ShootingMonster.sight (obstacle : Int → Int → Bool) (player : Int × Int)
    (s : ShootingMonster) : Bool :=
  if player.1 = s.base.cx ∨ player.2 = s.base.cy then
    let deltas := DIRECTIONS s.base.direction
    let r := ShootingMonster.look obstacle player deltas.1 deltas.2 VIEWPORT_SIDE
      s.base.cx s.base.cy
    r.1 && !r.2
  else false

/-- Method `ShootingMonster.prototype.on_frame`; `room_obstacle` stands for
`this.room.get_obstacles`, `obstacle` for `Game.currentroom.get_obstacles`, the
other arguments are those of `WanderingMonster.on_frame`. -/
def ShootingMonster.on_frame (grid : Grid) (room_obstacle obstacle : Int → Int → Bool)
    (player : Int × Int) (r1 r2 : ℚ) (s : ShootingMonster) :
    ShootingMonster × List Effect :=
  let s := { s with sees_player := false }
  let s := { s with sees_player := s.sight obstacle player }
  let (s, fired) :=
    if (player.1 = s.base.cx ∨ player.2 = s.base.cy) ∧ s.sees_player ∧ s.fire_timer ≤ 0 then
      ({ s with fire_timer := s.fire_delay },
        [Effect.spawn_projectile "red" s.base.direction 16 2])
    else (s, [])
  let s := if s.fire_timer > 0 then { s with fire_timer := s.fire_timer - 1 } else s
  if !s.sees_player then
    let r := s.base.on_frame grid room_obstacle player r1 r2
    ({ s with base := r.1 }, fired ++ r.2)
  else (s, fired)

/-! ## Projectile -/

/-- A sprite as the projectile sees it: the reference of `sprite.obj` (`none`
when there is no object behind the sprite) and its position. -/
structure Sprite where
  obj : Option Nat
  left : Int
  top : Int
  deriving DecidableEq, Repr

/-- The fields of `this._calculatedPosition` (the position on the previous
frame); the frame handler reads `left` and `right`. -/
structure CalculatedPosition where
  left : Int
  top : Int
  right : Int
  deriving DecidableEq, Repr

/-- The sprite created by `Projectile.factory`. -/
structure Projectile where
  left : Int
  top : Int
  _calculatedPosition : CalculatedPosition
  /-- Whether `this.remove()` has been called. -/
  removed : Bool
  deriving DecidableEq, Repr

/-- The array `collide_candidates`: the sprite of the player, then the sprite
of every object of the current room whose `obstacle` flag is set; `objects`
lists the flag and the sprite of each object of `Game.currentroom.objects`. -/
def Projectile.collide_candidates (player_sprite : Sprite) (objects : List (Bool × Sprite)) :
    List Sprite :=
  player_sprite :: (objects.filter fun o => o.1).map fun o => o.2

/-- The statement `if (victim.obj && victim.obj.on_hit) victim.obj.on_hit(damage)`;
`has_on_hit` tells whether the object with a given reference has a method
`on_hit`. -/
def Projectile.victim_on_hit (has_on_hit : Nat → Bool) (damage : Int) (victim : Sprite) :
    List Effect :=
  match victim.obj with
  | some o => if has_on_hit o then [Effect.obj_on_hit o damage] else []
  | none => []

/-- The loop `while (hit.length > 0)` of the frame handler. -/
def Projectile.resolve (has_on_hit : Nat → Bool) (damage : Int) (shooter : Nat)
    (p : Projectile) : List Sprite → Projectile × List Effect
  | [] => (p, [])
  | victim :: hit =>
    if victim.obj = some shooter then
      Projectile.resolve has_on_hit damage shooter p hit
    else
      ({ p with removed := true },
        [Effect.explosion victim.left victim.top] ++
        Projectile.victim_on_hit has_on_hit damage victim)

/-- The frame handler `on_frame` that `Projectile.factory(name, direction,
speed, damage, shooter)` gives to its sprite.  `collides p candidates` is
`this.collides(collide_candidates)` for the projectile at its new position. -/
def Projectile.on_frame (collides : Projectile → List Sprite → List Sprite)
    (has_on_hit : Nat → Bool) (player_sprite : Sprite) (objects : List (Bool × Sprite))
    (direction : Direction) (speed damage : Int) (shooter : Nat) (p : Projectile) :
    Projectile × List Effect :=
  let deltas := DIRECTIONS direction
  let pos := p._calculatedPosition
  if pos.left < 0 || pos.left ≥ VIEWPORT_SIDE_PX || pos.right < 0
      || pos.right ≥ VIEWPORT_SIDE_PX then
    ({ p with removed := true }, [])
  else
    let p := { p with left := p.left + deltas.1 * speed }
    let p := { p with top := p.top + deltas.2 * speed }
    let collide_candidates := Projectile.collide_candidates player_sprite objects
    let hit := collides p collide_candidates
    Projectile.resolve has_on_hit damage shooter p hit

/-- The calls `on_hit` among the effects, as the references of the objects hit. -/
def hits : List Effect → List Nat
  | [] => []
  | .obj_on_hit ref _ :: l => ref :: hits l
  | _ :: l => hits l

/-- The first of the overlapping sprites whose object is not the shooter. -/
def first_victim (shooter : Nat) (hit : List Sprite) : Option Sprite :=
  hit.find? fun v => decide (v.obj ≠ some shooter)

/-! ## MovableObject and MovableHidingObject -/

structure MovableObject where
  state : ObjState
  obstacle : Bool
  tile_index : Nat
  cx : Int
  cy : Int
  movable : Bool
  moved : Bool
  deriving DecidableEq, Repr

/-- The constructor `MovableObject(room, tile_index, cx, cy)`. -/
def MovableObject.new (tile_index : Nat) (cx cy : Int) : MovableObject :=
  { state := .INIT, obstacle := true, tile_index := tile_index, cx := cx, cy := cy,
    movable := true, moved := false }

/-- Method `StaticObject.prototype.updatePos`, on a movable object; an argument
that is `undefined` is `none` and keeps the coordinate. -/
def MovableObject.updatePos (m : MovableObject) (nx ny : Option Int) : MovableObject :=
  let m := { m with cx := match nx with | some x => x | none => m.cx }
  { m with cy := match ny with | some y => y | none => m.cy }

/-- Method `MovableObject.prototype.on_move`. -/
def MovableObject.on_move (m : MovableObject) (nx ny : Option Int) : MovableObject :=
  let m := m.updatePos nx ny
  { m with moved := true }

structure MovableHidingObject where
  base : MovableObject
  hidden_item_index : Option Nat
  deriving DecidableEq, Repr

/-- The constructor
`MovableHidingObject(room, tile_index, cx, cy, hidden_item_index)`. -/
def MovableHidingObject.new (tile_index : Nat) (cx cy : Int)
    (hidden_item_index : Option Nat) : MovableHidingObject :=
  { base := MovableObject.new tile_index cx cy, hidden_item_index := hidden_item_index }

/-- Method `MovableHidingObject.prototype.on_move`; `self` is the reference of
`this`. -/
def MovableHidingObject.on_move (ops : RoomOps) (item_tile : Nat → Nat) (empty_tile : Nat)
    (w : World) (m : MovableHidingObject) (self : Nat) (nx ny : Option Int) :
    World × MovableHidingObject :=
  let w :=
    if !m.base.moved && js_truthy m.hidden_item_index then
      (w.new_pickable ops item_tile empty_tile self (m.hidden_item_index.getD 0)
        m.base.cx m.base.cy false).2.1
    else w
  (w, { m with base := m.base.on_move nx ny })

/-- A sequence of calls `on_move(nx, ny)` with the given cells, in order. -/
def MovableHidingObject.moves (ops : RoomOps) (item_tile : Nat → Nat) (empty_tile : Nat)
    (self : Nat) (s : World × MovableHidingObject) (cells : List (Int × Int)) :
    World × MovableHidingObject :=
  cells.foldl
    (fun s c => s.2.on_move ops item_tile empty_tile s.1 self (some c.1) (some c.2)) s

/-- The values of `blinkdelay`, `blink_tiles` and the displayed tile that are
expected after `n` frames of blinking, for the empty tile `e` and the tile `t`
of the item: nothing has changed before the first frame; frame `n >= 1` lies in
the period number `(n - 1) / 3`, the periods with an even number show `e` and
the others show `t`. -/
def blink_after (e t : Nat) (n : Nat) : Int × List Nat × Option Nat :=
  if n = 0 then (0, [e, t], some t)
  else if ((n - 1) / 3) % 2 = 0 then (3 - (((n - 1) % 3 : Nat) : Int), [t, e], some e)
  else (3 - (((n - 1) % 3 : Nat) : Int), [e, t], some t)

/-! ## Frames of a shooting monster -/

/-- What a frame hands to `ShootingMonster.prototype.on_frame` from outside:
the grid, the answers of `this.room.get_obstacles` and of
`Game.currentroom.get_obstacles`, the cell of the player and the two random
draws. -/
structure FrameInput where
  grid : Grid
  room_obstacle : Int → Int → Bool
  obstacle : Int → Int → Bool
  player : Int × Int
  r1 : ℚ
  r2 : ℚ

/-- One frame of a shooting monster. -/
def ShootingMonster.frame (s : ShootingMonster) (i : FrameInput) :
    ShootingMonster × List Effect :=
  s.on_frame i.grid i.room_obstacle i.obstacle i.player i.r1 i.r2

/-- The monster after a sequence of frames. -/
def ShootingMonster.run (s : ShootingMonster) (frames : List FrameInput) : ShootingMonster :=
  frames.foldl (fun s i => (s.frame i).1) s

/-- The number of calls of `Projectile.factory` among the effects. -/
def spawns : List Effect → Nat
  | [] => 0
  | .spawn_projectile _ _ _ _ :: l => spawns l + 1
  | _ :: l => spawns l

/-! ## The arithmetic of the runtime -/

/-- The rational `z` is a finite IEEE 754 double: an integer `m` with
`|m| < 2^53` times or divided by a power of two within the exponent range. -/
def IsDouble (z : ℚ) : Prop :=
  ∃ (m : Int) (k : Nat), |m| < 2 ^ 53 ∧
    ((k ≤ 971 ∧ z = (m : ℚ) * 2 ^ k) ∨ (k ≤ 1074 ∧ z = (m : ℚ) / 2 ^ k))

/-- The double `y` is a double nearest to `a`: what an arithmetic operation of
the runtime whose exact result is `a` returns (round to nearest; which of the
two is taken when `a` lies halfway between two doubles is left open). -/
def NearestDouble (a y : ℚ) : Prop :=
  IsDouble y ∧ ∀ z, IsDouble z → |a - y| ≤ |a - z|

/-- The double `x` is a value that the runtime may compute for the expression
`r * (walk_delay * 0.25) - (walk_delay * 0.125)` of
`WanderingMonster.prototype.on_frame`, where `r` is what `Math.random()`
returned: `walk_delay`, `0.25` and `0.125` are doubles, and each of the two
inner products, the outer product and the difference is rounded to a nearest
double. -/
def JitterValue (walk_delay : Int) (r x : ℚ) : Prop :=
  ∃ c1 c2 p : ℚ,
    NearestDouble ((walk_delay : ℚ) * (1 / 4)) c1 ∧
    NearestDouble ((walk_delay : ℚ) * (1 / 8)) c2 ∧
    NearestDouble (r * c1) p ∧
    NearestDouble (p - c2) x

/-! ## Example objects -/

/-- An example table of item tiles. -/
def exampleItemTile : Nat → Nat := fun i => i + 100

/-- An example behaviour: the character wants items `3` and `5` and pays with item `8`. -/
def exampleBehaviour : Behaviour :=
  { unsolved_text := "Bring me %1.", desired_items := [3, 5], notneeded_text := some "No.",
    bringmore_text := some "Now bring %1.", thankyou_text := "Thanks, take %2.",
    payment_item := some 8, solved_text := "Hello again.", has_on_solve := false,
    has_on_bringmore := false }

/-- An example character at cell `(4, 4)`. -/
def exampleCharacter : CharacterObject :=
  CharacterObject.new exampleItemTile 17 4 4 exampleBehaviour

/-- An example item table: every item is called `thing`. -/
def exampleNames : Nat → String := fun _ => "thing"

/-- A stand-in for `String.prototype.replace` that leaves the string as it is. -/
def exampleReplace : String → String → String → String := fun str _ _ => str

/-- An example item table with three named items. -/
def exampleItemNames : Nat → String
  | 1 => "key"
  | 2 => "map"
  | 3 => "gem"
  | _ => "thing"

/-- An example door set: closed tile `20`, open tile `21`, no overlay. -/
def exampleDoorSet : DoorSet := { closed := 20, open_ := 21, overlay := none }

/-- A door at `(2, 3)` with no key and no teleport target. -/
def examplePlainDoor : DoorObject :=
  DoorObject.new exampleItemTile exampleDoorSet 2 3 none none none

/-- A door at `(2, 3)` that needs item `3` (the gem) and does not teleport. -/
def exampleKeyedDoor : DoorObject :=
  DoorObject.new exampleItemTile exampleDoorSet 2 3 none (some 3) none

/-- A door at `(2, 3)` constructed with the required key `0`, the first item
index, and no teleport target: `new DoorObject(room, door_set, 2, 3, null, 0)`. -/
def exampleKeyZeroDoor : DoorObject :=
  DoorObject.new exampleItemTile exampleDoorSet 2 3 none (some 0) none

/-- A door at `(2, 3)` with no key that teleports to the map cell `(1, 2)`. -/
def exampleTeleportDoor : DoorObject :=
  DoorObject.new exampleItemTile exampleDoorSet 2 3 (some (.cell 1 2)) none (some (5, 5))

/-- A door at `(2, 3)` that needs item `3` and teleports to the room `7`. -/
def exampleKeyedTeleportDoor : DoorObject :=
  DoorObject.new exampleItemTile exampleDoorSet 2 3 (some (.room 7)) (some 3) none

/-- The keyed teleporting example door after it has been opened with its key,
item `3`. -/
def exampleOpenKeyedDoor : DoorObject :=
  (exampleKeyedTeleportDoor.on_item exampleItemNames 3).door

/-- The keyless teleporting example door after the bump that opens it. -/
def exampleOpenTeleportDoor : DoorObject := (exampleTeleportDoor.on_bump exampleItemNames).1

/-- An example container set: closed tile `30`, open tile `31`. -/
def exampleContainerSet : ContainerSet := { closed := 30, open_ := 31 }

/-- A closed container at `(6, 3)` that holds item `42`. -/
def exampleContainer : ContainerObject :=
  ContainerObject.new exampleItemTile exampleContainerSet 6 3 (some 42)

/-- A room whose member sequence holds the objects `1`, `2` (the example
container) and `3`, with no pickable object created yet. -/
def exampleWorld : World := { objects := [1, 2, 3], pickables := [] }

/-- An example monster set. -/
def exampleMonsterSet : MonsterSet := { down := 50, up := 51, left := 52, right := 53 }

/-- A monster at `(1, 1)` with walk delay `8` whose timer expires on the next
frame. -/
def exampleBlockedMonster : WanderingMonster :=
  { WanderingMonster.new exampleItemTile 0 exampleMonsterSet 1 1 8 3 1 (some 27) with
    walk_timer := 1 }

/-- An obstacle layout: obstacles at `(0, 1)`, `(2, 1)` and `(1, 0)`, the cells
to the left of, to the right of and above `(1, 1)`. -/
def exampleObstacles : Int → Int → Bool := fun x y =>
  decide ((x, y) = (0, 1)) || decide ((x, y) = (2, 1)) || decide ((x, y) = (1, 0))

/-- A monster at `(0, 0)` with walk delay `8` whose timer expires on the next
frame. -/
def exampleCornerMonster : WanderingMonster :=
  { WanderingMonster.new exampleItemTile 0 exampleMonsterSet 0 0 8 3 1 none with
    walk_timer := 1 }

/-- The obstacle layout with no obstacle at all. -/
def noObstacles : Int → Int → Bool := fun _ _ => false

/-- A shooting monster at `(0, 0)` that faces down. -/
def exampleShooter : ShootingMonster :=
  ShootingMonster.new exampleItemTile 0 exampleMonsterSet 0 0 8 3 1 none (some 5)

/-- A projectile that flies up and whose previous position is above the
viewport: `top = -40`, while `left = 100` and `right = 131` are inside. -/
def exampleProjectile : Projectile :=
  { left := 100, top := -40, _calculatedPosition := { left := 100, top := -40, right := 131 },
    removed := false }

/-- A projectile in the middle of the viewport. -/
def exampleInnerProjectile : Projectile :=
  { left := 100, top := 100, _calculatedPosition := { left := 100, top := 100, right := 131 },
    removed := false }

/-- The sprite of the player in the examples; no object stands behind it. -/
def examplePlayerSprite : Sprite := { obj := none, left := 0, top := 0 }

/-- Three overlapping sprites: the shooter (object `7`), then the objects `8`
and `9`. -/
def exampleHit : List Sprite :=
  [{ obj := some 7, left := 96, top := 96 }, { obj := some 8, left := 100, top := 90 },
   { obj := some 9, left := 110, top := 90 }]

/-- A movable object at `(4, 2)` that hides item `42`. -/
def exampleHidingObject : MovableHidingObject := MovableHidingObject.new 60 4 2 (some 42)

/-- The pickable object for item `42` at `(6, 3)`, entered into the room and
bumped once (it has the reference `4`). -/
def exampleBlinking : PickableObject :=
  ((PickableObject.new exampleItemTile 0 42 6 3).enterRoom.on_bump 4).1

/-- A frame on the 15 by 15 grid with no obstacle, the player at `(0, 2)` and
both random draws `0`. -/
def exampleFrame : FrameInput :=
  { grid := { width := 15, height := 15 }, room_obstacle := noObstacles,
    obstacle := noObstacles, player := (0, 2), r1 := 0, r2 := 0 }

/-- A monster at `(1, 1)` with walk delay `9` whose timer expires on the next
frame. -/
def exampleSlowMonster : WanderingMonster :=
  { WanderingMonster.new exampleItemTile 0 exampleMonsterSet 1 1 9 3 1 none with
    walk_timer := 1 }

/-- A value of `Math.random()`: the double `4253399648072135 / 2^52`, the
largest multiple of `2^-52` below `17 / 18`. -/
def exampleDraw : ℚ := 4253399648072135 / 2 ^ 52

/-! ## Lemmas on the array built-ins -/

theorem indexOf_of_not_mem {α : Type} [DecidableEq α] (l : List α) (a : α) (h : a ∉ l) :
    indexOf l a = -1 := by
  induction l with
  | nil => rfl
  | cons b l ih =>
    have hb : b ≠ a := fun h1 => h (h1 ▸ List.mem_cons_self _ _)
    have hl : a ∉ l := fun h1 => h (List.mem_cons_of_mem _ h1)
    simp [indexOf, hb, ih hl]

theorem indexOf_first {α : Type} [DecidableEq α] (pre post : List α) (a : α) (h : a ∉ pre) :
    indexOf (pre ++ a :: post) a = pre.length := by
  induction pre with
  | nil => simp [indexOf]
  | cons b l ih =>
    have hb : b ≠ a := fun h1 => h (h1 ▸ List.mem_cons_self _ _)
    have hl : a ∉ l := fun h1 => h (List.mem_cons_of_mem _ h1)
    have h0 : ¬ ((l.length : Int) < 0) := by omega
    simp [indexOf, hb, ih hl, h0]

theorem splice_first {α : Type} (pre post : List α) (a : α) :
    splice (pre ++ a :: post) pre.length 1 = pre ++ post := by
  have h0 : ¬ ((pre.length : Int) < 0) := by omega
  have h1 : (min (pre.length : Int) ((pre ++ a :: post).length : Int)).toNat = pre.length := by
    simp only [List.length_append, List.length_cons]
    omega
  simp only [splice, h0, if_false, h1]
  simp

theorem indexOf_nonneg_iff {α : Type} [DecidableEq α] (l : List α) (a : α) :
    indexOf l a ≥ 0 ↔ a ∈ l := by
  constructor
  · intro h
    by_contra hn
    rw [indexOf_of_not_mem l a hn] at h
    omega
  · intro h
    obtain ⟨pre, post, rfl, hpre⟩ := List.eq_append_cons_of_mem h
    rw [indexOf_first pre post a hpre]
    omega

theorem bringToFront_of_first {α : Type} [DecidableEq α] (pre post : List α) (e : α)
    (h : e ∉ pre) : bringToFront (pre ++ e :: post) e = e :: (pre ++ post) := by
  simp only [bringToFront, unshift, indexOf_first pre post e h, splice_first]

/-! ## C1: bringToFront -/

/-- C1. If the member sequence contains `e`, then after `e.bringToFront()` the
entity `e` is at index 0, the rest of the sequence is the old one without the
first occurrence of `e`, and a second `e.bringToFront()` leaves the sequence as
the first call left it. -/
theorem bringToFront_front_idempotent {α : Type} [DecidableEq α] (objects : List α) (e : α)
    (h : e ∈ objects) :
    (bringToFront objects e)[0]? = some e ∧
    bringToFront objects e = e :: objects.erase e ∧
    bringToFront (bringToFront objects e) e = bringToFront objects e := by
  obtain ⟨pre, post, rfl, hpre⟩ := List.eq_append_cons_of_mem h
  have herase : (pre ++ e :: post).erase e = pre ++ post := by
    rw [List.erase_append_right _ hpre]
    simp
  rw [bringToFront_of_first pre post e hpre, herase]
  refine ⟨by simp, rfl, ?_⟩
  exact bringToFront_of_first [] (pre ++ post) e (List.not_mem_nil e)

/-- Witness of C1 on the sequence `[4, 7, 9]` and the entity `9`. -/
theorem bringToFront_front_idempotent_witness :
    (9 : Nat) ∈ [4, 7, 9] ∧
    ((bringToFront [4, 7, 9] 9)[0]? = some 9 ∧
     bringToFront [4, 7, 9] 9 = 9 :: [4, 7, 9].erase 9 ∧
     bringToFront (bringToFront [4, 7, 9] 9) 9 = bringToFront [4, 7, 9] 9) :=
  ⟨by decide, bringToFront_front_idempotent [4, 7, 9] 9 (by decide)⟩

/-! ## Lemmas on CharacterObject -/

theorem CharacterObject.on_bump_fst (replace : String → String → String → String)
    (names : Nat → String) (c : CharacterObject) : (c.on_bump replace names).1 = c := by
  unfold CharacterObject.on_bump
  split <;> rfl

theorem CharacterObject.try_give_of_not_mem (c : CharacterObject) (x : Nat)
    (h : x ∉ c.behaviour.desired_items) : c.try_give x = (false, c) := by
  have hi : ¬ (indexOf c.behaviour.desired_items x ≥ 0) := by
    rw [indexOf_nonneg_iff]; exact h
  simp only [CharacterObject.try_give, hi, if_false]

theorem CharacterObject.try_give_of_first (c : CharacterObject) (x : Nat) (pre post : List Nat)
    (hd : c.behaviour.desired_items = pre ++ x :: post) (h : x ∉ pre) :
    c.try_give x =
      (true, { c with behaviour := { c.behaviour with desired_items := pre ++ post } }) := by
  have hi : indexOf c.behaviour.desired_items x ≥ 0 := by
    rw [indexOf_nonneg_iff, hd]; simp
  simp only [CharacterObject.try_give, hi, if_true]
  rw [hd, indexOf_first pre post x h, splice_first]

theorem CharacterObject.on_item_of_not_mem (replace : String → String → String → String)
    (names : Nat → String) (c : CharacterObject) (quest : Option Quest) (x : Nat)
    (h : x ∉ c.behaviour.desired_items) :
    c.on_item replace names quest x =
      { consumed := false, ch := c, quest := quest,
        effects :=
          if js_truthy_str c.behaviour.notneeded_text then
            [.show_speech (c.behaviour.notneeded_text.getD "") []]
          else [] } := by
  simp only [CharacterObject.on_item, CharacterObject.try_give_of_not_mem c x h]
  simp

theorem CharacterObject.on_item_of_first (replace : String → String → String → String)
    (names : Nat → String) (c : CharacterObject) (quest : Option Quest) (x : Nat)
    (pre post : List Nat) (hd : c.behaviour.desired_items = pre ++ x :: post) (h : x ∉ pre) :
    let r := c.on_item replace names quest x
    r.consumed = true ∧
    r.ch.behaviour.desired_items = pre ++ post ∧
    r.ch.state = (if pre ++ post = [] then .SOLVED else c.state) ∧
    r.quest = (if pre ++ post = [] then quest.map (fun q => { q with solved := true }) else quest) := by
  simp only [CharacterObject.on_item, CharacterObject.try_give_of_first c x pre post hd h,
    Bool.not_true, Bool.false_eq_true, if_false]
  by_cases hl : (pre ++ post).length = 0
  · have he : pre ++ post = [] := List.length_eq_zero.mp hl
    rw [if_pos hl, if_pos he, if_pos he]
    exact ⟨rfl, rfl, rfl, rfl⟩
  · have he : ¬ (pre ++ post = []) := fun h0 => hl (List.length_eq_zero.mpr h0)
    rw [if_neg hl, if_neg he, if_neg he]
    exact ⟨rfl, rfl, rfl, rfl⟩

/-! ## C2: a desired item is consumed -/

/-- C2. For an UNSOLVED character and an item `x` of its `desired_items`,
`on_item(x)` returns true and removes exactly the first occurrence of `x` (the
other entries keep their order, the length drops by one); afterwards the state
is SOLVED and the quest of the room, when there is one, is solved if and only if
the resulting list is empty, and otherwise the state stays UNSOLVED (and the
quest is as it was). -/
theorem CharacterObject.on_item_desired (replace : String → String → String → String)
    (names : Nat → String) (c : CharacterObject) (quest : Option Quest) (x : Nat)
    (hx : x ∈ c.behaviour.desired_items) (hs : c.state = .UNSOLVED) :
    (c.on_item replace names quest x).consumed = true ∧
    (∃ pre post, c.behaviour.desired_items = pre ++ x :: post ∧ x ∉ pre ∧
      (c.on_item replace names quest x).ch.behaviour.desired_items = pre ++ post) ∧
    (c.on_item replace names quest x).ch.behaviour.desired_items.length + 1 =
      c.behaviour.desired_items.length ∧
    (((c.on_item replace names quest x).ch.state = .SOLVED ∧
        ((c.on_item replace names quest x).quest.isSome = quest.isSome ∧
          ∀ q, (c.on_item replace names quest x).quest = some q → q.solved = true)) ↔
      (c.on_item replace names quest x).ch.behaviour.desired_items = []) ∧
    ((c.on_item replace names quest x).ch.behaviour.desired_items ≠ [] →
      (c.on_item replace names quest x).ch.state = .UNSOLVED ∧
      (c.on_item replace names quest x).quest = quest) := by
  obtain ⟨pre, post, hd, hpre⟩ := List.eq_append_cons_of_mem hx
  obtain ⟨h1, h2, h3, h4⟩ := CharacterObject.on_item_of_first replace names c quest x pre post hd hpre
  refine ⟨h1, ⟨pre, post, hd, hpre, h2⟩, ?_, ?_, ?_⟩
  · rw [h2, hd]; simp only [List.length_append, List.length_cons]; omega
  · rw [h2, h3, h4]
    by_cases he : pre ++ post = []
    · rw [if_pos he, if_pos he]
      refine ⟨fun _ => he, fun _ => ⟨rfl, ?_, ?_⟩⟩
      · cases quest <;> rfl
      · intro q hq
        cases quest with
        | none => cases hq
        | some q0 => cases hq; rfl
    · rw [if_neg he, hs]
      exact ⟨fun h => absurd h.1 (by decide), fun h => absurd h he⟩
  · intro hne
    rw [h2] at hne
    rw [h3, h4, if_neg hne, if_neg hne]
    exact ⟨hs, rfl⟩

/-- Witness of C2: with `desired_items = [3, 5]`, `on_item(3)` leaves `[5]` and
UNSOLVED, and then `on_item(5)` leaves `[]`, SOLVED and the quest solved. -/
theorem CharacterObject.on_item_desired_witness :
    ((3 : Nat) ∈ exampleCharacter.behaviour.desired_items ∧
      exampleCharacter.state = .UNSOLVED) ∧
    (exampleCharacter.on_item exampleReplace exampleNames (some ⟨false⟩) 3).consumed = true ∧
    (exampleCharacter.on_item exampleReplace exampleNames (some ⟨false⟩) 3).ch.behaviour.desired_items
      = [5] ∧
    (exampleCharacter.on_item exampleReplace exampleNames (some ⟨false⟩) 3).ch.state = .UNSOLVED ∧
    ((exampleCharacter.on_item exampleReplace exampleNames (some ⟨false⟩) 3).ch.on_item
      exampleReplace exampleNames (some ⟨false⟩) 5).ch.behaviour.desired_items = [] ∧
    ((exampleCharacter.on_item exampleReplace exampleNames (some ⟨false⟩) 3).ch.on_item
      exampleReplace exampleNames (some ⟨false⟩) 5).ch.state = .SOLVED ∧
    ((exampleCharacter.on_item exampleReplace exampleNames (some ⟨false⟩) 3).ch.on_item
      exampleReplace exampleNames (some ⟨false⟩) 5).quest = some ⟨true⟩ :=
  have h := CharacterObject.on_item_desired exampleReplace exampleNames exampleCharacter
    (some ⟨false⟩) 3 (by decide) rfl
  ⟨⟨by decide, rfl⟩, h.1, by decide, by decide, by decide, by decide, by decide⟩

/-! ## C3: an item that is not desired is refused -/

/-- C3. For an item `x` that does not occur in `desired_items`, `on_item(x)`
returns false and leaves the character (its `desired_items` and state among the
rest) and the quest of the room as they were; the only effect is the
`notneeded_text` speech, shown when that text is configured. -/
theorem CharacterObject.on_item_not_desired (replace : String → String → String → String)
    (names : Nat → String) (c : CharacterObject) (quest : Option Quest) (x : Nat)
    (hx : x ∉ c.behaviour.desired_items) :
    (c.on_item replace names quest x).consumed = false ∧
    (c.on_item replace names quest x).ch = c ∧
    (c.on_item replace names quest x).ch.behaviour.desired_items = c.behaviour.desired_items ∧
    (c.on_item replace names quest x).ch.state = c.state ∧
    (c.on_item replace names quest x).quest = quest ∧
    (c.on_item replace names quest x).effects =
      (if js_truthy_str c.behaviour.notneeded_text then
        [.show_speech (c.behaviour.notneeded_text.getD "") []]
      else []) := by
  rw [CharacterObject.on_item_of_not_mem replace names c quest x hx]
  exact ⟨rfl, rfl, rfl, rfl, rfl, rfl⟩

/-- Witness of C3: item `4` is not among `[3, 5]`. -/
theorem CharacterObject.on_item_not_desired_witness :
    (4 : Nat) ∉ exampleCharacter.behaviour.desired_items ∧
    (exampleCharacter.on_item exampleReplace exampleNames (some ⟨false⟩) 4).consumed = false ∧
    (exampleCharacter.on_item exampleReplace exampleNames (some ⟨false⟩) 4).ch = exampleCharacter ∧
    (exampleCharacter.on_item exampleReplace exampleNames (some ⟨false⟩) 4).quest = some ⟨false⟩ :=
  have h := CharacterObject.on_item_not_desired exampleReplace exampleNames exampleCharacter
    (some ⟨false⟩) 4 (by decide)
  ⟨by decide, h.1, h.2.1, h.2.2.2.2.1⟩

/-! ## C4: SOLVED is terminal -/

theorem CharacterObject.on_item_cases (replace : String → String → String → String)
    (names : Nat → String) (c : CharacterObject) (quest : Option Quest) (x : Nat) :
    ((c.on_item replace names quest x).ch = c) ∨
    (∃ pre post, c.behaviour.desired_items = pre ++ x :: post ∧
      (c.on_item replace names quest x).ch.behaviour.desired_items = pre ++ post ∧
      (c.on_item replace names quest x).ch.state =
        (if pre ++ post = [] then .SOLVED else c.state)) := by
  by_cases hx : x ∈ c.behaviour.desired_items
  · obtain ⟨pre, post, hd, hpre⟩ := List.eq_append_cons_of_mem hx
    obtain ⟨_, h2, h3, _⟩ :=
      CharacterObject.on_item_of_first replace names c quest x pre post hd hpre
    exact Or.inr ⟨pre, post, hd, h2, h3⟩
  · left
    rw [CharacterObject.on_item_of_not_mem replace names c quest x hx]

theorem CharacterObject.step_cases (replace : String → String → String → String)
    (names : Nat → String) (s : CharacterObject × Option Quest) (e : CharEvent) :
    ((CharacterObject.step replace names s e).1 = s.1) ∨
    (∃ x pre post, s.1.behaviour.desired_items = pre ++ x :: post ∧
      (CharacterObject.step replace names s e).1.behaviour.desired_items = pre ++ post ∧
      (CharacterObject.step replace names s e).1.state =
        (if pre ++ post = [] then .SOLVED else s.1.state)) := by
  cases e with
  | bump => left; exact CharacterObject.on_bump_fst replace names s.1
  | item x =>
    rcases CharacterObject.on_item_cases replace names s.1 s.2 x with h | ⟨pre, post, h⟩
    · left; exact h
    · right; exact ⟨x, pre, post, h⟩

theorem CharacterObject.step_length_le (replace : String → String → String → String)
    (names : Nat → String) (s : CharacterObject × Option Quest) (e : CharEvent) :
    (CharacterObject.step replace names s e).1.behaviour.desired_items.length ≤
      s.1.behaviour.desired_items.length := by
  rcases CharacterObject.step_cases replace names s e with h | ⟨x, pre, post, hd, h2, _⟩
  · rw [h]
  · rw [h2, hd]; simp only [List.length_append, List.length_cons]; omega

theorem CharacterObject.step_solved (replace : String → String → String → String)
    (names : Nat → String) (s : CharacterObject × Option Quest) (e : CharEvent)
    (h : s.1.state = .SOLVED) : (CharacterObject.step replace names s e).1.state = .SOLVED := by
  rcases CharacterObject.step_cases replace names s e with h1 | ⟨x, pre, post, _, _, h3⟩
  · rw [h1]; exact h
  · rw [h3, h]; split <;> rfl

theorem CharacterObject.step_becomes_empty (replace : String → String → String → String)
    (names : Nat → String) (s : CharacterObject × Option Quest) (e : CharEvent)
    (h1 : s.1.behaviour.desired_items ≠ [])
    (h2 : (CharacterObject.step replace names s e).1.behaviour.desired_items = []) :
    (CharacterObject.step replace names s e).1.state = .SOLVED := by
  rcases CharacterObject.step_cases replace names s e with h | ⟨x, pre, post, _, h4, h5⟩
  · rw [h] at h2; exact absurd h2 h1
  · rw [h4] at h2
    rw [h5, if_pos h2]

theorem CharacterObject.run_length_le (replace : String → String → String → String)
    (names : Nat → String) (es : List CharEvent) (s : CharacterObject × Option Quest) :
    (CharacterObject.run replace names s es).1.behaviour.desired_items.length ≤
      s.1.behaviour.desired_items.length := by
  induction es generalizing s with
  | nil => exact Nat.le_refl _
  | cons e es ih =>
    exact Nat.le_trans (ih (CharacterObject.step replace names s e))
      (CharacterObject.step_length_le replace names s e)

theorem CharacterObject.run_solved (replace : String → String → String → String)
    (names : Nat → String) (es : List CharEvent) (s : CharacterObject × Option Quest)
    (h : s.1.state = .SOLVED) : (CharacterObject.run replace names s es).1.state = .SOLVED := by
  induction es generalizing s with
  | nil => exact h
  | cons e es ih =>
    exact ih (CharacterObject.step replace names s e)
      (CharacterObject.step_solved replace names s e h)

/-- The invariant of a character: it is UNSOLVED, or it is SOLVED with nothing
left to desire. -/
theorem CharacterObject.run_new_invariant (replace : String → String → String → String)
    (names : Nat → String) (es : List CharEvent) (item_tile : Nat → Nat) (char_index : Int)
    (cx cy : Int) (b : Behaviour) (quest : Option Quest) :
    (CharacterObject.run replace names (CharacterObject.new item_tile char_index cx cy b, quest) es).1.state
        = .UNSOLVED ∨
    ((CharacterObject.run replace names (CharacterObject.new item_tile char_index cx cy b, quest) es).1.state
        = .SOLVED ∧
     (CharacterObject.run replace names
        (CharacterObject.new item_tile char_index cx cy b, quest) es).1.behaviour.desired_items = []) := by
  suffices h : ∀ (es : List CharEvent) (s : CharacterObject × Option Quest),
      (s.1.state = .UNSOLVED ∨ (s.1.state = .SOLVED ∧ s.1.behaviour.desired_items = [])) →
      ((CharacterObject.run replace names s es).1.state = .UNSOLVED ∨
        ((CharacterObject.run replace names s es).1.state = .SOLVED ∧
          (CharacterObject.run replace names s es).1.behaviour.desired_items = [])) from
    h es _ (Or.inl rfl)
  intro es
  induction es with
  | nil => intro s hs; exact hs
  | cons e es ih =>
    intro s hs
    apply ih (CharacterObject.step replace names s e)
    rcases CharacterObject.step_cases replace names s e with h | ⟨x, pre, post, hd, h2, h3⟩
    · rw [h]; exact hs
    · by_cases he : pre ++ post = []
      · right; rw [h3, if_pos he, h2]; exact ⟨rfl, he⟩
      · rcases hs with hs | ⟨_, hs⟩
        · left; rw [h3, if_neg he]; exact hs
        · rw [hd] at hs; simp at hs

/-- C4. Along every sequence of `on_bump` and `on_item` calls on a character:
`desired_items` never grows; the call that empties `desired_items` leaves the
state SOLVED; and after every later call the state is still SOLVED and
`desired_items` is still empty. -/
theorem CharacterObject.solved_terminal (replace : String → String → String → String)
    (names : Nat → String) (s : CharacterObject × Option Quest)
    (before : List CharEvent) (e : CharEvent) (later : List CharEvent) :
    (CharacterObject.step replace names (CharacterObject.run replace names s before)
        e).1.behaviour.desired_items.length ≤
      (CharacterObject.run replace names s before).1.behaviour.desired_items.length ∧
    ((CharacterObject.run replace names s before).1.state = .SOLVED →
      (CharacterObject.step replace names (CharacterObject.run replace names s before)
        e).1.state = .SOLVED) ∧
    ((CharacterObject.run replace names s before).1.behaviour.desired_items ≠ [] →
      (CharacterObject.step replace names (CharacterObject.run replace names s before)
        e).1.behaviour.desired_items = [] →
      (CharacterObject.step replace names (CharacterObject.run replace names s before)
        e).1.state = .SOLVED ∧
      (CharacterObject.run replace names (CharacterObject.step replace names
        (CharacterObject.run replace names s before) e) later).1.state = .SOLVED ∧
      (CharacterObject.run replace names (CharacterObject.step replace names
        (CharacterObject.run replace names s before) e) later).1.behaviour.desired_items = []) := by
  refine ⟨CharacterObject.step_length_le replace names _ e,
    CharacterObject.step_solved replace names _ e, ?_⟩
  intro h1 h2
  have h3 := CharacterObject.step_becomes_empty replace names _ e h1 h2
  refine ⟨h3, CharacterObject.run_solved replace names later _ h3, ?_⟩
  have h4 := CharacterObject.run_length_le replace names later
    (CharacterObject.step replace names (CharacterObject.run replace names s before) e)
  rw [h2] at h4
  exact List.length_eq_zero.mp (Nat.le_zero.mp h4)

/-- Witness of C4: the character that wants `[3, 5]` is given `3`, bumped, and
given `5`, which empties the list; it is then bumped, given `5` and given `3`. -/
theorem CharacterObject.solved_terminal_witness :
    (CharacterObject.run exampleReplace exampleNames (exampleCharacter, some ⟨false⟩)
      [.item 3, .bump]).1.behaviour.desired_items ≠ [] ∧
    (CharacterObject.step exampleReplace exampleNames
      (CharacterObject.run exampleReplace exampleNames (exampleCharacter, some ⟨false⟩)
        [.item 3, .bump]) (.item 5)).1.behaviour.desired_items = [] ∧
    (CharacterObject.step exampleReplace exampleNames
      (CharacterObject.run exampleReplace exampleNames (exampleCharacter, some ⟨false⟩)
        [.item 3, .bump]) (.item 5)).1.state = .SOLVED ∧
    (CharacterObject.run exampleReplace exampleNames
      (CharacterObject.step exampleReplace exampleNames
        (CharacterObject.run exampleReplace exampleNames (exampleCharacter, some ⟨false⟩)
          [.item 3, .bump]) (.item 5)) [.bump, .item 5, .item 3]).1.state = .SOLVED ∧
    (CharacterObject.run exampleReplace exampleNames
      (CharacterObject.step exampleReplace exampleNames
        (CharacterObject.run exampleReplace exampleNames (exampleCharacter, some ⟨false⟩)
          [.item 3, .bump]) (.item 5)) [.bump, .item 5, .item 3]).1.behaviour.desired_items
      = [] :=
  ⟨by decide, by decide,
    (CharacterObject.solved_terminal exampleReplace exampleNames
      (exampleCharacter, some ⟨false⟩) [.item 3, .bump] (.item 5)
      [.bump, .item 5, .item 3]).2.2 (by decide) (by decide)⟩

/-! ## C5: the text substituted for `%1` and `%2` -/

theorem desired_text_loop_eq (names : Nat → String) (items : List Nat) (len : Nat)
    (n i : Nat) (acc : String) (h : i + n + 1 = len) :
    desired_text_loop names items len (n + 1) i acc =
      acc ++ repeated (", " ++ names (items.getD 1 0)) n ++ " and " ++
        names (items.getD 1 0) := by
  induction n generalizing i acc with
  | zero =>
    have hi : i = len - 1 := by omega
    simp [desired_text_loop, hi, repeated]
  | succ n ih =>
    have hi : ¬ (i = len - 1) := by omega
    rw [desired_text_loop, if_neg hi, ih (i + 1) _ (by omega)]
    simp [repeated, String.append_assoc]

/-- What the loop of `subst_names` builds for two or more desired items: every
item after the first is rendered with the name of the item at index `1`. -/
theorem desired_text_cons_cons (names : Nat → String) (a b : Nat) (l : List Nat) :
    desired_text names (a :: b :: l) =
      names a ++ repeated (", " ++ names b) l.length ++ " and " ++
        names b := by
  have h := desired_text_loop_eq names (a :: b :: l) (a :: b :: l).length l.length 1
    (names a) (by simp only [List.length_cons]; omega)
  simpa [desired_text] using h

/-- For at most two desired items the text for `%1` is the natural-language list. -/
theorem desired_text_short (names : Nat → String) (a b : Nat) :
    desired_text names [] = natural_list names [] ∧
    desired_text names [a] = natural_list names [a] ∧
    desired_text names [a, b] = natural_list names [a, b] := by
  refine ⟨rfl, rfl, ?_⟩
  rw [desired_text_cons_cons]
  simp [natural_list, repeated]

/-- The text for `%2` is the name of the payment item, and empty without one. -/
theorem payment_text_eq (names : Nat → String) (k : Nat) :
    payment_text names none = "" ∧ payment_text names (some (k + 1)) = names (k + 1) :=
  ⟨rfl, rfl⟩

/-- C5. With three desired items `[1, 2, 3]` named key, map and gem, the text
that `subst_names` substitutes for `%1` names the second item twice and the
third not at all, where the natural-language list of the names is
"key, map and gem". -/
theorem desired_text_three_items :
    desired_text exampleItemNames [1, 2, 3] = "key, map and map" ∧
    natural_list exampleItemNames [1, 2, 3] = "key, map and gem" ∧
    desired_text exampleItemNames [1, 2, 3] ≠ natural_list exampleItemNames [1, 2, 3] := by
  decide

/-! ## Lemmas on DoorObject -/

theorem DoorObject.on_bump_open_plain (names : Nat → String) (d : DoorObject)
    (ho : d.opened = true) (ht : d.teleport_target = none) : d.on_bump names = (d, []) := by
  simp [DoorObject.on_bump, ho, ht]

theorem DoorObject.on_bump_closed_nokey (names : Nat → String) (d : DoorObject)
    (hc : d.opened = false) (hk : js_truthy d.required_key = false) :
    d.on_bump names =
      (if d.teleport_target.isNone then
        { d with opened := true, tile_index := d.door_set.open_, obstacle := false }
       else { d with opened := true, tile_index := d.door_set.open_ }, []) := by
  cases ht : d.teleport_target <;>
    simp [DoorObject.on_bump, DoorObject.updateTile, hc, hk, ht]

theorem DoorObject.on_bump_closed_keyed (names : Nat → String) (d : DoorObject)
    (hc : d.opened = false) (hk : js_truthy d.required_key = true) :
    d.on_bump names =
      (d, [.explain ("You need " ++ names (d.required_key.getD 0) ++ " to open this door.")]) := by
  cases ht : d.teleport_target <;>
    simp [DoorObject.on_bump, hc, hk, ht]

theorem DoorObject.on_bump_open_teleport (names : Nat → String) (d : DoorObject)
    (t : TeleportTarget) (ho : d.opened = true) (ht : d.teleport_target = some t) :
    d.on_bump names =
      (if js_truthy d.required_key then d
       else { d with opened := false, tile_index := d.door_set.closed, obstacle := true },
       [.teleport t d.inroom_coords]) := by
  cases hk : js_truthy d.required_key <;>
    simp [DoorObject.on_bump, DoorObject.updateTile, ho, hk, ht]

theorem DoorObject.on_item_opens (names : Nat → String) (d : DoorObject) (x : Nat)
    (hc : d.opened = false) (hx : d.required_key = some x) :
    d.on_item names x =
      { ret := some true,
        door :=
          if d.teleport_target.isNone then
            { d with opened := true, tile_index := d.door_set.open_, obstacle := false }
          else { d with opened := true, tile_index := d.door_set.open_ },
        effects := [.explain ("You have used " ++ names x ++ " to open the door.")] } := by
  cases ht : d.teleport_target <;>
    simp [DoorObject.on_item, DoorObject.updateTile, hc, hx, ht]

theorem DoorObject.on_item_refused (names : Nat → String) (d : DoorObject) (x : Nat)
    (h : ¬ (d.opened = false ∧ d.required_key = some x)) :
    d.on_item names x =
      { ret := none, door := d,
        effects :=
          if js_truthy d.required_key then
            [.explain ("Wrong key, you need " ++ names (d.required_key.getD 0) ++ ".")]
          else [.explain "This door does not need a key."] } := by
  have h1 : (!d.opened && some x == d.required_key) = false := by
    cases ho : d.opened
    · have hx : ¬ (d.required_key = some x) := fun hx => h ⟨ho, hx⟩
      have hx2 : ¬ (some x = d.required_key) := fun h2 => hx h2.symm
      simp [hx2]
    · simp
  cases hk : js_truthy d.required_key <;>
    simp [DoorObject.on_item, h1, hk]

theorem DoorObject.run_bumps_fixed (names : Nat → String) (d : DoorObject)
    (h : (d.on_bump names).1 = d) (n : Nat) :
    DoorObject.run names d (List.replicate n .bump) = d := by
  induction n with
  | zero => rfl
  | succ n ih =>
    simp only [DoorObject.run, List.replicate_succ, List.foldl_cons, DoorObject.step] at ih ⊢
    rw [h]; exact ih

/-! ## C6: a door without key and teleport target -/

/-- C6. For a CLOSED door with no required key and no teleport target, the
first `on_bump` sets `opened = true`, the tile to `door_set.open` and
`obstacle = false`; every further `on_bump` leaves the door (so `opened`, the
tile and `obstacle`) unchanged and has no effect. -/
theorem DoorObject.on_bump_plain_door (names : Nat → String) (d : DoorObject)
    (hk : js_truthy d.required_key = false) (ht : d.teleport_target = none)
    (hc : d.opened = false) :
    (d.on_bump names).1.opened = true ∧
    (d.on_bump names).1.tile_index = d.door_set.open_ ∧
    (d.on_bump names).1.obstacle = false ∧
    ((d.on_bump names).1.on_bump names) = ((d.on_bump names).1, []) ∧
    ∀ n, DoorObject.run names (d.on_bump names).1 (List.replicate n .bump) =
      (d.on_bump names).1 := by
  have h1 : (d.on_bump names).1 =
      { d with opened := true, tile_index := d.door_set.open_, obstacle := false } := by
    rw [DoorObject.on_bump_closed_nokey names d hc hk, ht]; rfl
  have h2 : ((d.on_bump names).1.on_bump names) = ((d.on_bump names).1, []) :=
    DoorObject.on_bump_open_plain names _ (by rw [h1]) (by rw [h1]; exact ht)
  refine ⟨by rw [h1], by rw [h1], by rw [h1], h2, fun n => ?_⟩
  exact DoorObject.run_bumps_fixed names _ (by rw [h2]) n

/-- Witness of C6 on the example door without key and teleport target. -/
theorem DoorObject.on_bump_plain_door_witness :
    (js_truthy examplePlainDoor.required_key = false ∧
      examplePlainDoor.teleport_target = none ∧ examplePlainDoor.opened = false) ∧
    (examplePlainDoor.on_bump exampleItemNames).1.opened = true ∧
    (examplePlainDoor.on_bump exampleItemNames).1.tile_index = 21 ∧
    (examplePlainDoor.on_bump exampleItemNames).1.obstacle = false ∧
    ((examplePlainDoor.on_bump exampleItemNames).1.on_bump exampleItemNames) =
      ((examplePlainDoor.on_bump exampleItemNames).1, []) :=
  have h := DoorObject.on_bump_plain_door exampleItemNames examplePlainDoor rfl rfl rfl
  ⟨⟨rfl, rfl, rfl⟩, h.1, h.2.1, h.2.2.1, h.2.2.2.1⟩

/-! ## C7: a keyed door stays closed without its key -/

/-- For a CLOSED door whose required key is truthy (any item index but `0`) and
with `obstacle = true`, after every sequence of `on_bump` calls and `on_item(x)`
calls in which no `x` is the required key the door is CLOSED with
`obstacle = true` (it is unchanged altogether), and `on_bump` only gives the
need-key message. -/
theorem DoorObject.keyed_door_stays_closed (names : Nat → String) (d : DoorObject)
    (hk : js_truthy d.required_key = true) (hc : d.opened = false) (hb : d.obstacle = true)
    (es : List DoorEvent) (hes : ∀ x, DoorEvent.item x ∈ es → d.required_key ≠ some x) :
    (DoorObject.run names d es).opened = false ∧
    (DoorObject.run names d es).obstacle = true ∧
    DoorObject.run names d es = d ∧
    d.on_bump names =
      (d, [.explain ("You need " ++ names (d.required_key.getD 0) ++ " to open this door.")]) := by
  have hrun : DoorObject.run names d es = d := by
    induction es with
    | nil => rfl
    | cons e es ih =>
      have hstep : DoorObject.step names d e = d := by
        cases e with
        | bump =>
          simp only [DoorObject.step, DoorObject.on_bump_closed_keyed names d hc hk]
        | item x =>
          have hx : d.required_key ≠ some x := hes x (List.mem_cons_self _ _)
          simp only [DoorObject.step,
            DoorObject.on_item_refused names d x (fun h => hx h.2)]
      simp only [DoorObject.run, List.foldl_cons, hstep]
      exact ih (fun x hx => hes x (List.mem_cons_of_mem _ hx))
  exact ⟨by rw [hrun]; exact hc, by rw [hrun]; exact hb, hrun,
    DoorObject.on_bump_closed_keyed names d hc hk⟩

/-- An instance of `keyed_door_stays_closed`: the door that needs item `3` is
bumped and offered items `1` and `2`. -/
theorem DoorObject.keyed_door_stays_closed_witness :
    (js_truthy exampleKeyedDoor.required_key = true ∧ exampleKeyedDoor.opened = false ∧
      exampleKeyedDoor.obstacle = true ∧
      ∀ x, DoorEvent.item x ∈ [DoorEvent.bump, .item 1, .bump, .item 2] →
        exampleKeyedDoor.required_key ≠ some x) ∧
    (DoorObject.run exampleItemNames exampleKeyedDoor
      [.bump, .item 1, .bump, .item 2]).opened = false ∧
    (DoorObject.run exampleItemNames exampleKeyedDoor
      [.bump, .item 1, .bump, .item 2]).obstacle = true :=
  have hes : ∀ x, DoorEvent.item x ∈ [DoorEvent.bump, .item 1, .bump, .item 2] →
      exampleKeyedDoor.required_key ≠ some x := by
    intro x hx
    simp only [List.mem_cons, DoorEvent.item.injEq, List.mem_singleton, List.not_mem_nil,
      or_false, false_or, reduceCtorEq] at hx
    rcases hx with rfl | rfl <;> decide
  have h := DoorObject.keyed_door_stays_closed exampleItemNames exampleKeyedDoor rfl rfl rfl
    [.bump, .item 1, .bump, .item 2] hes
  ⟨⟨rfl, rfl, rfl, hes⟩, h.1, h.2.1⟩

/-- C7. The door constructed with the required key `0` (an item index, not
`null`) is CLOSED and an obstacle; a single `on_bump`, with no key used on the
door, leaves it OPEN with the open tile and `obstacle = false`, and gives no
need-key message. -/
theorem DoorObject.on_bump_key_zero_opens :
    exampleKeyZeroDoor.required_key = some 0 ∧
    exampleKeyZeroDoor.required_key ≠ none ∧
    exampleKeyZeroDoor.opened = false ∧
    exampleKeyZeroDoor.obstacle = true ∧
    (exampleKeyZeroDoor.on_bump exampleItemNames).1.opened = true ∧
    (exampleKeyZeroDoor.on_bump exampleItemNames).1.tile_index = 21 ∧
    (exampleKeyZeroDoor.on_bump exampleItemNames).1.obstacle = false ∧
    (exampleKeyZeroDoor.on_bump exampleItemNames).2 = [] := by
  decide

/-! ## C8: what `on_item` reports on a door -/

/-- The part of the description of `on_item` that holds on every door: the item
is consumed exactly when the door is CLOSED and `x` is the required key, the
door is then OPEN with the open tile, and in every other case nothing is
consumed, the door is unchanged, and the message is the wrong-key one when a key
is required and the needs-no-key one otherwise. -/
theorem DoorObject.on_item_consumed_iff (names : Nat → String) (d : DoorObject) (x : Nat) :
    ((d.on_item names x).consumed = true ↔ (d.opened = false ∧ d.required_key = some x)) ∧
    ((d.on_item names x).consumed = true →
      (d.on_item names x).door.opened = true ∧
      (d.on_item names x).door.tile_index = d.door_set.open_) ∧
    ((d.on_item names x).consumed = false →
      (d.on_item names x).door = d ∧
      (d.on_item names x).effects =
        (if js_truthy d.required_key then
          [.explain ("Wrong key, you need " ++ names (d.required_key.getD 0) ++ ".")]
        else [.explain "This door does not need a key."])) := by
  by_cases h : d.opened = false ∧ d.required_key = some x
  · rw [DoorObject.on_item_opens names d x h.1 h.2]
    refine ⟨⟨fun _ => h, fun _ => rfl⟩, fun _ => ?_, fun hc => ?_⟩
    · cases d.teleport_target <;> exact ⟨rfl, rfl⟩
    · cases hc
  · rw [DoorObject.on_item_refused names d x h]
    refine ⟨⟨fun hc => ?_, fun h1 => absurd h1 h⟩, fun hc => ?_, fun _ => ⟨rfl, rfl⟩⟩
    · cases hc
    · cases hc

/-- C8. The keyed example door, once opened with its key (item `3`, the gem),
is offered the key again: `on_item` consumes nothing and leaves the door as it
is, but reports "Wrong key, you need gem." although the item is the required
key. -/
theorem DoorObject.on_item_open_door_right_key :
    exampleOpenKeyedDoor.opened = true ∧
    exampleOpenKeyedDoor.required_key = some 3 ∧
    (exampleOpenKeyedDoor.on_item exampleItemNames 3).consumed = false ∧
    (exampleOpenKeyedDoor.on_item exampleItemNames 3).door = exampleOpenKeyedDoor ∧
    (exampleOpenKeyedDoor.on_item exampleItemNames 3).effects =
      [.explain "Wrong key, you need gem."] := by
  decide

/-! ## C9: a teleporting door is always an obstacle -/

theorem DoorObject.step_teleport_obstacle (names : Nat → String) (d : DoorObject)
    (t : TeleportTarget) (e : DoorEvent)
    (ht : d.teleport_target = some t) (hb : d.obstacle = true) :
    (DoorObject.step names d e).teleport_target = some t ∧
    (DoorObject.step names d e).obstacle = true := by
  cases e with
  | bump =>
    simp only [DoorObject.step]
    cases ho : d.opened
    · cases hk : js_truthy d.required_key
      · rw [DoorObject.on_bump_closed_nokey names d ho hk]
        simp [ht, hb]
      · rw [DoorObject.on_bump_closed_keyed names d ho hk]
        exact ⟨ht, hb⟩
    · rw [DoorObject.on_bump_open_teleport names d t ho ht]
      cases hk : js_truthy d.required_key
      · exact ⟨ht, rfl⟩
      · exact ⟨ht, hb⟩
  | item x =>
    simp only [DoorObject.step]
    by_cases h : d.opened = false ∧ d.required_key = some x
    · rw [DoorObject.on_item_opens names d x h.1 h.2]
      simp [ht, hb]
    · rw [DoorObject.on_item_refused names d x h]
      exact ⟨ht, hb⟩

theorem DoorObject.run_teleport_obstacle (names : Nat → String) (t : TeleportTarget)
    (es : List DoorEvent) (d : DoorObject)
    (ht : d.teleport_target = some t) (hb : d.obstacle = true) :
    (DoorObject.run names d es).teleport_target = some t ∧
    (DoorObject.run names d es).obstacle = true := by
  induction es generalizing d with
  | nil => exact ⟨ht, hb⟩
  | cons e es ih =>
    obtain ⟨h1, h2⟩ := DoorObject.step_teleport_obstacle names d t e ht hb
    exact ih (DoorObject.step names d e) h1 h2

/-- C9. A door constructed with a teleport target has `obstacle = true` after
every sequence of `on_bump` and `on_item` calls, whatever its key and also once
it has been opened. -/
theorem DoorObject.teleport_door_always_obstacle (names : Nat → String)
    (item_tile : Nat → Nat) (door_set : DoorSet) (cx cy : Int) (target : TeleportTarget)
    (required_key : Option Nat) (inroom_coords : Option (Int × Int)) (es : List DoorEvent) :
    (DoorObject.run names
      (DoorObject.new item_tile door_set cx cy (some target) required_key inroom_coords)
      es).obstacle = true :=
  (DoorObject.run_teleport_obstacle names target es _ rfl rfl).2

/-! ## C10: bumping an open teleporting door -/

/-- C10. For an OPEN door with a teleport target, `on_bump` teleports the
player exactly once.  If the door has no required key it is then CLOSED
(`opened = false`, closed tile, `obstacle = true`) and the next bump re-opens it
without teleporting; if the door has a required key it is unchanged, so it
remains OPEN and every further bump teleports exactly once again. -/
theorem DoorObject.on_bump_open_teleporter (names : Nat → String) (d : DoorObject)
    (t : TeleportTarget) (ho : d.opened = true) (ht : d.teleport_target = some t) :
    (d.on_bump names).2 = [.teleport t d.inroom_coords] ∧
    teleports (d.on_bump names).2 = 1 ∧
    (js_truthy d.required_key = false →
      (d.on_bump names).1.opened = false ∧
      (d.on_bump names).1.tile_index = d.door_set.closed ∧
      (d.on_bump names).1.obstacle = true ∧
      teleports ((d.on_bump names).1.on_bump names).2 = 0 ∧
      ((d.on_bump names).1.on_bump names).1.opened = true ∧
      ((d.on_bump names).1.on_bump names).1.tile_index = d.door_set.open_) ∧
    (js_truthy d.required_key = true →
      (d.on_bump names).1 = d ∧
      ∀ n, DoorObject.run names d (List.replicate n .bump) = d ∧
        (DoorObject.run names d (List.replicate n .bump)).opened = true ∧
        teleports ((DoorObject.run names d (List.replicate n .bump)).on_bump names).2 = 1) := by
  have h := DoorObject.on_bump_open_teleport names d t ho ht
  refine ⟨by rw [h], by rw [h]; rfl, fun hk => ?_, fun hk => ?_⟩
  · have h1 : (d.on_bump names).1 =
        { d with opened := false, tile_index := d.door_set.closed, obstacle := true } := by
      rw [h, hk]; rfl
    have h2 := DoorObject.on_bump_closed_nokey names (d.on_bump names).1
      (by rw [h1]) (by rw [h1]; exact hk)
    have h3 : (d.on_bump names).1.teleport_target = some t := by rw [h1]; exact ht
    have h4 : (d.on_bump names).1.door_set = d.door_set := by rw [h1]
    refine ⟨by rw [h1], by rw [h1], by rw [h1], by rw [h2]; rfl, ?_, ?_⟩
    · rw [h2, h3]; rfl
    · rw [h2, h3, h4]; rfl
  · have h1 : (d.on_bump names).1 = d := by rw [h, hk]; rfl
    refine ⟨h1, fun n => ?_⟩
    have h2 := DoorObject.run_bumps_fixed names d h1 n
    rw [h2]
    exact ⟨rfl, ho, by rw [h]; rfl⟩

/-- Witness of C10 on the two teleporting example doors, both opened: the
keyless one closes again on the bump that teleports, the keyed one stays open. -/
theorem DoorObject.on_bump_open_teleporter_witness :
    (exampleOpenTeleportDoor.opened = true ∧
      exampleOpenTeleportDoor.teleport_target = some (.cell 1 2) ∧
      js_truthy exampleOpenTeleportDoor.required_key = false) ∧
    (exampleOpenTeleportDoor.on_bump exampleItemNames).2 = [.teleport (.cell 1 2) (some (5, 5))] ∧
    (exampleOpenTeleportDoor.on_bump exampleItemNames).1.opened = false ∧
    (exampleOpenTeleportDoor.on_bump exampleItemNames).1.tile_index = 20 ∧
    (exampleOpenTeleportDoor.on_bump exampleItemNames).1.obstacle = true ∧
    (exampleOpenKeyedDoor.opened = true ∧
      exampleOpenKeyedDoor.teleport_target = some (.room 7) ∧
      js_truthy exampleOpenKeyedDoor.required_key = true) ∧
    (exampleOpenKeyedDoor.on_bump exampleItemNames).1 = exampleOpenKeyedDoor ∧
    teleports (exampleOpenKeyedDoor.on_bump exampleItemNames).2 = 1 :=
  have h1 := DoorObject.on_bump_open_teleporter exampleItemNames exampleOpenTeleportDoor
    (.cell 1 2) (by decide) (by decide)
  have h2 := DoorObject.on_bump_open_teleporter exampleItemNames exampleOpenKeyedDoor
    (.room 7) (by decide) (by decide)
  ⟨⟨by decide, by decide, by decide⟩, h1.1, (h1.2.2.1 (by decide)).1,
    (h1.2.2.1 (by decide)).2.1, (h1.2.2.1 (by decide)).2.2.1,
    ⟨by decide, by decide, by decide⟩, (h2.2.2.2 (by decide)).1, h2.2.1⟩

/-! ## C11: a container releases its item once -/

theorem le_foldr_max (l : List Nat) (x : Nat) (h : x ∈ l) : x ≤ l.foldr max 0 := by
  induction l with
  | nil => cases h
  | cons a l ih =>
    rcases List.mem_cons.mp h with rfl | h1
    · exact Nat.le_max_left _ _
    · exact Nat.le_trans (ih h1) (Nat.le_max_right _ _)

theorem World.fresh_gt (w : World) (self x : Nat)
    (h : x = self ∨ x ∈ w.objects ∨ x ∈ w.pickables.map Prod.fst) : x < w.fresh self := by
  have hx : x ∈ self :: (w.objects ++ w.pickables.map Prod.fst) := by
    rcases h with rfl | h | h
    · exact List.mem_cons_self _ _
    · exact List.mem_cons_of_mem _ (List.mem_append_left _ h)
    · exact List.mem_cons_of_mem _ (List.mem_append_right _ h)
  exact Nat.lt_succ_of_le (le_foldr_max _ x hx)

theorem World.fresh_new (w : World) (self : Nat) :
    w.fresh self ≠ self ∧ w.fresh self ∉ w.objects ∧
    w.fresh self ∉ w.pickables.map Prod.fst := by
  refine ⟨fun h => ?_, fun h => ?_, fun h => ?_⟩
  · exact Nat.lt_irrefl _ (World.fresh_gt w self _ (Or.inl h))
  · exact Nat.lt_irrefl _ (World.fresh_gt w self _ (Or.inr (Or.inl h)))
  · exact Nat.lt_irrefl _ (World.fresh_gt w self _ (Or.inr (Or.inr h)))

theorem bringToFront_head {α : Type} [DecidableEq α] (objects : List α) (e : α) :
    (bringToFront objects e)[0]? = some e := by
  simp [bringToFront, unshift]

theorem World.new_pickable_eq (ops : RoomOps) (item_tile : Nat → Nat) (empty_tile : Nat)
    (w : World) (self item : Nat) (cx cy : Int) (bump : Bool) :
    w.new_pickable ops item_tile empty_tile self item cx cy bump =
      (w.fresh self,
        { objects := bringToFront (ops.addObj w.objects (w.fresh self)) (w.fresh self),
          pickables :=
            (w.fresh self,
              if bump then
                ((PickableObject.new item_tile empty_tile item cx cy).enterRoom.on_bump
                  (w.fresh self)).1
              else (PickableObject.new item_tile empty_tile item cx cy).enterRoom)
            :: w.pickables },
        if bump then [.pickup (w.fresh self)] else []) := by
  cases bump <;> rfl

theorem ContainerObject.on_bump_opened (ops : RoomOps) (item_tile : Nat → Nat)
    (empty_tile : Nat) (w : World) (c : ContainerObject) (self : Nat) (h : c.opened = true) :
    c.on_bump ops item_tile empty_tile w self = (w, c, []) := by
  simp [ContainerObject.on_bump, h]

theorem ContainerObject.on_bump_stored (ops : RoomOps) (item_tile : Nat → Nat)
    (empty_tile : Nat) (w : World) (c : ContainerObject) (self : Nat)
    (hc : c.opened = false) (hi : js_truthy c.stored_item_index = true) :
    c.on_bump ops item_tile empty_tile w self =
      ((w.new_pickable ops item_tile empty_tile self (c.stored_item_index.getD 0)
          c.cx c.cy true).2.1,
       { c with opened := true, tile_index := c.container_set.open_, has_on_bump := false },
       [.pickup (w.fresh self)] ++ if c.has_on_open then [.on_open] else []) := by
  simp [ContainerObject.on_bump, hc, hi, World.new_pickable_eq]

theorem ContainerObject.bumps_disabled (ops : RoomOps) (item_tile : Nat → Nat)
    (empty_tile : Nat) (self : Nat) (n : Nat) (s : World × ContainerObject)
    (h : s.2.has_on_bump = false) :
    ContainerObject.bumps ops item_tile empty_tile self n s = s := by
  induction n with
  | zero => rfl
  | succ n ih =>
    have hb : ContainerObject.bump ops item_tile empty_tile s self = s := by
      simp [ContainerObject.bump, h]
    rw [ContainerObject.bumps, hb, ih]

/-- C11. For a CLOSED container with a configured stored item `i` at `(x, y)`,
the first `on_bump` sets the open tile and creates exactly one pickable object,
a new object for item `i` at `(x, y)` that is at index 0 of the member sequence
of the room and in state BLINKING; the bump handling of the container is then
disabled and `opened` is true, so that no number of later bumps changes the
room, the pickable objects or the container, and the method `on_bump` itself
would create nothing either. -/
theorem ContainerObject.on_bump_releases_item (ops : RoomOps) (item_tile : Nat → Nat)
    (empty_tile : Nat) (w : World) (c : ContainerObject) (self i : Nat)
    (hc : c.opened = false) (hi : c.stored_item_index = some i)
    (ht : js_truthy c.stored_item_index = true) :
    (c.on_bump ops item_tile empty_tile w self).2.1.tile_index = c.container_set.open_ ∧
    (c.on_bump ops item_tile empty_tile w self).2.1.opened = true ∧
    (c.on_bump ops item_tile empty_tile w self).2.1.has_on_bump = false ∧
    (∃ p, (c.on_bump ops item_tile empty_tile w self).1.pickables =
          (w.fresh self, p) :: w.pickables ∧
      p.item_index = some i ∧ p.cx = c.cx ∧ p.cy = c.cy ∧ p.state = .BLINKING) ∧
    (w.fresh self ≠ self ∧ w.fresh self ∉ w.objects ∧
      w.fresh self ∉ w.pickables.map Prod.fst) ∧
    (c.on_bump ops item_tile empty_tile w self).1.objects[0]? = some (w.fresh self) ∧
    (∀ n, ContainerObject.bumps ops item_tile empty_tile self n
        ((c.on_bump ops item_tile empty_tile w self).1,
          (c.on_bump ops item_tile empty_tile w self).2.1) =
        ((c.on_bump ops item_tile empty_tile w self).1,
          (c.on_bump ops item_tile empty_tile w self).2.1)) ∧
    (c.on_bump ops item_tile empty_tile w self).2.1.on_bump ops item_tile empty_tile
        (c.on_bump ops item_tile empty_tile w self).1 self =
      ((c.on_bump ops item_tile empty_tile w self).1,
        (c.on_bump ops item_tile empty_tile w self).2.1, []) := by
  have h := ContainerObject.on_bump_stored ops item_tile empty_tile w c self hc ht
  rw [World.new_pickable_eq] at h
  rw [h]
  refine ⟨rfl, rfl, rfl, ⟨_, rfl, ?_, rfl, rfl, rfl⟩, World.fresh_new w self,
    bringToFront_head _ _, fun n => ?_, ?_⟩
  · simp [hi, PickableObject.on_bump, PickableObject.enterRoom, PickableObject.new,
      ActiveObject.item_of]
  · exact ContainerObject.bumps_disabled ops item_tile empty_tile self n _ rfl
  · exact ContainerObject.on_bump_opened ops item_tile empty_tile _ _ self rfl

/-- Witness of C11: the container at `(6, 3)` that holds item `42`, in a room
with three members; the new pickable object gets the reference `4`. -/
theorem ContainerObject.on_bump_releases_item_witness :
    (exampleContainer.opened = false ∧ exampleContainer.stored_item_index = some 42 ∧
      js_truthy exampleContainer.stored_item_index = true) ∧
    (exampleContainer.on_bump Room.ops exampleItemTile 0 exampleWorld 2).1.objects
      = [4, 1, 2, 3] ∧
    (exampleContainer.on_bump Room.ops exampleItemTile 0 exampleWorld 2).1.pickables
      = [(4, { state := .BLINKING, obstacle := true, tile_index := 142, cx := 6, cy := 3,
               item_index := some 42, sprite := some 142, blink_tiles := [0, 142],
               blinkdelay := 0, take_delay := some 6 })] ∧
    (exampleContainer.on_bump Room.ops exampleItemTile 0 exampleWorld 2).2.1.opened = true ∧
    (exampleContainer.on_bump Room.ops exampleItemTile 0 exampleWorld 2).2.1.has_on_bump
      = false :=
  have h := ContainerObject.on_bump_releases_item Room.ops exampleItemTile 0 exampleWorld
    exampleContainer 2 42 rfl rfl rfl
  ⟨⟨rfl, rfl, rfl⟩, by decide, by decide, h.2.1, h.2.2.1⟩

/-! ## C12: the grace counter of a pickable object -/

/-- One frame of a BLINKING object with `take_delay = t`: the object stays
BLINKING, the counter is decremented while it is positive, and `on_pickup` and
`finish_pickup` are called exactly when a confirm key is down and the counter
has reached `0` on this frame. -/
theorem PickableObject.on_frame_blinking (p : PickableObject) (space enter : Bool) (t : Int)
    (hs : p.state = .BLINKING) (ht : p.take_delay = some t) :
    (p.on_frame space enter).1.state = .BLINKING ∧
    (p.on_frame space enter).1.take_delay = some (if t > 0 then t - 1 else t) ∧
    (p.on_frame space enter).2 =
      (if (space || enter) && decide ((if t > 0 then t - 1 else t) ≤ 0) then
        [.on_pickup, .finish_pickup] else []) := by
  unfold PickableObject.on_frame
  rw [if_pos hs]
  by_cases hb : p.blinkdelay - 1 ≤ 0
  · cases hbt : p.blink_tiles with
    | nil =>
      by_cases h0 : t > 0 <;>
        cases hk : (space || enter) <;>
          by_cases h1 : t - 1 ≤ 0 <;>
            by_cases h2 : t ≤ 0 <;>
              simp [hb, hbt, ht, hs, h0, hk, h1, h2, take_delay_elapsed]
    | cons a l =>
      by_cases h0 : t > 0 <;>
        cases hk : (space || enter) <;>
          by_cases h1 : t - 1 ≤ 0 <;>
            by_cases h2 : t ≤ 0 <;>
              simp [hb, hbt, ht, hs, h0, hk, h1, h2, take_delay_elapsed]
  · by_cases h0 : t > 0 <;>
      cases hk : (space || enter) <;>
        by_cases h1 : t - 1 ≤ 0 <;>
          by_cases h2 : t ≤ 0 <;>
            simp [hb, ht, hs, h0, hk, h1, h2, take_delay_elapsed]

theorem PickableObject.frames_blinking (keys : List (Bool × Bool)) (p : PickableObject)
    (t : Int) (hs : p.state = .BLINKING) (ht : p.take_delay = some t) (h0 : 0 ≤ t) :
    (p.frames keys).state = .BLINKING ∧
    (p.frames keys).take_delay = some (max (t - keys.length) 0) := by
  induction keys generalizing p t with
  | nil =>
    refine ⟨hs, ?_⟩
    simp only [PickableObject.frames, List.foldl_nil, List.length_nil, ht]
    congr 1
    simp [h0]
  | cons k keys ih =>
    obtain ⟨h1, h2, _⟩ := PickableObject.on_frame_blinking p k.1 k.2 t hs ht
    have h3 : 0 ≤ (if t > 0 then t - 1 else t) := by split <;> omega
    obtain ⟨h4, h5⟩ := ih (p.on_frame k.1 k.2).1 _ h1 h2 h3
    refine ⟨h4, ?_⟩
    have h6 : (p.frames (k :: keys)) = ((p.on_frame k.1 k.2).1).frames keys := rfl
    rw [h6, h5]
    congr 1
    simp only [List.length_cons, Nat.cast_add, Nat.cast_one]
    split <;> omega

/-- C12. After `on_bump` has set `take_delay = 6`, whatever the confirm keys do
on the frames `before`, the object is still BLINKING, `take_delay` is
`6 - before.length` floored at `0` (so never negative, also after the next
frame), and the next frame calls `on_pickup` and `player.finish_pickup` exactly
when it is the sixth frame or a later one and SPACE or Enter is down; on the
first five frames nothing is called. -/
theorem PickableObject.grace_counter (p : PickableObject) (self : Nat)
    (before : List (Bool × Bool)) (space enter : Bool) :
    (((p.on_bump self).1.frames before).state = .BLINKING) ∧
    ((p.on_bump self).1.frames before).take_delay
      = some (max (6 - (before.length : Int)) 0) ∧
    (∃ t : Int, 0 ≤ t ∧
      (((p.on_bump self).1.frames before).on_frame space enter).1.take_delay = some t) ∧
    (((p.on_bump self).1.frames before).on_frame space enter).2 =
      (if 6 ≤ before.length + 1 ∧ (space = true ∨ enter = true) then
        [Effect.on_pickup, Effect.finish_pickup]
      else []) := by
  obtain ⟨h1, h2⟩ :=
    PickableObject.frames_blinking before (p.on_bump self).1 6 rfl rfl (by decide)
  obtain ⟨_, h4, h5⟩ := PickableObject.on_frame_blinking _ space enter _ h1 h2
  refine ⟨h1, h2, ⟨_, ?_, h4⟩, ?_⟩
  · split <;> omega
  · rw [h5]
    by_cases hn : 6 ≤ before.length + 1
    · have hz : (if max (6 - (before.length : Int)) 0 > 0
          then max (6 - (before.length : Int)) 0 - 1
          else max (6 - (before.length : Int)) 0) ≤ 0 := by split <;> omega
      rw [decide_eq_true hz]
      cases space <;> cases enter <;> simp [hn]
    · have hz : ¬ ((if max (6 - (before.length : Int)) 0 > 0
          then max (6 - (before.length : Int)) 0 - 1
          else max (6 - (before.length : Int)) 0) ≤ 0) := by split <;> omega
      rw [decide_eq_false hz]
      cases space <;> cases enter <;> simp [hn]

/-! ## Lemmas on WanderingMonster -/

theorem WanderingMonster.on_frame_waiting (grid : Grid) (obstacle : Int → Int → Bool)
    (player : Int × Int) (r1 r2 : ℚ) (m : WanderingMonster) (h : ¬ (m.walk_timer - 1 ≤ 0)) :
    m.on_frame grid obstacle player r1 r2 = ({ m with walk_timer := m.walk_timer - 1 }, []) := by
  simp only [WanderingMonster.on_frame, h, if_false]

theorem WanderingMonster.on_frame_expired_none (grid : Grid) (obstacle : Int → Int → Bool)
    (player : Int × Int) (r1 r2 : ℚ) (m : WanderingMonster) (h : m.walk_timer - 1 ≤ 0)
    (hsel : random_entry (m.shuffled_positions grid obstacle) r1 = none) :
    m.on_frame grid obstacle player r1 r2 =
      ({ m with walk_timer := rearm m.walk_delay r2 }, []) := by
  have hsel2 : random_entry (WanderingMonster.shuffled_positions grid obstacle
      { m with walk_timer := m.walk_timer - 1 }) r1 = none := hsel
  simp [WanderingMonster.on_frame, h, hsel2]

theorem WanderingMonster.on_frame_expired_some (grid : Grid) (obstacle : Int → Int → Bool)
    (player : Int × Int) (r1 r2 : ℚ) (m : WanderingMonster) (sel : Candidate)
    (h : m.walk_timer - 1 ≤ 0)
    (hsel : random_entry (m.shuffled_positions grid obstacle) r1 = some sel) :
    m.on_frame grid obstacle player r1 r2 =
      (if player.1 = sel.cx ∧ player.2 = sel.cy then
        ({ m with
            direction := sel.new_dir,
            tile_index :=
              if m.direction ≠ sel.new_dir then m.monster_set.tile sel.new_dir
              else m.tile_index,
            walk_timer := rearm m.walk_delay r2 },
          [.player_on_hit m.hit])
      else if grid.has_offsets sel.cx sel.cy = true then
        ({ m with
            direction := sel.new_dir,
            tile_index :=
              if m.direction ≠ sel.new_dir then m.monster_set.tile sel.new_dir
              else m.tile_index,
            cx := sel.cx, cy := sel.cy,
            walk_timer := rearm m.walk_delay r2 },
          [])
      else
        ({ m with
            direction := sel.new_dir,
            tile_index :=
              if m.direction ≠ sel.new_dir then m.monster_set.tile sel.new_dir
              else m.tile_index,
            cx := sel.cx, cy := sel.cy,
            walk_timer := m.walk_timer - 1 },
          [.type_error])) := by
  have hsel2 : random_entry (WanderingMonster.shuffled_positions grid obstacle
      { m with walk_timer := m.walk_timer - 1 }) r1 = some sel := hsel
  simp only [WanderingMonster.on_frame, h, if_true, hsel2]
  by_cases hd : m.direction = sel.new_dir <;>
    by_cases hp : player.1 = sel.cx ∧ player.2 = sel.cy <;>
      by_cases ho : grid.has_offsets sel.cx sel.cy = true <;>
        simp [hd, hp, ho, WanderingMonster.on_bump, WanderingMonster.updatePos]

theorem random_entry_nil {α : Type} (r : ℚ) : random_entry ([] : List α) r = none := by
  simp [random_entry]

theorem random_entry_zero {α : Type} (a : α) (l : List α) :
    random_entry (a :: l) 0 = some a := by
  simp [random_entry]

theorem random_entry_mem {α : Type} (l : List α) (r : ℚ) (a : α)
    (h : random_entry l r = some a) : a ∈ l := by
  unfold random_entry at h
  simp only at h
  split at h
  · cases h
  · exact List.getElem?_mem h

theorem WanderingMonster.keeps_bounds (grid : Grid) (obstacle : Int → Int → Bool)
    (p : Candidate) (h : WanderingMonster.keeps grid obstacle p = true) :
    0 ≤ p.cx ∧ p.cx < grid.width ∧ 0 ≤ p.cy ∧ p.cy < grid.width ∧
    obstacle p.cx p.cy = false := by
  unfold WanderingMonster.keeps at h
  split at h
  · cases h
  · rename_i hb
    simp only [Bool.or_eq_true, decide_eq_true_eq, not_or, not_lt, not_le] at hb
    split at h
    · cases h
    · rename_i ho
      exact ⟨hb.1.1.1, hb.1.1.2, hb.1.2, hb.2, by simpa using ho⟩

/-- On a grid that is at least as high as it is wide, each cell that the loop of
`on_frame` keeps has an entry in `Game.grid.offsets`. -/
theorem WanderingMonster.keeps_has_offsets (grid : Grid) (obstacle : Int → Int → Bool)
    (p : Candidate) (hgrid : grid.width ≤ grid.height)
    (h : WanderingMonster.keeps grid obstacle p = true) :
    grid.has_offsets p.cx p.cy = true := by
  obtain ⟨h1, h2, h3, h4, _⟩ := WanderingMonster.keeps_bounds grid obstacle p h
  have h5 : p.cy < grid.height := by omega
  simp [Grid.has_offsets, h1, h2, h3, h5]

/-- On a grid that is at least as high as it is wide (such as the 15 by 15 grid
of `init_game`), a monster whose timer expires while each of its four
neighbour cells is outside the grid or an obstacle keeps its cell and its
direction, attacks nobody, and has its timer re-armed. -/
theorem WanderingMonster.on_frame_blocked (grid : Grid) (obstacle : Int → Int → Bool)
    (player : Int × Int) (r1 r2 : ℚ) (m : WanderingMonster)
    (hexp : m.walk_timer - 1 ≤ 0) (hgrid : grid.width ≤ grid.height)
    (hblocked : ∀ p ∈ m.possible_positions,
      (p.cx < 0 ∨ grid.width ≤ p.cx ∨ p.cy < 0 ∨ grid.height ≤ p.cy) ∨
        obstacle p.cx p.cy = true) :
    m.on_frame grid obstacle player r1 r2 =
      ({ m with walk_timer := rearm m.walk_delay r2 }, []) := by
  apply WanderingMonster.on_frame_expired_none grid obstacle player r1 r2 m hexp
  have hnil : m.shuffled_positions grid obstacle = [] := by
    unfold WanderingMonster.shuffled_positions
    rw [List.filter_eq_nil_iff]
    intro p hp hk
    obtain ⟨h1, h2, h3, h4, h5⟩ := WanderingMonster.keeps_bounds grid obstacle p hk
    rcases hblocked p hp with (h | h | h | h) | h
    · omega
    · omega
    · omega
    · omega
    · rw [h5] at h; cases h
  rw [hnil, random_entry_nil]

/-- On a grid that is at least as high as it is wide (such as the 15 by 15 grid
of `init_game`), a monster inside the grid is inside the grid after `on_frame`. -/
theorem WanderingMonster.on_frame_in_grid (grid : Grid) (obstacle : Int → Int → Bool)
    (player : Int × Int) (r1 r2 : ℚ) (m : WanderingMonster)
    (hgrid : grid.width ≤ grid.height)
    (hin : 0 ≤ m.cx ∧ m.cx < grid.width ∧ 0 ≤ m.cy ∧ m.cy < grid.height) :
    0 ≤ (m.on_frame grid obstacle player r1 r2).1.cx ∧
    (m.on_frame grid obstacle player r1 r2).1.cx < grid.width ∧
    0 ≤ (m.on_frame grid obstacle player r1 r2).1.cy ∧
    (m.on_frame grid obstacle player r1 r2).1.cy < grid.height := by
  by_cases hexp : m.walk_timer - 1 ≤ 0
  · cases hsel : random_entry (m.shuffled_positions grid obstacle) r1 with
    | none =>
      rw [WanderingMonster.on_frame_expired_none grid obstacle player r1 r2 m hexp hsel]
      exact hin
    | some sel =>
      rw [WanderingMonster.on_frame_expired_some grid obstacle player r1 r2 m sel hexp hsel]
      have hmem := random_entry_mem _ _ _ hsel
      have hk := (List.mem_filter.mp hmem).2
      obtain ⟨h1, h2, h3, h4, _⟩ := WanderingMonster.keeps_bounds grid obstacle sel hk
      have ho := WanderingMonster.keeps_has_offsets grid obstacle sel hgrid hk
      rw [if_pos ho]
      split
      · exact hin
      · exact ⟨h1, h2, h3, by simp only; omega⟩
  · rw [WanderingMonster.on_frame_waiting grid obstacle player r1 r2 m hexp]
    exact hin

/-- On a grid that is at least as high as it is wide, `on_frame` does not throw. -/
theorem WanderingMonster.on_frame_no_throw (grid : Grid) (obstacle : Int → Int → Bool)
    (player : Int × Int) (r1 r2 : ℚ) (m : WanderingMonster)
    (hgrid : grid.width ≤ grid.height) :
    Effect.type_error ∉ (m.on_frame grid obstacle player r1 r2).2 := by
  by_cases hexp : m.walk_timer - 1 ≤ 0
  · cases hsel : random_entry (m.shuffled_positions grid obstacle) r1 with
    | none =>
      rw [WanderingMonster.on_frame_expired_none grid obstacle player r1 r2 m hexp hsel]
      simp
    | some sel =>
      rw [WanderingMonster.on_frame_expired_some grid obstacle player r1 r2 m sel hexp hsel]
      have hk := (List.mem_filter.mp (random_entry_mem _ _ _ hsel)).2
      rw [if_pos (WanderingMonster.keeps_has_offsets grid obstacle sel hgrid hk)]
      split <;> simp
  · rw [WanderingMonster.on_frame_waiting grid obstacle player r1 r2 m hexp]
    simp

/-- On a grid that is at least as high as it is wide, a monster whose timer
expires has it re-armed by `on_frame`. -/
theorem WanderingMonster.on_frame_walk_timer (grid : Grid) (obstacle : Int → Int → Bool)
    (player : Int × Int) (r1 r2 : ℚ) (m : WanderingMonster) (hexp : m.walk_timer - 1 ≤ 0)
    (hgrid : grid.width ≤ grid.height) :
    (m.on_frame grid obstacle player r1 r2).1.walk_timer = rearm m.walk_delay r2 := by
  cases hsel : random_entry (m.shuffled_positions grid obstacle) r1 with
  | none =>
    rw [WanderingMonster.on_frame_expired_none grid obstacle player r1 r2 m hexp hsel]
  | some sel =>
    rw [WanderingMonster.on_frame_expired_some grid obstacle player r1 r2 m sel hexp hsel]
    have hk := (List.mem_filter.mp (random_entry_mem _ _ _ hsel)).2
    rw [if_pos (WanderingMonster.keeps_has_offsets grid obstacle sel hgrid hk)]
    split <;> rfl

/-- On a grid of width `3` and height `2`, wider than it is high, the bounds
test of `on_frame` keeps the cell `(1, 2)` below the last row: the monster at
`(1, 1)` is assigned that cell, `updatePos` throws on the missing entry of
`Game.grid.offsets`, and the timer is left at `0`, not re-armed. -/
theorem WanderingMonster.on_frame_throws_below_grid :
    (exampleBlockedMonster.on_frame { width := 3, height := 2 } exampleObstacles (0, 0)
        0 0).2 = [.type_error] ∧
    (exampleBlockedMonster.on_frame { width := 3, height := 2 } exampleObstacles (0, 0)
        0 0).1.cx = 1 ∧
    (exampleBlockedMonster.on_frame { width := 3, height := 2 } exampleObstacles (0, 0)
        0 0).1.cy = 2 ∧
    (exampleBlockedMonster.on_frame { width := 3, height := 2 } exampleObstacles (0, 0)
        0 0).1.walk_timer = 0 := by
  have hs : exampleBlockedMonster.shuffled_positions { width := 3, height := 2 }
      exampleObstacles = [{ cx := 1, cy := 2, new_dir := .down }] := by decide
  have hsel : random_entry (exampleBlockedMonster.shuffled_positions
      { width := 3, height := 2 } exampleObstacles) 0
      = some { cx := 1, cy := 2, new_dir := .down } := by
    rw [hs, random_entry_zero]
  have hf := WanderingMonster.on_frame_expired_some { width := 3, height := 2 }
    exampleObstacles (0, 0) 0 0 exampleBlockedMonster _ (by decide) hsel
  rw [hf]
  exact ⟨rfl, rfl, rfl, rfl⟩

/-! ## C13: a monster with no free neighbour cell -/

/-- C13. On a grid that is at least as high as it is wide (the grid of the game,
built once by `init_game`, is 15 by 15), for a monster whose walk timer expires
on a frame where each of its four orthogonal neighbour cells is outside the
grid or reported as an obstacle by `get_obstacles`, `on_frame` leaves `cx`,
`cy` and `direction` unchanged, has no effect on a collaborator (no attack on
the player, nothing thrown), and re-arms `walk_timer`. -/
theorem WanderingMonster.blocked_stays (grid : Grid) (obstacle : Int → Int → Bool)
    (player : Int × Int) (r1 r2 : ℚ) (m : WanderingMonster)
    (hexp : m.walk_timer - 1 ≤ 0) (hgrid : grid.width ≤ grid.height)
    (hblocked : ∀ p ∈ m.possible_positions,
      (p.cx < 0 ∨ grid.width ≤ p.cx ∨ p.cy < 0 ∨ grid.height ≤ p.cy) ∨
        obstacle p.cx p.cy = true) :
    (m.on_frame grid obstacle player r1 r2).1.cx = m.cx ∧
    (m.on_frame grid obstacle player r1 r2).1.cy = m.cy ∧
    (m.on_frame grid obstacle player r1 r2).1.direction = m.direction ∧
    (m.on_frame grid obstacle player r1 r2).2 = [] ∧
    (m.on_frame grid obstacle player r1 r2).1.walk_timer = rearm m.walk_delay r2 := by
  rw [WanderingMonster.on_frame_blocked grid obstacle player r1 r2 m hexp hgrid hblocked]
  exact ⟨rfl, rfl, rfl, rfl, rfl⟩

/-- An instance of `blocked_stays` on the grid of `init_game`: the monster in the
corner `(0, 0)`, with obstacles on `(1, 0)` and `(0, 1)` and the player on
`(1, 0)`, stays on `(0, 0)` facing the same way, attacks nobody, and its timer
goes from `1` to `8` (walk delay `8`, jitter value `0`). -/
theorem WanderingMonster.blocked_stays_witness :
    (exampleCornerMonster.walk_timer - 1 ≤ 0 ∧
      init_game_grid.width ≤ init_game_grid.height ∧
      ∀ p ∈ exampleCornerMonster.possible_positions,
        (p.cx < 0 ∨ init_game_grid.width ≤ p.cx ∨ p.cy < 0 ∨ init_game_grid.height ≤ p.cy) ∨
          exampleObstacles p.cx p.cy = true) ∧
    (exampleCornerMonster.on_frame init_game_grid exampleObstacles (1, 0) 0 0).1.cx = 0 ∧
    (exampleCornerMonster.on_frame init_game_grid exampleObstacles (1, 0) 0 0).1.cy = 0 ∧
    (exampleCornerMonster.on_frame init_game_grid exampleObstacles (1, 0) 0 0).1.direction
      = exampleCornerMonster.direction ∧
    (exampleCornerMonster.on_frame init_game_grid exampleObstacles (1, 0) 0 0).2 = [] ∧
    (exampleCornerMonster.on_frame init_game_grid exampleObstacles (1, 0) 0 0).1.walk_timer
      = 8 := by
  have h := WanderingMonster.blocked_stays init_game_grid exampleObstacles (1, 0) 0 0
    exampleCornerMonster (by decide) (by decide) (by decide)
  refine ⟨⟨by decide, by decide, by decide⟩, h.1, h.2.1, h.2.2.1, h.2.2.2.1, ?_⟩
  rw [h.2.2.2.2]
  simp [rearm, exampleCornerMonster, WanderingMonster.new]

/-! ## C14: the re-armed walk timer -/

theorem IsDouble.of_eighths (k : Int) (hk : |k| < 2 ^ 53) : IsDouble ((k : ℚ) / 8) :=
  ⟨k, 3, hk, Or.inr ⟨by norm_num, by norm_num⟩⟩

theorem IsDouble.of_int (k : Int) (hk : |k| < 2 ^ 53) : IsDouble (k : ℚ) :=
  ⟨k, 0, hk, Or.inl ⟨by norm_num, by simp⟩⟩

/-- A double is the nearest double to itself. -/
theorem NearestDouble.self {a : ℚ} (h : IsDouble a) : NearestDouble a a :=
  ⟨h, fun z _ => by simp⟩

/-- An operation whose exact result is a double returns that double. -/
theorem NearestDouble.eq_of_isDouble {a y : ℚ} (h : IsDouble a) (hy : NearestDouble a y) :
    y = a := by
  have h1 := hy.2 a h
  simp only [sub_self, abs_zero] at h1
  have h2 := abs_eq_zero.mp (le_antisymm h1 (abs_nonneg _))
  linarith

/-- Rounding to nearest does not cross a double above the exact result. -/
theorem NearestDouble.le_of_le {a y b : ℚ} (hy : NearestDouble a y) (hb : IsDouble b)
    (hab : a ≤ b) : y ≤ b := by
  by_contra h
  push_neg at h
  have h1 := hy.2 b hb
  rw [abs_of_nonpos (by linarith : a - y ≤ 0), abs_of_nonpos (by linarith : a - b ≤ 0)] at h1
  linarith

/-- Rounding to nearest does not cross a double below the exact result. -/
theorem NearestDouble.ge_of_ge {a y b : ℚ} (hy : NearestDouble a y) (hb : IsDouble b)
    (hab : b ≤ a) : b ≤ y := by
  by_contra h
  push_neg at h
  have h1 := hy.2 b hb
  rw [abs_of_nonneg (by linarith : 0 ≤ a - y), abs_of_nonneg (by linarith : 0 ≤ a - b)] at h1
  linarith

/-- For `0 <= walk_delay < 2^50` the two inner products are exact: only the outer
product and the difference round. -/
theorem JitterValue.exact_inner (wd : Int) (r x : ℚ) (hw : 0 ≤ wd) (hw2 : wd < 2 ^ 50)
    (hx : JitterValue wd r x) :
    ∃ p : ℚ, NearestDouble (r * ((wd : ℚ) / 4)) p ∧ NearestDouble (p - (wd : ℚ) / 8) x := by
  obtain ⟨c1, c2, p, h1, h2, h3, h4⟩ := hx
  have d1 : IsDouble ((wd : ℚ) * (1 / 4)) := by
    have h := IsDouble.of_eighths (2 * wd) (by rw [abs_of_nonneg (by omega)]; omega)
    have e : (((2 * wd : Int) : ℚ)) / 8 = (wd : ℚ) * (1 / 4) := by push_cast; ring
    rwa [e] at h
  have d2 : IsDouble ((wd : ℚ) * (1 / 8)) := by
    have h := IsDouble.of_eighths wd (by rw [abs_of_nonneg hw]; omega)
    have e : (wd : ℚ) / 8 = (wd : ℚ) * (1 / 8) := by ring
    rwa [e] at h
  have e1 := NearestDouble.eq_of_isDouble d1 h1
  have e2 := NearestDouble.eq_of_isDouble d2 h2
  refine ⟨p, ?_, ?_⟩
  · have e : r * ((wd : ℚ) / 4) = r * c1 := by rw [e1]; ring
    rw [e]; exact h3
  · have e : p - (wd : ℚ) / 8 = p - c2 := by rw [e2]; ring
    rw [e]; exact h4

/-- A bound `a / 8` below the exact jitter is below the computed one. -/
theorem JitterValue.lower_bound (wd : Int) (r x : ℚ) (a : Int) (hw : 0 ≤ wd) (hw2 : wd < 2 ^ 50)
    (ha : |a| < 2 ^ 52) (hx : JitterValue wd r x)
    (h : (a : ℚ) / 8 ≤ r * ((wd : ℚ) / 4) - (wd : ℚ) / 8) : (a : ℚ) / 8 ≤ x := by
  obtain ⟨p, h3, h4⟩ := JitterValue.exact_inner wd r x hw hw2 hx
  have ha2 := abs_lt.mp ha
  have d1 : IsDouble (((a + wd : Int) : ℚ) / 8) :=
    IsDouble.of_eighths (a + wd) (abs_lt.mpr ⟨by omega, by omega⟩)
  have hp : ((a + wd : Int) : ℚ) / 8 ≤ p :=
    NearestDouble.ge_of_ge h3 d1 (by push_cast; linarith)
  exact NearestDouble.ge_of_ge h4 (IsDouble.of_eighths a (abs_lt.mpr ⟨by omega, by omega⟩))
    (by push_cast at hp; linarith)

/-- A bound `a / 8` above the exact jitter is above the computed one. -/
theorem JitterValue.upper_bound (wd : Int) (r x : ℚ) (a : Int) (hw : 0 ≤ wd) (hw2 : wd < 2 ^ 50)
    (ha : |a| < 2 ^ 52) (hx : JitterValue wd r x)
    (h : r * ((wd : ℚ) / 4) - (wd : ℚ) / 8 ≤ (a : ℚ) / 8) : x ≤ (a : ℚ) / 8 := by
  obtain ⟨p, h3, h4⟩ := JitterValue.exact_inner wd r x hw hw2 hx
  have ha2 := abs_lt.mp ha
  have d1 : IsDouble (((a + wd : Int) : ℚ) / 8) :=
    IsDouble.of_eighths (a + wd) (abs_lt.mpr ⟨by omega, by omega⟩)
  have hp : p ≤ ((a + wd : Int) : ℚ) / 8 :=
    NearestDouble.le_of_le h3 d1 (by push_cast; linarith)
  exact NearestDouble.le_of_le h4 (IsDouble.of_eighths a (abs_lt.mpr ⟨by omega, by omega⟩))
    (by push_cast at hp; linarith)

/-- The re-armed value against the exact formula: equal or one more, and within
the bounds of the jitter. -/
theorem rearm_rounded (wd : Int) (r x : ℚ) (hw : 0 ≤ wd) (hw2 : wd < 2 ^ 50)
    (h0 : 0 ≤ r) (h1 : r < 1) (hx : JitterValue wd r x) :
    (rearm wd x = ⌊(wd : ℚ) * (7 / 8 + r / 4)⌋ ∨
      rearm wd x = ⌊(wd : ℚ) * (7 / 8 + r / 4)⌋ + 1) ∧
    ⌊(7 / 8 : ℚ) * (wd : ℚ)⌋ ≤ rearm wd x ∧
    ((rearm wd x : Int) : ℚ) ≤ (9 / 8 : ℚ) * (wd : ℚ) := by
  have hq : (0 : ℚ) ≤ (wd : ℚ) := by exact_mod_cast hw
  have hA1 : -((wd : ℚ) / 8) ≤ r * ((wd : ℚ) / 4) - (wd : ℚ) / 8 := by nlinarith
  have hA2 : r * ((wd : ℚ) / 4) - (wd : ℚ) / 8 ≤ (wd : ℚ) / 8 := by nlinarith
  have hformula : ⌊(wd : ℚ) * (7 / 8 + r / 4)⌋
      = wd + ⌊r * ((wd : ℚ) / 4) - (wd : ℚ) / 8⌋ := by
    rw [← Int.floor_int_add]
    congr 1
    ring
  have hfl := Int.floor_le (r * ((wd : ℚ) / 4) - (wd : ℚ) / 8)
  have hlt := Int.lt_floor_add_one (r * ((wd : ℚ) / 4) - (wd : ℚ) / 8)
  have he1 : 8 * ⌊r * ((wd : ℚ) / 4) - (wd : ℚ) / 8⌋ ≤ wd := by
    have : ((8 * ⌊r * ((wd : ℚ) / 4) - (wd : ℚ) / 8⌋ : Int) : ℚ) ≤ (wd : ℚ) := by
      push_cast; linarith
    exact_mod_cast this
  have he2 : -wd - 8 < 8 * ⌊r * ((wd : ℚ) / 4) - (wd : ℚ) / 8⌋ := by
    have : ((-wd - 8 : Int) : ℚ) < ((8 * ⌊r * ((wd : ℚ) / 4) - (wd : ℚ) / 8⌋ : Int) : ℚ) := by
      push_cast; linarith
    exact_mod_cast this
  have hlow : ((⌊r * ((wd : ℚ) / 4) - (wd : ℚ) / 8⌋ : Int) : ℚ) ≤ x := by
    have h := JitterValue.lower_bound wd r x (8 * ⌊r * ((wd : ℚ) / 4) - (wd : ℚ) / 8⌋) hw hw2
      (abs_lt.mpr ⟨by omega, by omega⟩) hx (by push_cast; linarith)
    push_cast at h
    linarith
  have hhigh : x ≤ ((⌊r * ((wd : ℚ) / 4) - (wd : ℚ) / 8⌋ + 1 : Int) : ℚ) := by
    have h := JitterValue.upper_bound wd r x (8 * (⌊r * ((wd : ℚ) / 4) - (wd : ℚ) / 8⌋ + 1)) hw hw2
      (abs_lt.mpr ⟨by omega, by omega⟩) hx (by push_cast; linarith)
    push_cast at h
    push_cast
    linarith
  have hlo2 : -((wd : ℚ) / 8) ≤ x := by
    have h := JitterValue.lower_bound wd r x (-wd) hw hw2
      (abs_lt.mpr ⟨by omega, by omega⟩) hx (by push_cast; linarith)
    push_cast at h
    linarith
  have hhi2 : x ≤ (wd : ℚ) / 8 :=
    JitterValue.upper_bound wd r x wd hw hw2 (abs_lt.mpr ⟨by omega, by omega⟩) hx hA2
  have f1 : ⌊r * ((wd : ℚ) / 4) - (wd : ℚ) / 8⌋ ≤ ⌊x⌋ := Int.le_floor.mpr hlow
  have f2 : ⌊x⌋ ≤ ⌊r * ((wd : ℚ) / 4) - (wd : ℚ) / 8⌋ + 1 := by
    have : ((⌊x⌋ : Int) : ℚ) ≤ ((⌊r * ((wd : ℚ) / 4) - (wd : ℚ) / 8⌋ + 1 : Int) : ℚ) :=
      le_trans (Int.floor_le x) hhigh
    exact_mod_cast this
  have f3 : ⌊(7 / 8 : ℚ) * (wd : ℚ)⌋ = wd + ⌊-((wd : ℚ) / 8)⌋ := by
    rw [← Int.floor_int_add]
    congr 1
    ring
  have f4 : ⌊-((wd : ℚ) / 8)⌋ ≤ ⌊x⌋ := Int.floor_le_floor hlo2
  have f5 := Int.floor_le x
  unfold rearm
  refine ⟨?_, ?_, ?_⟩
  · rw [hformula]
    omega
  · rw [f3]
    omega
  · push_cast
    linarith

/-- A double of absolute value at least `2` is a multiple of `2^-51`. -/
theorem IsDouble.spacing (z : ℚ) (h : IsDouble z) (h2 : 2 ≤ |z|) :
    ∃ N : Int, z = (N : ℚ) / 2 ^ 51 := by
  obtain ⟨m, k, hm, ⟨_, rfl⟩ | ⟨_, rfl⟩⟩ := h
  · refine ⟨m * 2 ^ k * 2 ^ 51, ?_⟩
    push_cast
    norm_num
  · by_cases hk : k ≤ 51
    · refine ⟨m * 2 ^ (51 - k), ?_⟩
      have e : (2 : ℚ) ^ 51 = 2 ^ k * 2 ^ (51 - k) := by
        rw [← pow_add]
        congr 1
        omega
      push_cast
      rw [e]
      field_simp
      ring
    · exfalso
      have hk2 : 52 ≤ k := by omega
      have hmq : |(m : ℚ)| < 2 ^ 53 := by exact_mod_cast hm
      have hp : (2 : ℚ) ^ 52 ≤ 2 ^ k := pow_le_pow_right₀ (by norm_num) hk2
      have hpos : (0 : ℚ) < 2 ^ k := by positivity
      rw [abs_div, abs_of_pos hpos, le_div_iff₀ hpos] at h2
      have : (2 : ℚ) * 2 ^ 52 = 2 ^ 53 := by norm_num
      linarith

/-- The outer product at walk delay `9` and the draw `exampleDraw`: the exact
product is `17/8 - 2^-54`, and the one double nearest to it is `17/8`. -/
theorem nearest_example_product (p : ℚ) (h : NearestDouble (exampleDraw * (9 / 4)) p) :
    p = 17 / 8 := by
  have d : IsDouble (17 / 8 : ℚ) := by
    have h := IsDouble.of_eighths 17 (by norm_num)
    simpa using h
  have h1 := h.2 (17 / 8) d
  have e : exampleDraw * (9 / 4) = 17 / 8 - 1 / 2 ^ 54 := by
    unfold exampleDraw
    norm_num
  rw [e] at h1
  have h2 : |(17 / 8 : ℚ) - 1 / 2 ^ 54 - 17 / 8| = 1 / 2 ^ 54 := by
    rw [abs_of_nonpos (by norm_num)]
    ring
  rw [h2] at h1
  have h3 := abs_le.mp h1
  have hp2 : (2 : ℚ) ≤ |p| := by
    rw [abs_of_nonneg (by norm_num at h3 ⊢; linarith [h3.1, h3.2])]
    norm_num at h3 ⊢
    linarith [h3.1, h3.2]
  obtain ⟨N, rfl⟩ := IsDouble.spacing p h.1 hp2
  have hN1 : (17 * 2 ^ 48 - 1 : Int) < N := by
    have : ((17 * 2 ^ 48 - 1 : Int) : ℚ) < (N : ℚ) := by
      push_cast
      have := h3.2
      have h51 : (0 : ℚ) < 2 ^ 51 := by positivity
      have e2 : (N : ℚ) = (N : ℚ) / 2 ^ 51 * 2 ^ 51 := by field_simp
      rw [e2]
      norm_num at this ⊢
      linarith
    exact_mod_cast this
  have hN2 : N ≤ (17 * 2 ^ 48 : Int) := by
    have : (N : ℚ) ≤ ((17 * 2 ^ 48 : Int) : ℚ) := by
      push_cast
      have := h3.1
      have e2 : (N : ℚ) = (N : ℚ) / 2 ^ 51 * 2 ^ 51 := by field_simp
      rw [e2]
      norm_num at this ⊢
      linarith
    exact_mod_cast this
  have hN : N = 17 * 2 ^ 48 := by omega
  rw [hN]
  norm_num

/-- At walk delay `9` and the draw `exampleDraw` the runtime can compute one
jitter value only, `1`. -/
theorem JitterValue.example_value (x : ℚ) (hx : JitterValue 9 exampleDraw x) : x = 1 := by
  obtain ⟨p, h3, h4⟩ := JitterValue.exact_inner 9 exampleDraw x (by norm_num) (by norm_num) hx
  have hp : p = 17 / 8 := nearest_example_product p (by
    have e : exampleDraw * (((9 : Int) : ℚ) / 4) = exampleDraw * (9 / 4) := by norm_num
    rw [← e]; exact h3)
  rw [hp] at h4
  have e : (17 / 8 : ℚ) - ((9 : Int) : ℚ) / 8 = ((1 : Int) : ℚ) := by norm_num
  rw [e] at h4
  have := NearestDouble.eq_of_isDouble (IsDouble.of_int 1 (by norm_num)) h4
  simpa using this

/-- At walk delay `9` and the draw `exampleDraw` the runtime does compute the
jitter value `1`. -/
theorem JitterValue.example_holds : JitterValue 9 exampleDraw 1 := by
  have d1 : IsDouble (((9 : Int) : ℚ) * (1 / 4)) := by
    have h := IsDouble.of_eighths 18 (by norm_num)
    have e : (((18 : Int) : ℚ)) / 8 = ((9 : Int) : ℚ) * (1 / 4) := by norm_num
    rwa [e] at h
  have d2 : IsDouble (((9 : Int) : ℚ) * (1 / 8)) := by
    have h := IsDouble.of_eighths 9 (by norm_num)
    have e : (((9 : Int) : ℚ)) / 8 = ((9 : Int) : ℚ) * (1 / 8) := by norm_num
    rwa [e] at h
  have d3 : IsDouble (17 / 8 : ℚ) := by
    have h := IsDouble.of_eighths 17 (by norm_num)
    simpa using h
  have d4 : IsDouble (1 : ℚ) := by
    have h := IsDouble.of_int 1 (by norm_num)
    simpa using h
  refine ⟨((9 : Int) : ℚ) * (1 / 4), ((9 : Int) : ℚ) * (1 / 8), 17 / 8,
    NearestDouble.self d1, NearestDouble.self d2, ⟨d3, ?_⟩, ?_⟩
  · intro z hz
    have e : exampleDraw * (((9 : Int) : ℚ) * (1 / 4)) = 17 / 8 - 1 / 2 ^ 54 := by
      unfold exampleDraw
      norm_num
    rw [e]
    have h2 : |(17 / 8 : ℚ) - 1 / 2 ^ 54 - 17 / 8| = 1 / 2 ^ 54 := by
      rw [abs_of_nonpos (by norm_num)]
      ring
    rw [h2]
    by_contra hc
    push_neg at hc
    have h3 := abs_lt.mp hc
    have hz2 : (2 : ℚ) ≤ |z| := by
      rw [abs_of_nonneg (by norm_num at h3 ⊢; linarith [h3.1, h3.2])]
      norm_num at h3 ⊢
      linarith [h3.1, h3.2]
    obtain ⟨N, rfl⟩ := IsDouble.spacing z hz hz2
    have e2 : (N : ℚ) = (N : ℚ) / 2 ^ 51 * 2 ^ 51 := by field_simp
    have hN1 : (17 * 2 ^ 48 - 1 : Int) < N := by
      have : ((17 * 2 ^ 48 - 1 : Int) : ℚ) < (N : ℚ) := by
        push_cast
        have := h3.2
        rw [e2]
        norm_num at this ⊢
        linarith
      exact_mod_cast this
    have hN2 : N < (17 * 2 ^ 48 : Int) := by
      have : (N : ℚ) < ((17 * 2 ^ 48 : Int) : ℚ) := by
        push_cast
        have := h3.1
        rw [e2]
        norm_num at this ⊢
        linarith
      exact_mod_cast this
    omega
  · have e : (17 / 8 : ℚ) - ((9 : Int) : ℚ) * (1 / 8) = 1 := by norm_num
    rw [e]
    exact NearestDouble.self d4

/-- C14. The monster with walk delay `9` on the grid of `init_game`, its timer
expiring, and `Math.random()` returning the double `r = 4253399648072135 / 2^52`
(`0 <= r < 1`): the runtime computes `r * (9 * 0.25)` as `2.125` (the exact
product is `2.125 - 2^-54`, and `2.125` is the one nearest double), so the one
jitter value it can compute is `1` and `on_frame` re-arms `walk_timer` to `10`,
while `floor(9 * (0.875 + r / 4))` is `9`. -/
theorem WanderingMonster.rearm_exceeds_formula :
    (exampleSlowMonster.walk_delay = 9 ∧ exampleSlowMonster.walk_timer - 1 ≤ 0) ∧
    (0 ≤ exampleDraw ∧ exampleDraw < 1 ∧ IsDouble exampleDraw) ∧
    JitterValue exampleSlowMonster.walk_delay exampleDraw 1 ∧
    (∀ x : ℚ, JitterValue exampleSlowMonster.walk_delay exampleDraw x →
      (exampleSlowMonster.on_frame init_game_grid noObstacles (5, 5) 0 x).1.walk_timer
        = 10) ∧
    ⌊(exampleSlowMonster.walk_delay : ℚ) * (7 / 8 + exampleDraw / 4)⌋ = 9 := by
  have h9 : exampleSlowMonster.walk_delay = 9 := rfl
  rw [h9]
  refine ⟨⟨rfl, by decide⟩, ⟨?_, ?_, ?_⟩, JitterValue.example_holds, ?_, ?_⟩
  · unfold exampleDraw; norm_num
  · unfold exampleDraw; norm_num
  · exact ⟨4253399648072135, 52, by norm_num, Or.inr ⟨by norm_num, by
      unfold exampleDraw; norm_num⟩⟩
  · intro x hx
    rw [WanderingMonster.on_frame_walk_timer init_game_grid noObstacles (5, 5) 0 x
      exampleSlowMonster (by decide) (by decide), JitterValue.example_value x hx, h9]
    simp [rearm]
  · rw [Int.floor_eq_iff]
    unfold exampleDraw
    norm_num

/-- C14. For a walk delay `0 <= walk_delay < 2^50`, a value `0 <= r < 1` of
`Math.random()` and any double `x` that the runtime may compute for
`r * (walk_delay * 0.25) - (walk_delay * 0.125)`, on a grid at least as high as
it is wide (the grid of the game is 15 by 15) the value `t` to which `on_frame`
re-arms `walk_timer` when the timer expires is `walk_delay + floor(x)`; it is
`floor(walk_delay * (0.875 + r / 4))` or one more than that, and
`floor(0.875 * walk_delay) <= t <= 1.125 * walk_delay`. -/
theorem WanderingMonster.rearm_jitter_rounded (grid : Grid) (obstacle : Int → Int → Bool)
    (player : Int × Int) (r1 r x : ℚ) (m : WanderingMonster)
    (hexp : m.walk_timer - 1 ≤ 0) (hgrid : grid.width ≤ grid.height)
    (hw : 0 ≤ m.walk_delay) (hw2 : m.walk_delay < 2 ^ 50) (h0 : 0 ≤ r) (h1 : r < 1)
    (hx : JitterValue m.walk_delay r x) :
    (m.on_frame grid obstacle player r1 x).1.walk_timer = m.walk_delay + ⌊x⌋ ∧
    ((m.on_frame grid obstacle player r1 x).1.walk_timer =
        ⌊(m.walk_delay : ℚ) * (7 / 8 + r / 4)⌋ ∨
      (m.on_frame grid obstacle player r1 x).1.walk_timer =
        ⌊(m.walk_delay : ℚ) * (7 / 8 + r / 4)⌋ + 1) ∧
    ⌊(7 / 8 : ℚ) * (m.walk_delay : ℚ)⌋ ≤ (m.on_frame grid obstacle player r1 x).1.walk_timer ∧
    (((m.on_frame grid obstacle player r1 x).1.walk_timer : Int) : ℚ) ≤
      (9 / 8 : ℚ) * (m.walk_delay : ℚ) := by
  rw [WanderingMonster.on_frame_walk_timer grid obstacle player r1 x m hexp hgrid]
  exact ⟨rfl, rearm_rounded m.walk_delay r x hw hw2 h0 h1 hx⟩

/-- An instance of `rearm_jitter_rounded` on the grid of `init_game`: walk delay
`8` and `Math.random()` returning `3 / 8`; the products `8 * 0.25 = 2`,
`8 * 0.125 = 1`, `0.375 * 2 = 0.75` and the difference `0.75 - 1 = -0.25` are
all exact, and the timer is re-armed to `8 + floor(-0.25) = 7`, which is
`floor(8 * (0.875 + 0.375 / 4)) = floor(7.75)`. -/
theorem WanderingMonster.rearm_jitter_rounded_witness :
    (exampleBlockedMonster.walk_timer - 1 ≤ 0 ∧
      init_game_grid.width ≤ init_game_grid.height ∧
      0 ≤ exampleBlockedMonster.walk_delay ∧ exampleBlockedMonster.walk_delay < 2 ^ 50 ∧
      (0 : ℚ) ≤ 3 / 8 ∧ (3 / 8 : ℚ) < 1 ∧
      JitterValue exampleBlockedMonster.walk_delay (3 / 8) (-1 / 4)) ∧
    (exampleBlockedMonster.on_frame init_game_grid exampleObstacles (0, 0) 0
      (-1 / 4)).1.walk_timer = 7 ∧
    ⌊(exampleBlockedMonster.walk_delay : ℚ) * (7 / 8 + (3 / 8) / 4)⌋ = 7 ∧
    ⌊(7 / 8 : ℚ) * (exampleBlockedMonster.walk_delay : ℚ)⌋ ≤
      (exampleBlockedMonster.on_frame init_game_grid exampleObstacles (0, 0) 0
        (-1 / 4)).1.walk_timer ∧
    (((exampleBlockedMonster.on_frame init_game_grid exampleObstacles (0, 0) 0
        (-1 / 4)).1.walk_timer : Int) : ℚ) ≤
      (9 / 8 : ℚ) * (exampleBlockedMonster.walk_delay : ℚ) := by
  have h8 : exampleBlockedMonster.walk_delay = 8 := rfl
  have d1 : IsDouble (2 : ℚ) := by
    have h := IsDouble.of_int 2 (by norm_num)
    simpa using h
  have d2 : IsDouble (1 : ℚ) := by
    have h := IsDouble.of_int 1 (by norm_num)
    simpa using h
  have d3 : IsDouble (3 / 4 : ℚ) := by
    have h := IsDouble.of_eighths 6 (by norm_num)
    have e : ((6 : Int) : ℚ) / 8 = 3 / 4 := by norm_num
    rwa [e] at h
  have d4 : IsDouble (-1 / 4 : ℚ) := by
    have h := IsDouble.of_eighths (-2) (by norm_num)
    have e : ((-2 : Int) : ℚ) / 8 = -1 / 4 := by norm_num
    rwa [e] at h
  have hj : JitterValue exampleBlockedMonster.walk_delay (3 / 8) (-1 / 4) := by
    rw [h8]
    refine ⟨2, 1, 3 / 4, ?_, ?_, ?_, ?_⟩
    · have e : ((8 : Int) : ℚ) * (1 / 4) = 2 := by norm_num
      rw [e]; exact NearestDouble.self d1
    · have e : ((8 : Int) : ℚ) * (1 / 8) = 1 := by norm_num
      rw [e]; exact NearestDouble.self d2
    · have e : (3 / 8 : ℚ) * 2 = 3 / 4 := by norm_num
      rw [e]; exact NearestDouble.self d3
    · have e : (3 / 4 : ℚ) - 1 = -1 / 4 := by norm_num
      rw [e]; exact NearestDouble.self d4
  have h := WanderingMonster.rearm_jitter_rounded init_game_grid exampleObstacles (0, 0) 0
    (3 / 8) (-1 / 4) exampleBlockedMonster (by decide) (by decide) (by decide) (by decide)
    (by norm_num) (by norm_num) hj
  have hfl : ⌊(-1 / 4 : ℚ)⌋ = -1 := by
    rw [Int.floor_eq_iff]
    norm_num
  refine ⟨⟨by decide, by decide, by decide, by decide, by norm_num, by norm_num, hj⟩,
    ?_, ?_, h.2.2.1, h.2.2.2⟩
  · rw [h.1, h8, hfl]
    rfl
  · rw [h8, Int.floor_eq_iff]
    norm_num

/-! ## C15: a monster and the bounds of the grid -/

/-- C15. On a grid of width `w` and height `h` with `w <= h` (the grid of the
game, built once by `init_game`, is 15 by 15), a wandering monster with
`0 <= cx < w` and `0 <= cy < h` still has `0 <= cx < w` and `0 <= cy < h` after
`on_frame`, for every random draw, every obstacle layout and every cell of the
player, and `on_frame` does not throw. -/
theorem WanderingMonster.stays_in_grid (grid : Grid) (obstacle : Int → Int → Bool)
    (player : Int × Int) (r1 r2 : ℚ) (m : WanderingMonster)
    (hgrid : grid.width ≤ grid.height)
    (hin : 0 ≤ m.cx ∧ m.cx < grid.width ∧ 0 ≤ m.cy ∧ m.cy < grid.height) :
    (0 ≤ (m.on_frame grid obstacle player r1 r2).1.cx ∧
      (m.on_frame grid obstacle player r1 r2).1.cx < grid.width ∧
      0 ≤ (m.on_frame grid obstacle player r1 r2).1.cy ∧
      (m.on_frame grid obstacle player r1 r2).1.cy < grid.height) ∧
    Effect.type_error ∉ (m.on_frame grid obstacle player r1 r2).2 :=
  ⟨WanderingMonster.on_frame_in_grid grid obstacle player r1 r2 m hgrid hin,
    WanderingMonster.on_frame_no_throw grid obstacle player r1 r2 m hgrid⟩

/-- An instance of `stays_in_grid` on the grid of `init_game` with no obstacle:
the monster in the corner `(0, 0)`, whose timer expires, has the two free
neighbours `(1, 0)` and `(0, 1)`; the draw that selects the second one moves it
to `(0, 1)`, inside the grid. -/
theorem WanderingMonster.stays_in_grid_witness :
    (init_game_grid.width ≤ init_game_grid.height ∧
      0 ≤ exampleCornerMonster.cx ∧ exampleCornerMonster.cx < init_game_grid.width ∧
      0 ≤ exampleCornerMonster.cy ∧ exampleCornerMonster.cy < init_game_grid.height) ∧
    (exampleCornerMonster.on_frame init_game_grid noObstacles (5, 5) 1 0).1.cx = 0 ∧
    (exampleCornerMonster.on_frame init_game_grid noObstacles (5, 5) 1 0).1.cy = 1 ∧
    ((0 : Int) ≤ (exampleCornerMonster.on_frame init_game_grid noObstacles (5, 5) 1 0).1.cx ∧
      (exampleCornerMonster.on_frame init_game_grid noObstacles (5, 5) 1 0).1.cx
        < init_game_grid.width ∧
      0 ≤ (exampleCornerMonster.on_frame init_game_grid noObstacles (5, 5) 1 0).1.cy ∧
      (exampleCornerMonster.on_frame init_game_grid noObstacles (5, 5) 1 0).1.cy
        < init_game_grid.height) ∧
    Effect.type_error ∉
      (exampleCornerMonster.on_frame init_game_grid noObstacles (5, 5) 1 0).2 := by
  have h := WanderingMonster.stays_in_grid init_game_grid noObstacles (5, 5) 1 0
    exampleCornerMonster (by decide) (by decide)
  have hs : exampleCornerMonster.shuffled_positions init_game_grid noObstacles
      = [{ cx := 1, cy := 0, new_dir := .right }, { cx := 0, cy := 1, new_dir := .down }] := by
    decide
  have hsel : random_entry (exampleCornerMonster.shuffled_positions init_game_grid
      noObstacles) 1 = some { cx := 0, cy := 1, new_dir := .down } := by
    rw [hs]
    simp [random_entry]
  have hf := WanderingMonster.on_frame_expired_some init_game_grid noObstacles (5, 5) 1 0
    exampleCornerMonster _ (by decide) hsel
  refine ⟨⟨by decide, by decide⟩, ?_, ?_, h.1, h.2⟩
  · rw [hf]; rfl
  · rw [hf]; rfl

/-! ## C16: a monster is hit -/

theorem ActiveObject.item_of_truthy (loot : Option Nat) (h : js_truthy loot = true) :
    ActiveObject.item_of ((loot.getD 0 : Nat) : Int) = loot := by
  cases loot with
  | none => cases h
  | some i => simp [ActiveObject.item_of]

theorem WanderingMonster.on_hit_survives (ops : RoomOps) (item_tile : Nat → Nat)
    (empty_tile : Nat) (w : World) (m : WanderingMonster) (self : Nat) (damage : Int)
    (h : m.hp - damage > 0) :
    m.on_hit ops item_tile empty_tile w self damage = (w, { m with hp := m.hp - damage }) := by
  have h1 : ¬ (m.hp - damage ≤ 0) := by omega
  simp [WanderingMonster.on_hit, h1]

theorem WanderingMonster.on_hit_dies (ops : RoomOps) (item_tile : Nat → Nat)
    (empty_tile : Nat) (w : World) (m : WanderingMonster) (self : Nat) (damage : Int)
    (h : m.hp - damage ≤ 0) :
    m.on_hit ops item_tile empty_tile w self damage =
      ({ objects := ops.removeObj
            (if js_truthy m.loot then
              bringToFront (ops.addObj w.objects (w.fresh self)) (w.fresh self)
            else w.objects) self,
         pickables :=
            if js_truthy m.loot then
              (w.fresh self,
                (PickableObject.new item_tile empty_tile (m.loot.getD 0) m.cx m.cy).enterRoom)
              :: w.pickables
            else w.pickables },
       { m with hp := m.hp - damage, sprite := false, room := none }) := by
  cases hl : js_truthy m.loot <;> cases hs : m.sprite <;>
    simp [WanderingMonster.on_hit, WanderingMonster.remove, h, hl, hs,
      World.new_pickable_eq]

/-- C16. With the room methods `addObj` and `removeObj` as the spec describes
them, `on_hit(d)` sets `hp` to `hp - d`.  If `hp - d > 0` the room and the
pickable objects are unchanged and so is the monster apart from `hp` (it stays
registered, at the same cell).  If `hp - d <= 0` the monster is no longer in
the member sequence and its room reference is `null`; when loot is configured
exactly one pickable object is created, a new object for the loot item at the
cell of the monster, and it is at index 0 of the member sequence; with no loot
no pickable object is created. -/
theorem WanderingMonster.on_hit_spec (item_tile : Nat → Nat) (empty_tile : Nat) (w : World)
    (m : WanderingMonster) (self : Nat) (damage : Int) :
    (m.on_hit Room.ops item_tile empty_tile w self damage).2.hp = m.hp - damage ∧
    (m.hp - damage > 0 →
      (m.on_hit Room.ops item_tile empty_tile w self damage).1 = w ∧
      (m.on_hit Room.ops item_tile empty_tile w self damage).2 =
        { m with hp := m.hp - damage }) ∧
    (m.hp - damage ≤ 0 →
      self ∉ (m.on_hit Room.ops item_tile empty_tile w self damage).1.objects ∧
      (m.on_hit Room.ops item_tile empty_tile w self damage).2.room = none ∧
      (js_truthy m.loot = true →
        (∃ p, (m.on_hit Room.ops item_tile empty_tile w self damage).1.pickables =
            (w.fresh self, p) :: w.pickables ∧
          p.item_index = m.loot ∧ p.cx = m.cx ∧ p.cy = m.cy) ∧
        (w.fresh self ≠ self ∧ w.fresh self ∉ w.objects ∧
          w.fresh self ∉ w.pickables.map Prod.fst) ∧
        (m.on_hit Room.ops item_tile empty_tile w self damage).1.objects[0]?
          = some (w.fresh self)) ∧
      (js_truthy m.loot = false →
        (m.on_hit Room.ops item_tile empty_tile w self damage).1.pickables = w.pickables)) := by
  refine ⟨?_, fun h => ?_, fun h => ?_⟩
  · by_cases h : m.hp - damage ≤ 0
    · rw [WanderingMonster.on_hit_dies Room.ops item_tile empty_tile w m self damage h]
    · rw [WanderingMonster.on_hit_survives Room.ops item_tile empty_tile w m self damage
        (by omega)]
  · rw [WanderingMonster.on_hit_survives Room.ops item_tile empty_tile w m self damage h]
    exact ⟨rfl, rfl⟩
  · rw [WanderingMonster.on_hit_dies Room.ops item_tile empty_tile w m self damage h]
    refine ⟨?_, rfl, fun hl => ?_, fun hl => ?_⟩
    · simp [Room.ops]
    · obtain ⟨hf1, hf2, hf3⟩ := World.fresh_new w self
      refine ⟨⟨(PickableObject.new item_tile empty_tile (m.loot.getD 0) m.cx m.cy).enterRoom,
        by simp only [hl, if_true], ?_, rfl, rfl⟩, ⟨hf1, hf2, hf3⟩, ?_⟩
      · simp only [PickableObject.enterRoom, PickableObject.new]
        exact ActiveObject.item_of_truthy m.loot hl
      · have hb : bringToFront (w.objects ++ [w.fresh self]) (w.fresh self)
            = w.fresh self :: (w.objects ++ []) :=
          bringToFront_of_first w.objects [] (w.fresh self) hf2
        simp only [hl, if_true, Room.ops, hb]
        simp [hf1]
    · simp only [hl]
      rfl

/-- Witness of C16: the monster with `hp = 3` and loot `27` at `(1, 1)`,
registered as object `2` of the room `[1, 2, 3]`, takes damage `5`. -/
theorem WanderingMonster.on_hit_spec_witness :
    (exampleBlockedMonster.hp - 5 ≤ 0 ∧ js_truthy exampleBlockedMonster.loot = true) ∧
    (exampleBlockedMonster.on_hit Room.ops exampleItemTile 0 exampleWorld 2 5).2.hp = -2 ∧
    (2 : Nat) ∉ (exampleBlockedMonster.on_hit Room.ops exampleItemTile 0
      exampleWorld 2 5).1.objects ∧
    (exampleBlockedMonster.on_hit Room.ops exampleItemTile 0 exampleWorld 2 5).2.room = none ∧
    (exampleBlockedMonster.on_hit Room.ops exampleItemTile 0 exampleWorld 2 5).1.objects
      = [4, 1, 3] :=
  have h := WanderingMonster.on_hit_spec exampleItemTile 0 exampleWorld exampleBlockedMonster
    2 5
  ⟨⟨by decide, rfl⟩, h.1, (h.2.2 (by decide)).1, (h.2.2 (by decide)).2.1, by decide⟩

/-! ## C17: what a shooting monster sees -/

theorem ShootingMonster.look_fst_iff (obstacle : Int → Int → Bool) (player : Int × Int)
    (dx dy : Int) (n : Nat) (x y : Int) :
    (ShootingMonster.look obstacle player dx dy n x y).1 = true ↔
      ∃ k : Nat, 1 ≤ k ∧ k ≤ n ∧ player = (x + k * dx, y + k * dy) ∧
        ∀ j : Nat, 1 ≤ j → j ≤ k → obstacle (x + j * dx) (y + j * dy) = false := by
  induction n generalizing x y with
  | zero =>
    simp only [ShootingMonster.look]
    constructor
    · intro h; cases h
    · rintro ⟨k, h1, h2, _⟩; omega
  | succ n ih =>
    rw [ShootingMonster.look]
    by_cases ho : obstacle (x + dx) (y + dy) = true
    · rw [if_pos ho]
      constructor
      · intro h; cases h
      · rintro ⟨k, h1, _, _, h4⟩
        have h5 := h4 1 (Nat.le_refl 1) h1
        simp only [Nat.cast_one, one_mul] at h5
        rw [ho] at h5; cases h5
    · rw [if_neg ho]
      have ho2 : obstacle (x + dx) (y + dy) = false := by simpa using ho
      by_cases hp : player.1 = x + dx ∧ player.2 = y + dy
      · rw [if_pos hp]
        refine ⟨fun _ => ⟨1, Nat.le_refl 1, by omega, ?_, ?_⟩, fun _ => rfl⟩
        · simp only [Nat.cast_one, one_mul]
          exact Prod.ext hp.1 hp.2
        · intro j h1 h2
          have hj : j = 1 := by omega
          subst hj
          simpa using ho2
      · rw [if_neg hp, ih]
        constructor
        · rintro ⟨k, h1, h2, h3, h4⟩
          refine ⟨k + 1, by omega, by omega, ?_, ?_⟩
          · rw [h3]
            simp only [Nat.cast_add, Nat.cast_one]
            ext <;> simp only <;> ring
          · intro j hj1 hj2
            by_cases hj : j = 1
            · subst hj; simpa using ho2
            · have h5 := h4 (j - 1) (by omega) (by omega)
              have e1 : x + dx + ((j - 1 : Nat) : Int) * dx = x + (j : Int) * dx := by
                have : ((j - 1 : Nat) : Int) = (j : Int) - 1 := by omega
                rw [this]; ring
              have e2 : y + dy + ((j - 1 : Nat) : Int) * dy = y + (j : Int) * dy := by
                have : ((j - 1 : Nat) : Int) = (j : Int) - 1 := by omega
                rw [this]; ring
              rw [e1, e2] at h5
              exact h5
        · rintro ⟨k, h1, h2, h3, h4⟩
          have hk : k ≠ 1 := by
            intro hk
            subst hk
            apply hp
            rw [h3]
            simp
          refine ⟨k - 1, by omega, by omega, ?_, ?_⟩
          · rw [h3]
            have : ((k - 1 : Nat) : Int) = (k : Int) - 1 := by omega
            rw [this]
            ext <;> simp only <;> ring
          · intro j hj1 hj2
            have h5 := h4 (j + 1) (by omega) (by omega)
            have e1 : x + ((j + 1 : Nat) : Int) * dx = x + dx + (j : Int) * dx := by
              push_cast; ring
            have e2 : y + ((j + 1 : Nat) : Int) * dy = y + dy + (j : Int) * dy := by
              push_cast; ring
            rw [e1, e2] at h5
            exact h5

theorem ShootingMonster.look_snd (obstacle : Int → Int → Bool) (player : Int × Int)
    (dx dy : Int) (n : Nat) (x y : Int)
    (h : (ShootingMonster.look obstacle player dx dy n x y).1 = true) :
    (ShootingMonster.look obstacle player dx dy n x y).2 = false := by
  induction n generalizing x y with
  | zero => rfl
  | succ n ih =>
    rw [ShootingMonster.look] at h ⊢
    split
    · rename_i ho; rw [if_pos ho] at h; cases h
    · rename_i ho
      rw [if_neg ho] at h
      split
      · rfl
      · rename_i hp
        rw [if_neg hp] at h
        exact ih _ _ h

theorem DIRECTIONS_orthogonal (d : Direction) :
    (DIRECTIONS d).1 = 0 ∨ (DIRECTIONS d).2 = 0 := by
  cases d <;> simp [DIRECTIONS]

theorem ShootingMonster.sight_iff (obstacle : Int → Int → Bool) (player : Int × Int)
    (s : ShootingMonster) :
    s.sight obstacle player = true ↔
      ∃ k : Nat, 1 ≤ k ∧ k ≤ VIEWPORT_SIDE ∧
        player = (s.base.cx + k * (DIRECTIONS s.base.direction).1,
                  s.base.cy + k * (DIRECTIONS s.base.direction).2) ∧
        ∀ j : Nat, 1 ≤ j → j ≤ k →
          obstacle (s.base.cx + j * (DIRECTIONS s.base.direction).1)
            (s.base.cy + j * (DIRECTIONS s.base.direction).2) = false := by
  rw [← ShootingMonster.look_fst_iff]
  unfold ShootingMonster.sight
  constructor
  · intro h
    split at h
    · simp only [Bool.and_eq_true] at h
      exact h.1
    · cases h
  · intro h
    have hk := (ShootingMonster.look_fst_iff obstacle player _ _ _ _ _).mp h
    obtain ⟨k, _, _, h3, _⟩ := hk
    have hg : player.1 = s.base.cx ∨ player.2 = s.base.cy := by
      rcases DIRECTIONS_orthogonal s.base.direction with h0 | h0
      · left; rw [h3, h0]; simp
      · right; rw [h3, h0]; simp
    rw [if_pos hg]
    simp only [Bool.and_eq_true, Bool.not_eq_true']
    exact ⟨h, ShootingMonster.look_snd _ _ _ _ _ _ _ h⟩

theorem ShootingMonster.on_frame_sees_player (grid : Grid)
    (room_obstacle obstacle : Int → Int → Bool) (player : Int × Int) (r1 r2 : ℚ)
    (s : ShootingMonster) :
    (s.on_frame grid room_obstacle obstacle player r1 r2).1.sees_player
      = s.sight obstacle player := by
  have h0 : ShootingMonster.sight obstacle player { s with sees_player := false }
      = s.sight obstacle player := rfl
  simp only [ShootingMonster.on_frame, h0]
  split <;> split <;> split <;> rfl

/-- What `sees_player` is after `on_frame`, for any answers of `get_obstacles`:
it is true if and only if the player is at `(cx + k*dx, cy + k*dy)` for some
`1 <= k <= VIEWPORT_SIDE` and `get_obstacles` reports no obstacle on any cell
of the ray from the first cell after the monster up to and including the cell
of the player. -/
theorem ShootingMonster.sees_player_iff (grid : Grid)
    (room_obstacle obstacle : Int → Int → Bool) (player : Int × Int) (r1 r2 : ℚ)
    (s : ShootingMonster) :
    (s.on_frame grid room_obstacle obstacle player r1 r2).1.sees_player = true ↔
      ∃ k : Nat, 1 ≤ k ∧ k ≤ VIEWPORT_SIDE ∧
        player = (s.base.cx + k * (DIRECTIONS s.base.direction).1,
                  s.base.cy + k * (DIRECTIONS s.base.direction).2) ∧
        ∀ j : Nat, 1 ≤ j → j ≤ k →
          obstacle (s.base.cx + j * (DIRECTIONS s.base.direction).1)
            (s.base.cy + j * (DIRECTIONS s.base.direction).2) = false := by
  rw [ShootingMonster.on_frame_sees_player]
  exact ShootingMonster.sight_iff obstacle player s

theorem DIRECTIONS_ray_injective (d : Direction) (x y : Int) (k j : Nat)
    (h : (x + (k : Int) * (DIRECTIONS d).1, y + (k : Int) * (DIRECTIONS d).2) =
      (x + (j : Int) * (DIRECTIONS d).1, y + (j : Int) * (DIRECTIONS d).2)) : k = j := by
  simp only [Prod.mk.injEq] at h
  obtain ⟨h1, h2⟩ := h
  cases d <;> simp only [DIRECTIONS] at h1 h2 <;> omega

/-- C17. For a shooting monster at `(cx, cy)` facing `(dx, dy)`, on a frame on
which `get_obstacles` reports no obstacle on the cell of the player itself:
after `on_frame`, `sees_player` is true if and only if the player is at
`(cx + k*dx, cy + k*dy)` for some `1 <= k <= VIEWPORT_SIDE` and no cell of the
ray between the monster and the player holds an obstacle; and whenever a cell
of the ray in front of the player holds an obstacle, `sees_player` is false. -/
theorem ShootingMonster.sees_player_between (grid : Grid)
    (room_obstacle obstacle : Int → Int → Bool) (player : Int × Int) (r1 r2 : ℚ)
    (s : ShootingMonster) (hfree : obstacle player.1 player.2 = false) :
    ((s.on_frame grid room_obstacle obstacle player r1 r2).1.sees_player = true ↔
      ∃ k : Nat, 1 ≤ k ∧ k ≤ VIEWPORT_SIDE ∧
        player = (s.base.cx + k * (DIRECTIONS s.base.direction).1,
                  s.base.cy + k * (DIRECTIONS s.base.direction).2) ∧
        ∀ j : Nat, 1 ≤ j → j < k →
          obstacle (s.base.cx + j * (DIRECTIONS s.base.direction).1)
            (s.base.cy + j * (DIRECTIONS s.base.direction).2) = false) ∧
    (∀ k j : Nat,
      player = (s.base.cx + k * (DIRECTIONS s.base.direction).1,
                s.base.cy + k * (DIRECTIONS s.base.direction).2) →
      1 ≤ j → j < k →
      obstacle (s.base.cx + j * (DIRECTIONS s.base.direction).1)
        (s.base.cy + j * (DIRECTIONS s.base.direction).2) = true →
      (s.on_frame grid room_obstacle obstacle player r1 r2).1.sees_player = false) := by
  have hiff := ShootingMonster.sees_player_iff grid room_obstacle obstacle player r1 r2 s
  constructor
  · rw [hiff]
    constructor
    · rintro ⟨k, h1, h2, h3, h4⟩
      exact ⟨k, h1, h2, h3, fun j hj1 hj2 => h4 j hj1 (by omega)⟩
    · rintro ⟨k, h1, h2, h3, h4⟩
      refine ⟨k, h1, h2, h3, fun j hj1 hj2 => ?_⟩
      by_cases hjk : j = k
      · subst hjk
        have e1 : s.base.cx + (j : Int) * (DIRECTIONS s.base.direction).1 = player.1 := by
          rw [h3]
        have e2 : s.base.cy + (j : Int) * (DIRECTIONS s.base.direction).2 = player.2 := by
          rw [h3]
        rw [e1, e2]
        exact hfree
      · exact h4 j hj1 (by omega)
  · intro k j hk hj1 hj2 hobs
    cases hsee : (s.on_frame grid room_obstacle obstacle player r1 r2).1.sees_player with
    | false => rfl
    | true =>
      obtain ⟨k2, _, _, g3, g4⟩ := hiff.mp hsee
      have hkk : k2 = k := by
        apply DIRECTIONS_ray_injective s.base.direction s.base.cx s.base.cy
        rw [← g3, ← hk]
      subst hkk
      rw [g4 j hj1 (by omega)] at hobs
      cases hobs

/-- Witness of C17: the monster at `(0, 0)` faces down and the player is at
`(0, 2)`, a cell without obstacle; with no obstacle at all the player is seen,
and with an obstacle at `(0, 1)` it is not. -/
theorem ShootingMonster.sees_player_between_witness :
    (noObstacles 0 2 = false ∧ exampleObstacles 0 2 = false) ∧
    (exampleShooter.on_frame { width := 15, height := 15 } noObstacles noObstacles (0, 2)
      0 0).1.sees_player = true ∧
    (exampleShooter.on_frame { width := 15, height := 15 } exampleObstacles exampleObstacles
      (0, 2) 0 0).1.sees_player = false :=
  have h1 := ShootingMonster.sees_player_between { width := 15, height := 15 } noObstacles
    noObstacles (0, 2) 0 0 exampleShooter rfl
  have h2 := ShootingMonster.sees_player_between { width := 15, height := 15 }
    exampleObstacles exampleObstacles (0, 2) 0 0 exampleShooter (by decide)
  ⟨⟨rfl, by decide⟩,
    h1.1.mpr ⟨2, by decide, by decide, by decide, fun j hj1 hj2 => rfl⟩,
    h2.2 2 1 (by decide) (by decide) (by decide) (by decide)⟩

/-! ## C18: a shooting monster wanders only when it does not see the player -/

theorem ShootingMonster.on_frame_base (grid : Grid)
    (room_obstacle obstacle : Int → Int → Bool) (player : Int × Int) (r1 r2 : ℚ)
    (s : ShootingMonster) :
    (s.on_frame grid room_obstacle obstacle player r1 r2).1.base =
      (if s.sight obstacle player then s.base
       else (s.base.on_frame grid room_obstacle player r1 r2).1) := by
  have h0 : ShootingMonster.sight obstacle player { s with sees_player := false }
      = s.sight obstacle player := rfl
  simp only [ShootingMonster.on_frame, h0]
  cases hs : s.sight obstacle player
  · simp only [Bool.false_eq_true, and_false, false_and, if_false, Bool.not_false, if_true]
    split <;> rfl
  · simp only [Bool.not_true, Bool.false_eq_true, if_false, if_true]
    split <;> split <;> rfl

/-- C18. On a frame on which `sees_player` ends up true, `on_frame` of a
shooting monster leaves the inherited part of the monster (`cx`, `cy`,
`direction`, `walk_timer` and the rest) unchanged; on a frame on which it ends
up false, the inherited part is exactly what `WanderingMonster.on_frame` makes
of it. -/
theorem ShootingMonster.wanders_unless_sees (grid : Grid)
    (room_obstacle obstacle : Int → Int → Bool) (player : Int × Int) (r1 r2 : ℚ)
    (s : ShootingMonster) :
    ((s.on_frame grid room_obstacle obstacle player r1 r2).1.sees_player = true →
      (s.on_frame grid room_obstacle obstacle player r1 r2).1.base = s.base) ∧
    ((s.on_frame grid room_obstacle obstacle player r1 r2).1.sees_player = false →
      (s.on_frame grid room_obstacle obstacle player r1 r2).1.base =
        (s.base.on_frame grid room_obstacle player r1 r2).1) := by
  rw [ShootingMonster.on_frame_sees_player, ShootingMonster.on_frame_base]
  constructor
  · intro h; rw [if_pos h]
  · intro h; rw [h]; rfl

/-- Witness of C18: the shooting monster at `(0, 0)` facing down sees the
player at `(0, 2)` and stays as it is; it does not see the player at `(5, 5)`
and wanders. -/
theorem ShootingMonster.wanders_unless_sees_witness :
    ((exampleShooter.on_frame { width := 15, height := 15 } noObstacles noObstacles (0, 2)
        0 0).1.sees_player = true ∧
      (exampleShooter.on_frame { width := 15, height := 15 } noObstacles noObstacles (0, 2)
        0 0).1.base = exampleShooter.base) ∧
    ((exampleShooter.on_frame { width := 15, height := 15 } noObstacles noObstacles (5, 5)
        0 0).1.sees_player = false ∧
      (exampleShooter.on_frame { width := 15, height := 15 } noObstacles noObstacles (5, 5)
        0 0).1.base =
        (exampleShooter.base.on_frame { width := 15, height := 15 } noObstacles (5, 5)
          0 0).1) :=
  have h1 : (exampleShooter.on_frame { width := 15, height := 15 } noObstacles noObstacles
      (0, 2) 0 0).1.sees_player = true := by
    rw [ShootingMonster.on_frame_sees_player]; decide
  have h2 : (exampleShooter.on_frame { width := 15, height := 15 } noObstacles noObstacles
      (5, 5) 0 0).1.sees_player = false := by
    rw [ShootingMonster.on_frame_sees_player]; decide
  ⟨⟨h1, (ShootingMonster.wanders_unless_sees { width := 15, height := 15 } noObstacles
      noObstacles (0, 2) 0 0 exampleShooter).1 h1⟩,
   ⟨h2, (ShootingMonster.wanders_unless_sees { width := 15, height := 15 } noObstacles
      noObstacles (5, 5) 0 0 exampleShooter).2 h2⟩⟩

/-! ## C19: a projectile outside the viewport -/

/-- When the test of the frame handler holds, that is when `left` or `right` of
the previous position is outside `[0, VIEWPORT_SIDE_PX)`, the projectile is
removed, it is not advanced, and nothing else happens. -/
theorem Projectile.on_frame_outside (collides : Projectile → List Sprite → List Sprite)
    (has_on_hit : Nat → Bool) (player_sprite : Sprite) (objects : List (Bool × Sprite))
    (direction : Direction) (speed damage : Int) (shooter : Nat) (p : Projectile)
    (h : p._calculatedPosition.left < 0 ∨ VIEWPORT_SIDE_PX ≤ p._calculatedPosition.left ∨
      p._calculatedPosition.right < 0 ∨ VIEWPORT_SIDE_PX ≤ p._calculatedPosition.right) :
    Projectile.on_frame collides has_on_hit player_sprite objects direction speed damage
        shooter p = ({ p with removed := true }, []) := by
  have hc : (decide (p._calculatedPosition.left < 0)
      || decide (p._calculatedPosition.left ≥ VIEWPORT_SIDE_PX)
      || decide (p._calculatedPosition.right < 0)
      || decide (p._calculatedPosition.right ≥ VIEWPORT_SIDE_PX)) = true := by
    simp only [Bool.or_eq_true, decide_eq_true_eq, ge_iff_le]
    tauto
  simp only [Projectile.on_frame, hc, if_true]

theorem Projectile.on_frame_inside (collides : Projectile → List Sprite → List Sprite)
    (has_on_hit : Nat → Bool) (player_sprite : Sprite) (objects : List (Bool × Sprite))
    (direction : Direction) (speed damage : Int) (shooter : Nat) (p : Projectile)
    (h : ¬ (p._calculatedPosition.left < 0 ∨ VIEWPORT_SIDE_PX ≤ p._calculatedPosition.left ∨
      p._calculatedPosition.right < 0 ∨ VIEWPORT_SIDE_PX ≤ p._calculatedPosition.right)) :
    Projectile.on_frame collides has_on_hit player_sprite objects direction speed damage
        shooter p =
      Projectile.resolve has_on_hit damage shooter
        { p with left := p.left + (DIRECTIONS direction).1 * speed,
                 top := p.top + (DIRECTIONS direction).2 * speed }
        (collides
          { p with left := p.left + (DIRECTIONS direction).1 * speed,
                   top := p.top + (DIRECTIONS direction).2 * speed }
          (Projectile.collide_candidates player_sprite objects)) := by
  have hc : (decide (p._calculatedPosition.left < 0)
      || decide (p._calculatedPosition.left ≥ VIEWPORT_SIDE_PX)
      || decide (p._calculatedPosition.right < 0)
      || decide (p._calculatedPosition.right ≥ VIEWPORT_SIDE_PX)) = false := by
    rw [← Bool.not_eq_true]
    simp only [Bool.or_eq_true, decide_eq_true_eq, ge_iff_le]
    tauto
  simp only [Projectile.on_frame, hc, Bool.false_eq_true, if_false]

/-- C19. The projectile whose previous position has `top = -40`, above the
viewport, while `left = 100` and `right = 131` are inside it, is not removed by
the frame handler: it is advanced by `16` upwards and stays. -/
theorem Projectile.on_frame_above_viewport :
    exampleProjectile._calculatedPosition.top < 0 ∧
    (Projectile.on_frame (fun _ _ => []) (fun _ => true) examplePlayerSprite [] .up 16 2 7
      exampleProjectile).1.removed = false ∧
    (Projectile.on_frame (fun _ _ => []) (fun _ => true) examplePlayerSprite [] .up 16 2 7
      exampleProjectile).1.top = -56 := by
  decide

/-! ## C20: the hit of a projectile -/

theorem Projectile.resolve_eq (has_on_hit : Nat → Bool) (damage : Int) (shooter : Nat)
    (p : Projectile) (hit : List Sprite) :
    Projectile.resolve has_on_hit damage shooter p hit =
      match first_victim shooter hit with
      | none => (p, [])
      | some victim =>
        ({ p with removed := true },
          [Effect.explosion victim.left victim.top] ++
          Projectile.victim_on_hit has_on_hit damage victim) := by
  induction hit with
  | nil => rfl
  | cons v hit ih =>
    by_cases hv : v.obj = some shooter
    · have hf : first_victim shooter (v :: hit) = first_victim shooter hit := by
        simp [first_victim, List.find?_cons, hv]
      rw [Projectile.resolve, if_pos hv, ih, hf]
    · have hf : first_victim shooter (v :: hit) = some v := by
        simp [first_victim, List.find?_cons, hv]
      rw [Projectile.resolve, if_neg hv, hf]

theorem first_victim_some (shooter : Nat) (hit : List Sprite) (v : Sprite)
    (h : first_victim shooter hit = some v) : v ∈ hit ∧ v.obj ≠ some shooter := by
  unfold first_victim at h
  have h1 := List.find?_some h
  exact ⟨List.mem_of_find?_eq_some h, by simpa using h1⟩

theorem first_victim_none (shooter : Nat) (hit : List Sprite)
    (h : first_victim shooter hit = none) : ∀ v ∈ hit, v.obj = some shooter := by
  unfold first_victim at h
  rw [List.find?_eq_none] at h
  intro v hv
  simpa using h v hv

theorem hits_victim (has_on_hit : Nat → Bool) (damage : Int) (victim : Sprite) :
    hits ([Effect.explosion victim.left victim.top] ++
        Projectile.victim_on_hit has_on_hit damage victim) = [] ∨
    ∃ o, victim.obj = some o ∧
      hits ([Effect.explosion victim.left victim.top] ++
        Projectile.victim_on_hit has_on_hit damage victim) = [o] := by
  unfold Projectile.victim_on_hit
  cases hvo : victim.obj with
  | none => left; rfl
  | some o =>
    cases hh : has_on_hit o
    · left; simp [hits, hh]
    · right; exact ⟨o, rfl, by simp [hits, hh]⟩

/-- C20. On a frame on which the projectile is not outside the viewport test
and `hit` is the list of overlapping candidates: `on_hit(damage)` is called on
at most one object; an object it is called on is not the shooter and is the
object of the first overlapping candidate whose object is not the shooter; the
projectile is removed exactly when there is such a candidate; and when every
overlapping candidate is the shooter, or none overlaps, the projectile is not
removed and there is no effect at all. -/
theorem Projectile.on_frame_hit (has_on_hit : Nat → Bool) (player_sprite : Sprite)
    (objects : List (Bool × Sprite)) (direction : Direction) (speed damage : Int)
    (shooter : Nat) (p : Projectile) (hit : List Sprite)
    (hin : ¬ (p._calculatedPosition.left < 0 ∨ VIEWPORT_SIDE_PX ≤ p._calculatedPosition.left ∨
      p._calculatedPosition.right < 0 ∨ VIEWPORT_SIDE_PX ≤ p._calculatedPosition.right))
    (hp : p.removed = false) :
    (hits (Projectile.on_frame (fun _ _ => hit) has_on_hit player_sprite objects direction
      speed damage shooter p).2).length ≤ 1 ∧
    (∀ o ∈ hits (Projectile.on_frame (fun _ _ => hit) has_on_hit player_sprite objects
        direction speed damage shooter p).2,
      o ≠ shooter ∧ ∃ v, first_victim shooter hit = some v ∧ v.obj = some o) ∧
    ((Projectile.on_frame (fun _ _ => hit) has_on_hit player_sprite objects direction
        speed damage shooter p).1.removed = true ↔ ∃ v ∈ hit, v.obj ≠ some shooter) ∧
    ((∀ v ∈ hit, v.obj = some shooter) →
      (Projectile.on_frame (fun _ _ => hit) has_on_hit player_sprite objects direction
        speed damage shooter p).1.removed = false ∧
      (Projectile.on_frame (fun _ _ => hit) has_on_hit player_sprite objects direction
        speed damage shooter p).2 = []) := by
  rw [Projectile.on_frame_inside _ has_on_hit player_sprite objects direction speed damage
    shooter p hin, Projectile.resolve_eq]
  cases hf : first_victim shooter hit with
  | none =>
    have hall := first_victim_none shooter hit hf
    refine ⟨by simp [hits], ?_, ?_, fun _ => ⟨hp, rfl⟩⟩
    · intro o ho; simp [hits] at ho
    · simp only [hp]
      constructor
      · intro h; cases h
      · rintro ⟨v, hv, hne⟩; exact absurd (hall v hv) hne
  | some victim =>
    obtain ⟨hmem, hne⟩ := first_victim_some shooter hit victim hf
    dsimp only
    refine ⟨?_, ?_, ?_, fun hall => absurd (hall victim hmem) hne⟩
    · rcases hits_victim has_on_hit damage victim with h | ⟨o, _, h⟩ <;> rw [h] <;> simp
    · intro o ho
      rcases hits_victim has_on_hit damage victim with h | ⟨o2, hvo, h⟩
      · rw [h] at ho; cases ho
      · rw [h] at ho
        have ho2 : o = o2 := by simpa using ho
        subst ho2
        exact ⟨fun h2 => hne (by rw [hvo, h2]), victim, rfl, hvo⟩
    · exact ⟨fun _ => ⟨victim, hmem, hne⟩, fun _ => rfl⟩

/-- Witness of C20: the shooter `7` overlaps first, then the objects `8` and
`9`; only `on_hit` of `8` is called and the projectile is removed. -/
theorem Projectile.on_frame_hit_witness :
    (¬ (exampleInnerProjectile._calculatedPosition.left < 0 ∨
        VIEWPORT_SIDE_PX ≤ exampleInnerProjectile._calculatedPosition.left ∨
        exampleInnerProjectile._calculatedPosition.right < 0 ∨
        VIEWPORT_SIDE_PX ≤ exampleInnerProjectile._calculatedPosition.right) ∧
      exampleInnerProjectile.removed = false) ∧
    hits (Projectile.on_frame (fun _ _ => exampleHit) (fun _ => true) examplePlayerSprite []
      .up 16 2 7 exampleInnerProjectile).2 = [8] ∧
    (Projectile.on_frame (fun _ _ => exampleHit) (fun _ => true) examplePlayerSprite []
      .up 16 2 7 exampleInnerProjectile).1.removed = true :=
  have h := Projectile.on_frame_hit (fun _ => true) examplePlayerSprite [] .up 16 2 7
    exampleInnerProjectile exampleHit (by decide) rfl
  ⟨⟨by decide, rfl⟩, by decide, h.2.2.1.mpr ⟨{ obj := some 8, left := 100, top := 90 },
    by decide, by decide⟩⟩

/-! ## C24: bringToFront permutes the member sequence -/

theorem bringToFront_perm {α : Type} [DecidableEq α] (pre post : List α) (e : α)
    (h : e ∉ pre) : (bringToFront (pre ++ e :: post) e).Perm (pre ++ e :: post) := by
  rw [bringToFront_of_first pre post e h]
  exact List.perm_middle.symm

theorem bringToFront_others {α : Type} [DecidableEq α] (pre post : List α) (e : α)
    (h : e ∉ pre) :
    (bringToFront (pre ++ e :: post) e).filter (fun o => decide (o ≠ e)) =
      (pre ++ e :: post).filter (fun o => decide (o ≠ e)) := by
  rw [bringToFront_of_first pre post e h]
  simp [List.filter_cons]

/-- C24. If the member sequence contains `e` exactly once, `e.bringToFront()`
yields a permutation of it: the length is unchanged, every member occurs as
often as before (so `e` still once), and the members other than `e` form the
same sequence, in the same order, as before. -/
theorem bringToFront_permutation {α : Type} [DecidableEq α] (objects : List α) (e : α)
    (h : objects.count e = 1) :
    (bringToFront objects e).length = objects.length ∧
    (bringToFront objects e).Perm objects ∧
    (∀ o, (bringToFront objects e).count o = objects.count o) ∧
    (bringToFront objects e).count e = 1 ∧
    (bringToFront objects e).filter (fun o => decide (o ≠ e)) =
      objects.filter (fun o => decide (o ≠ e)) := by
  have hmem : e ∈ objects := List.count_pos_iff.mp (by omega)
  obtain ⟨pre, post, rfl, hpre⟩ := List.eq_append_cons_of_mem hmem
  have hp := bringToFront_perm pre post e hpre
  exact ⟨hp.length_eq, hp, fun o => hp.count_eq o, by rw [hp.count_eq, h],
    bringToFront_others pre post e hpre⟩

/-- Witness of C24 on the sequence `[4, 7, 9, 2]` and the entity `9`. -/
theorem bringToFront_permutation_witness :
    ([4, 7, 9, 2] : List Nat).count 9 = 1 ∧
    bringToFront ([4, 7, 9, 2] : List Nat) 9 = [9, 4, 7, 2] ∧
    (bringToFront ([4, 7, 9, 2] : List Nat) 9).Perm [4, 7, 9, 2] :=
  ⟨by decide, by decide, (bringToFront_permutation ([4, 7, 9, 2] : List Nat) 9 (by decide)).2.1⟩

/-! ## C21: a movable object that hides an item -/

theorem MovableHidingObject.on_move_later (ops : RoomOps) (item_tile : Nat → Nat)
    (empty_tile : Nat) (w : World) (m : MovableHidingObject) (self : Nat) (nx ny : Int)
    (h : m.base.moved = true ∨ js_truthy m.hidden_item_index = false) :
    m.on_move ops item_tile empty_tile w self (some nx) (some ny) =
      (w, { m with base := { m.base with cx := nx, cy := ny, moved := true } }) := by
  rcases h with h | h <;>
    simp [MovableHidingObject.on_move, MovableObject.on_move, MovableObject.updatePos, h]

theorem MovableHidingObject.on_move_first (ops : RoomOps) (item_tile : Nat → Nat)
    (empty_tile : Nat) (w : World) (m : MovableHidingObject) (self : Nat) (nx ny : Int)
    (hm : m.base.moved = false) (hi : js_truthy m.hidden_item_index = true) :
    m.on_move ops item_tile empty_tile w self (some nx) (some ny) =
      ({ objects := bringToFront (ops.addObj w.objects (w.fresh self)) (w.fresh self),
         pickables :=
          (w.fresh self,
            (PickableObject.new item_tile empty_tile (m.hidden_item_index.getD 0)
              m.base.cx m.base.cy).enterRoom) :: w.pickables },
       { m with base := { m.base with cx := nx, cy := ny, moved := true } }) := by
  simp [MovableHidingObject.on_move, MovableObject.on_move, MovableObject.updatePos, hm, hi,
    World.new_pickable_eq]

/-- After the first move, or with no hidden item, a sequence of moves leaves the
world as it is and puts the object at the last cell. -/
theorem MovableHidingObject.moves_later (ops : RoomOps) (item_tile : Nat → Nat)
    (empty_tile : Nat) (self : Nat) (cells : List (Int × Int))
    (s : World × MovableHidingObject)
    (h : s.2.base.moved = true ∨ js_truthy s.2.hidden_item_index = false) :
    (MovableHidingObject.moves ops item_tile empty_tile self s cells).1 = s.1 ∧
    (MovableHidingObject.moves ops item_tile empty_tile self s cells).2.hidden_item_index
      = s.2.hidden_item_index ∧
    (∀ c ∈ cells.getLast?,
      (MovableHidingObject.moves ops item_tile empty_tile self s cells).2.base.cx = c.1 ∧
      (MovableHidingObject.moves ops item_tile empty_tile self s cells).2.base.cy = c.2 ∧
      (MovableHidingObject.moves ops item_tile empty_tile self s cells).2.base.moved = true) := by
  induction cells generalizing s with
  | nil => exact ⟨rfl, rfl, fun c hc => by cases hc⟩
  | cons c cells ih =>
    have hstep := MovableHidingObject.on_move_later ops item_tile empty_tile s.1 s.2 self
      c.1 c.2 h
    have hrun : MovableHidingObject.moves ops item_tile empty_tile self s (c :: cells) =
        MovableHidingObject.moves ops item_tile empty_tile self
          (s.1, { s.2 with base := { s.2.base with cx := c.1, cy := c.2, moved := true } })
          cells := by
      simp only [MovableHidingObject.moves, List.foldl_cons, hstep]
    obtain ⟨i1, i2, i3⟩ :=
      ih (s.1, { s.2 with base := { s.2.base with cx := c.1, cy := c.2, moved := true } })
        (Or.inl rfl)
    rw [hrun]
    refine ⟨i1, i2, ?_⟩
    intro d hd
    cases cells with
    | nil =>
      simp only [List.getLast?_singleton, Option.mem_def, Option.some.injEq] at hd
      subst hd
      exact ⟨rfl, rfl, rfl⟩
    | cons c2 cells2 =>
      apply i3
      rw [List.getLast?_cons_cons] at hd
      exact hd

/-- C21. For a newly constructed `MovableHidingObject` at `(cx, cy)` and every
sequence of `on_move` calls `c :: cells`: with a configured hidden item the
first call creates exactly one pickable object, a new object for the hidden
item at `(cx, cy)`, which is at index 0 of the member sequence, and the later
calls leave the room and the pickable objects as the first call left them;
with no hidden item configured the room and the pickable objects never change;
and every `on_move(nx, ny)`, on any object, puts it at `(nx, ny)` with
`moved = true`. -/
theorem MovableHidingObject.hidden_item_once (ops : RoomOps) (item_tile : Nat → Nat)
    (empty_tile : Nat) (w : World) (tile_index : Nat) (cx cy : Int) (hidden : Option Nat)
    (self : Nat) (c : Int × Int) (cells : List (Int × Int)) :
    (js_truthy hidden = true →
      (∃ p, (MovableHidingObject.moves ops item_tile empty_tile self
            (w, MovableHidingObject.new tile_index cx cy hidden) [c]).1.pickables =
          (w.fresh self, p) :: w.pickables ∧
        p.item_index = hidden ∧ p.cx = cx ∧ p.cy = cy) ∧
      (w.fresh self ≠ self ∧ w.fresh self ∉ w.objects ∧
        w.fresh self ∉ w.pickables.map Prod.fst) ∧
      (MovableHidingObject.moves ops item_tile empty_tile self
        (w, MovableHidingObject.new tile_index cx cy hidden) [c]).1.objects[0]?
        = some (w.fresh self) ∧
      (MovableHidingObject.moves ops item_tile empty_tile self
        (w, MovableHidingObject.new tile_index cx cy hidden) (c :: cells)).1 =
      (MovableHidingObject.moves ops item_tile empty_tile self
        (w, MovableHidingObject.new tile_index cx cy hidden) [c]).1) ∧
    (js_truthy hidden = false →
      (MovableHidingObject.moves ops item_tile empty_tile self
        (w, MovableHidingObject.new tile_index cx cy hidden) (c :: cells)).1 = w) ∧
    (∀ (w1 : World) (m1 : MovableHidingObject) (nx ny : Int),
      (m1.on_move ops item_tile empty_tile w1 self (some nx) (some ny)).2.base.cx = nx ∧
      (m1.on_move ops item_tile empty_tile w1 self (some nx) (some ny)).2.base.cy = ny ∧
      (m1.on_move ops item_tile empty_tile w1 self (some nx) (some ny)).2.base.moved = true) := by
  refine ⟨fun hi => ?_, fun hi => ?_, fun w1 m1 nx ny => ⟨rfl, rfl, rfl⟩⟩
  · have hfirst := MovableHidingObject.on_move_first ops item_tile empty_tile w
      (MovableHidingObject.new tile_index cx cy hidden) self c.1 c.2 rfl hi
    have h1 : MovableHidingObject.moves ops item_tile empty_tile self
        (w, MovableHidingObject.new tile_index cx cy hidden) [c] =
        (MovableHidingObject.new tile_index cx cy hidden).on_move ops item_tile empty_tile w
          self (some c.1) (some c.2) := rfl
    have h2 : MovableHidingObject.moves ops item_tile empty_tile self
        (w, MovableHidingObject.new tile_index cx cy hidden) (c :: cells) =
        MovableHidingObject.moves ops item_tile empty_tile self
          ((MovableHidingObject.new tile_index cx cy hidden).on_move ops item_tile empty_tile w
            self (some c.1) (some c.2)) cells := rfl
    rw [h2, h1, hfirst]
    refine ⟨⟨_, rfl, ?_, rfl, rfl⟩, World.fresh_new w self, bringToFront_head _ _, ?_⟩
    · simp only [PickableObject.enterRoom, PickableObject.new]
      exact ActiveObject.item_of_truthy hidden hi
    · exact (MovableHidingObject.moves_later ops item_tile empty_tile self cells _
        (Or.inl rfl)).1
  · exact (MovableHidingObject.moves_later ops item_tile empty_tile self (c :: cells)
      (w, MovableHidingObject.new tile_index cx cy hidden) (Or.inr hi)).1

/-- Witness of C21: the object at `(4, 2)` that hides item `42` is moved to
`(5, 2)` and then to `(6, 2)` in the room `[1, 2, 3]`, where it is object `2`. -/
theorem MovableHidingObject.hidden_item_once_witness :
    js_truthy (some 42) = true ∧
    (MovableHidingObject.moves Room.ops exampleItemTile 0 2
      (exampleWorld, exampleHidingObject) [(5, 2), (6, 2)]).1.objects = [4, 1, 2, 3] ∧
    (MovableHidingObject.moves Room.ops exampleItemTile 0 2
      (exampleWorld, exampleHidingObject) [(5, 2), (6, 2)]).1.pickables =
      [(4, { state := .INIT, obstacle := true, tile_index := 142, cx := 4, cy := 2,
             item_index := some 42, sprite := some 142, blink_tiles := [0, 142],
             blinkdelay := 0, take_delay := none })] ∧
    (MovableHidingObject.moves Room.ops exampleItemTile 0 2
      (exampleWorld, exampleHidingObject) [(5, 2), (6, 2)]).1 =
    (MovableHidingObject.moves Room.ops exampleItemTile 0 2
      (exampleWorld, exampleHidingObject) [(5, 2)]).1 :=
  have h := MovableHidingObject.hidden_item_once Room.ops exampleItemTile 0 exampleWorld 60 4 2
    (some 42) 2 (5, 2) [(6, 2)]
  ⟨rfl, by decide, by decide, (h.1 rfl).2.2.2⟩

/-! ## C23: the blinking of a pickable object -/

theorem PickableObject.on_frame_idle (p : PickableObject) (space enter : Bool)
    (h : p.state ≠ .BLINKING) : p.on_frame space enter = (p, []) := by
  simp only [PickableObject.on_frame, h, if_false]

theorem PickableObject.on_frame_blink (p : PickableObject) (space enter : Bool) (a b s : Nat)
    (hs : p.state = .BLINKING) (ht : p.blink_tiles = [a, b]) (hsp : p.sprite = some s) :
    (p.on_frame space enter).1.state = .BLINKING ∧
    (p.blinkdelay - 1 ≤ 0 →
      (p.on_frame space enter).1.blinkdelay = BLINK_DELAY ∧
      (p.on_frame space enter).1.blink_tiles = [b, a] ∧
      (p.on_frame space enter).1.sprite = some a) ∧
    (¬ (p.blinkdelay - 1 ≤ 0) →
      (p.on_frame space enter).1.blinkdelay = p.blinkdelay - 1 ∧
      (p.on_frame space enter).1.blink_tiles = [a, b] ∧
      (p.on_frame space enter).1.sprite = some s) := by
  unfold PickableObject.on_frame
  rw [if_pos hs]
  by_cases hb : p.blinkdelay - 1 ≤ 0
  · cases htd : p.take_delay with
    | none => simp [hb, ht, hsp, hs, htd, take_delay_elapsed]
    | some t =>
      by_cases h0 : t > 0 <;> cases hk : (space || enter) <;>
        by_cases h1 : t - 1 ≤ 0 <;> by_cases h2 : t ≤ 0 <;>
          simp [hb, ht, hsp, hs, htd, h0, hk, h1, h2, take_delay_elapsed]
  · cases htd : p.take_delay with
    | none => simp [hb, ht, hsp, hs, htd, take_delay_elapsed]
    | some t =>
      by_cases h0 : t > 0 <;> cases hk : (space || enter) <;>
        by_cases h1 : t - 1 ≤ 0 <;> by_cases h2 : t ≤ 0 <;>
          simp [hb, ht, hsp, hs, htd, h0, hk, h1, h2, take_delay_elapsed]

theorem PickableObject.blink_step (e t n : Nat) (q : PickableObject) (space enter : Bool)
    (hs : q.state = .BLINKING)
    (h : (q.blinkdelay, q.blink_tiles, q.sprite) = blink_after e t n) :
    (q.on_frame space enter).1.state = .BLINKING ∧
    ((q.on_frame space enter).1.blinkdelay, (q.on_frame space enter).1.blink_tiles,
      (q.on_frame space enter).1.sprite) = blink_after e t (n + 1) := by
  by_cases hn : n = 0
  · subst hn
    simp only [blink_after, if_true, Prod.mk.injEq] at h
    obtain ⟨h1, h2, h3⟩ := h
    obtain ⟨g0, g1, _⟩ := PickableObject.on_frame_blink q space enter e t t hs h2 h3
    obtain ⟨k1, k2, k3⟩ := g1 (by omega)
    refine ⟨g0, ?_⟩
    rw [k1, k2, k3]
    rfl
  · by_cases hpar : ((n - 1) / 3) % 2 = 0
    · simp only [blink_after, if_neg hn, if_pos hpar, Prod.mk.injEq] at h
      obtain ⟨h1, h2, h3⟩ := h
      obtain ⟨g0, g1, g2⟩ := PickableObject.on_frame_blink q space enter t e e hs h2 h3
      refine ⟨g0, ?_⟩
      by_cases hr : (n - 1) % 3 = 2
      · obtain ⟨k1, k2, k3⟩ := g1 (by omega)
        rw [k1, k2, k3, blink_after, if_neg (by omega), if_neg (by omega)]
        simp only [Prod.mk.injEq, and_true, BLINK_DELAY]
        omega
      · obtain ⟨k1, k2, k3⟩ := g2 (by omega)
        rw [k1, k2, k3, blink_after, if_neg (by omega), if_pos (by omega)]
        simp only [Prod.mk.injEq, and_true]
        omega
    · simp only [blink_after, if_neg hn, if_neg hpar, Prod.mk.injEq] at h
      obtain ⟨h1, h2, h3⟩ := h
      obtain ⟨g0, g1, g2⟩ := PickableObject.on_frame_blink q space enter e t t hs h2 h3
      refine ⟨g0, ?_⟩
      by_cases hr : (n - 1) % 3 = 2
      · obtain ⟨k1, k2, k3⟩ := g1 (by omega)
        rw [k1, k2, k3, blink_after, if_neg (by omega), if_pos (by omega)]
        simp only [Prod.mk.injEq, and_true, BLINK_DELAY]
        omega
      · obtain ⟨k1, k2, k3⟩ := g2 (by omega)
        rw [k1, k2, k3, blink_after, if_neg (by omega), if_neg (by omega)]
        simp only [Prod.mk.injEq, and_true]
        omega

theorem PickableObject.frames_blink (e t : Nat) (keys : List (Bool × Bool)) (n : Nat)
    (q : PickableObject) (hs : q.state = .BLINKING)
    (h : (q.blinkdelay, q.blink_tiles, q.sprite) = blink_after e t n) :
    (q.frames keys).state = .BLINKING ∧
    ((q.frames keys).blinkdelay, (q.frames keys).blink_tiles, (q.frames keys).sprite)
      = blink_after e t (n + keys.length) := by
  induction keys generalizing n q with
  | nil => exact ⟨hs, h⟩
  | cons k keys ih =>
    obtain ⟨h1, h2⟩ := PickableObject.blink_step e t n q k.1 k.2 hs h
    have h3 := ih (n + 1) (q.on_frame k.1 k.2).1 h1 h2
    have h4 : n + 1 + keys.length = n + (k :: keys).length := by
      simp only [List.length_cons]; omega
    rw [h4] at h3
    exact h3

/-- C23. For a pickable object that has entered the room and is bumped once,
after any number `n` of frames (whatever the keys do): the object is BLINKING;
the displayed tile is the tile of the item before the first frame, `EMPTY_TILE`
after the frames 1 to 3, the tile of the item after the frames 4 to 6, and so
on in periods of `BLINK_DELAY = 3` frames; `blink_tiles` holds exactly the two
tiles, in the one or the other order; frame `n + 1` swaps `blink_tiles` and
shows the former first entry exactly when `n` is a multiple of 3 (frames 1, 4,
7, ...), and otherwise leaves both as they are; and a frame received by an
object that is not BLINKING changes nothing. -/
theorem PickableObject.blink_cadence (item_tile : Nat → Nat) (empty_tile : Nat)
    (item_index : Int) (cx cy : Int) (self : Nat) (keys : List (Bool × Bool))
    (space enter : Bool) :
    (((PickableObject.new item_tile empty_tile item_index cx cy).enterRoom.on_bump
        self).1.frames keys).state = .BLINKING ∧
    (((PickableObject.new item_tile empty_tile item_index cx cy).enterRoom.on_bump
        self).1.frames keys).sprite =
      some (if keys.length = 0 then ActiveObject.tile_of item_tile item_index
        else if ((keys.length - 1) / 3) % 2 = 0 then empty_tile
        else ActiveObject.tile_of item_tile item_index) ∧
    (((PickableObject.new item_tile empty_tile item_index cx cy).enterRoom.on_bump
        self).1.frames keys).blink_tiles =
      (if keys.length = 0 ∨ ((keys.length - 1) / 3) % 2 = 1
        then [empty_tile, ActiveObject.tile_of item_tile item_index]
        else [ActiveObject.tile_of item_tile item_index, empty_tile]) ∧
    (keys.length % 3 = 0 →
      ((((PickableObject.new item_tile empty_tile item_index cx cy).enterRoom.on_bump
          self).1.frames keys).on_frame space enter).1.blink_tiles =
        (((PickableObject.new item_tile empty_tile item_index cx cy).enterRoom.on_bump
          self).1.frames keys).blink_tiles.reverse ∧
      ((((PickableObject.new item_tile empty_tile item_index cx cy).enterRoom.on_bump
          self).1.frames keys).on_frame space enter).1.sprite =
        (((PickableObject.new item_tile empty_tile item_index cx cy).enterRoom.on_bump
          self).1.frames keys).blink_tiles.head?) ∧
    (keys.length % 3 ≠ 0 →
      ((((PickableObject.new item_tile empty_tile item_index cx cy).enterRoom.on_bump
          self).1.frames keys).on_frame space enter).1.blink_tiles =
        (((PickableObject.new item_tile empty_tile item_index cx cy).enterRoom.on_bump
          self).1.frames keys).blink_tiles ∧
      ((((PickableObject.new item_tile empty_tile item_index cx cy).enterRoom.on_bump
          self).1.frames keys).on_frame space enter).1.sprite =
        (((PickableObject.new item_tile empty_tile item_index cx cy).enterRoom.on_bump
          self).1.frames keys).sprite) ∧
    (∀ p : PickableObject, p.state ≠ .BLINKING → p.on_frame space enter = (p, [])) := by
  obtain ⟨h1, h2⟩ := PickableObject.frames_blink empty_tile
    (ActiveObject.tile_of item_tile item_index) keys 0
    ((PickableObject.new item_tile empty_tile item_index cx cy).enterRoom.on_bump self).1
    rfl rfl
  rw [Nat.zero_add] at h2
  generalize ((PickableObject.new item_tile empty_tile item_index cx cy).enterRoom.on_bump
    self).1.frames keys = q at h1 h2 ⊢
  generalize keys.length = n at h2 ⊢
  generalize ActiveObject.tile_of item_tile item_index = t at h2 ⊢
  refine ⟨h1, ?_, ?_, ?_, ?_, fun p hp => PickableObject.on_frame_idle p space enter hp⟩
  · by_cases hn : n = 0
    · simp only [blink_after, if_pos hn, Prod.mk.injEq] at h2
      rw [h2.2.2, if_pos hn]
    · by_cases hpar : ((n - 1) / 3) % 2 = 0
      · simp only [blink_after, if_neg hn, if_pos hpar, Prod.mk.injEq] at h2
        rw [h2.2.2, if_neg hn, if_pos hpar]
      · simp only [blink_after, if_neg hn, if_neg hpar, Prod.mk.injEq] at h2
        rw [h2.2.2, if_neg hn, if_neg hpar]
  · by_cases hn : n = 0
    · simp only [blink_after, if_pos hn, Prod.mk.injEq] at h2
      rw [h2.2.1, if_pos (Or.inl hn)]
    · by_cases hpar : ((n - 1) / 3) % 2 = 0
      · simp only [blink_after, if_neg hn, if_pos hpar, Prod.mk.injEq] at h2
        rw [h2.2.1, if_neg (by omega)]
      · simp only [blink_after, if_neg hn, if_neg hpar, Prod.mk.injEq] at h2
        rw [h2.2.1, if_pos (by omega)]
  · intro h3
    by_cases hn : n = 0
    · simp only [blink_after, if_pos hn, Prod.mk.injEq] at h2
      obtain ⟨_, g1, _⟩ := PickableObject.on_frame_blink q space enter _ _ _ h1 h2.2.1 h2.2.2
      obtain ⟨_, k2, k3⟩ := g1 (by omega)
      rw [k2, k3, h2.2.1]
      exact ⟨rfl, rfl⟩
    · by_cases hpar : ((n - 1) / 3) % 2 = 0
      · simp only [blink_after, if_neg hn, if_pos hpar, Prod.mk.injEq] at h2
        obtain ⟨_, g1, _⟩ :=
          PickableObject.on_frame_blink q space enter _ _ _ h1 h2.2.1 h2.2.2
        obtain ⟨_, k2, k3⟩ := g1 (by omega)
        rw [k2, k3, h2.2.1]
        exact ⟨rfl, rfl⟩
      · simp only [blink_after, if_neg hn, if_neg hpar, Prod.mk.injEq] at h2
        obtain ⟨_, g1, _⟩ :=
          PickableObject.on_frame_blink q space enter _ _ _ h1 h2.2.1 h2.2.2
        obtain ⟨_, k2, k3⟩ := g1 (by omega)
        rw [k2, k3, h2.2.1]
        exact ⟨rfl, rfl⟩
  · intro h3
    have hn : n ≠ 0 := fun h0 => h3 (by rw [h0])
    by_cases hpar : ((n - 1) / 3) % 2 = 0
    · simp only [blink_after, if_neg hn, if_pos hpar, Prod.mk.injEq] at h2
      obtain ⟨_, _, g2⟩ :=
        PickableObject.on_frame_blink q space enter _ _ _ h1 h2.2.1 h2.2.2
      obtain ⟨_, k2, k3⟩ := g2 (by omega)
      rw [k2, k3, h2.2.1, h2.2.2]
      exact ⟨rfl, rfl⟩
    · simp only [blink_after, if_neg hn, if_neg hpar, Prod.mk.injEq] at h2
      obtain ⟨_, _, g2⟩ :=
        PickableObject.on_frame_blink q space enter _ _ _ h1 h2.2.1 h2.2.2
      obtain ⟨_, k2, k3⟩ := g2 (by omega)
      rw [k2, k3, h2.2.1, h2.2.2]
      exact ⟨rfl, rfl⟩

/-- Witness of C23: the pickable object for item `42` (tile `142`, empty tile
`0`) shows the empty tile after the frames 1 and 3, its own tile after frame 4,
and the empty tile again after frame 7. -/
theorem PickableObject.blink_cadence_witness :
    (exampleBlinking.frames [(false, false)]).sprite = some 0 ∧
    (exampleBlinking.frames [(false, false), (true, false), (false, false)]).sprite
      = some 0 ∧
    (exampleBlinking.frames
      [(false, false), (true, false), (false, false), (false, true)]).sprite = some 142 ∧
    (exampleBlinking.frames
      [(false, false), (true, false), (false, false), (false, true), (false, false),
       (false, false), (false, false)]).sprite = some 0 ∧
    (exampleBlinking.frames
      [(false, false), (true, false), (false, false), (false, true)]).blink_tiles
      = [0, 142] :=
  have h := PickableObject.blink_cadence exampleItemTile 0 42 6 3 4
    [(false, false), (true, false), (false, false), (false, true)] false false
  ⟨by decide, by decide, h.2.1, by decide, h.2.2.1⟩

/-! ## C22: the fire cooldown of a shooting monster -/

theorem WanderingMonster.on_frame_spawns (grid : Grid) (obstacle : Int → Int → Bool)
    (player : Int × Int) (r1 r2 : ℚ) (m : WanderingMonster) :
    spawns (m.on_frame grid obstacle player r1 r2).2 = 0 := by
  by_cases hexp : m.walk_timer - 1 ≤ 0
  · cases hsel : random_entry (m.shuffled_positions grid obstacle) r1 with
    | none =>
      rw [WanderingMonster.on_frame_expired_none grid obstacle player r1 r2 m hexp hsel]
      rfl
    | some sel =>
      rw [WanderingMonster.on_frame_expired_some grid obstacle player r1 r2 m sel hexp hsel]
      split
      · rfl
      · split <;> rfl
  · rw [WanderingMonster.on_frame_waiting grid obstacle player r1 r2 m hexp]
    rfl

theorem spawns_append (l1 l2 : List Effect) : spawns (l1 ++ l2) = spawns l1 + spawns l2 := by
  induction l1 with
  | nil => simp [spawns]
  | cons e l1 ih =>
    cases e <;> simp [spawns, ih]
    omega

theorem ShootingMonster.sight_guard (obstacle : Int → Int → Bool) (player : Int × Int)
    (s : ShootingMonster) (h : s.sight obstacle player = true) :
    player.1 = s.base.cx ∨ player.2 = s.base.cy := by
  unfold ShootingMonster.sight at h
  split at h
  · assumption
  · cases h

theorem ShootingMonster.on_frame_fire (grid : Grid)
    (room_obstacle obstacle : Int → Int → Bool) (player : Int × Int) (r1 r2 : ℚ)
    (s : ShootingMonster) :
    (s.on_frame grid room_obstacle obstacle player r1 r2).1.fire_delay = s.fire_delay ∧
    (s.on_frame grid room_obstacle obstacle player r1 r2).1.fire_timer =
      (if s.sight obstacle player = true ∧ s.fire_timer ≤ 0 then
        (if s.fire_delay > 0 then s.fire_delay - 1 else s.fire_delay)
      else if s.fire_timer > 0 then s.fire_timer - 1 else s.fire_timer) ∧
    spawns (s.on_frame grid room_obstacle obstacle player r1 r2).2 =
      (if s.sight obstacle player = true ∧ s.fire_timer ≤ 0 then 1 else 0) := by
  have h0 : ShootingMonster.sight obstacle player { s with sees_player := false }
      = s.sight obstacle player := rfl
  have hb := WanderingMonster.on_frame_spawns grid room_obstacle player r1 r2 s.base
  cases hs : s.sight obstacle player
  · by_cases ht : s.fire_timer > 0
    · simp [ShootingMonster.on_frame, h0, hs, ht, spawns_append, spawns]
      exact hb
    · simp [ShootingMonster.on_frame, h0, hs, ht, spawns_append, spawns]
      exact hb
  · have hg := ShootingMonster.sight_guard obstacle player s hs
    by_cases ht : s.fire_timer ≤ 0
    · by_cases hd : s.fire_delay > 0
      · simp [ShootingMonster.on_frame, h0, hs, ht, hd, hg, spawns]
      · simp [ShootingMonster.on_frame, h0, hs, ht, hd, hg, spawns]
    · have ht2 : s.fire_timer > 0 := by omega
      simp [ShootingMonster.on_frame, h0, hs, ht, ht2, hg, spawns]

theorem ShootingMonster.frame_range (s : ShootingMonster) (i : FrameInput)
    (hf : 1 ≤ s.fire_delay) (ht : 0 ≤ s.fire_timer ∧ s.fire_timer ≤ s.fire_delay) :
    (s.frame i).1.fire_delay = s.fire_delay ∧
    0 ≤ (s.frame i).1.fire_timer ∧ (s.frame i).1.fire_timer ≤ s.fire_delay := by
  obtain ⟨h1, h2, _⟩ := ShootingMonster.on_frame_fire i.grid i.room_obstacle i.obstacle
    i.player i.r1 i.r2 s
  unfold ShootingMonster.frame
  rw [h1, h2]
  refine ⟨rfl, ?_, ?_⟩ <;> (split <;> split <;> omega)

theorem ShootingMonster.run_range (frames : List FrameInput) (s : ShootingMonster)
    (hf : 1 ≤ s.fire_delay) (ht : 0 ≤ s.fire_timer ∧ s.fire_timer ≤ s.fire_delay) :
    (s.run frames).fire_delay = s.fire_delay ∧
    0 ≤ (s.run frames).fire_timer ∧ (s.run frames).fire_timer ≤ s.fire_delay := by
  induction frames generalizing s with
  | nil => exact ⟨rfl, ht.1, ht.2⟩
  | cons i frames ih =>
    obtain ⟨h1, h2, h3⟩ := ShootingMonster.frame_range s i hf ht
    obtain ⟨g1, g2, g3⟩ := ih (s.frame i).1 (by rw [h1]; exact hf) ⟨h2, by rw [h1]; exact h3⟩
    have hrun : s.run (i :: frames) = (s.frame i).1.run frames := rfl
    rw [hrun, g1, h1]
    exact ⟨rfl, g2, by rw [h1] at g3; exact g3⟩

/-- While the timer is above the number of frames that follow, each frame only
decrements it. -/
theorem ShootingMonster.run_cooling (frames : List FrameInput) (s : ShootingMonster)
    (h : (frames.length : Int) ≤ s.fire_timer) :
    (s.run frames).fire_timer = s.fire_timer - frames.length := by
  induction frames generalizing s with
  | nil => simp [ShootingMonster.run]
  | cons i frames ih =>
    simp only [List.length_cons, Nat.cast_add, Nat.cast_one] at h ⊢
    obtain ⟨_, h2, _⟩ := ShootingMonster.on_frame_fire i.grid i.room_obstacle i.obstacle
      i.player i.r1 i.r2 s
    have h3 : (s.frame i).1.fire_timer = s.fire_timer - 1 := by
      unfold ShootingMonster.frame
      rw [h2, if_neg (by omega), if_pos (by omega)]
    have hrun : s.run (i :: frames) = (s.frame i).1.run frames := rfl
    rw [hrun, ih (s.frame i).1 (by omega), h3]
    omega

/-- C22. For a shooting monster with `fire_delay = f >= 1` and `fire_timer` in
`0..f` (as after the constructor, which sets it to `0`) and every sequence of
frames, with any player positions, obstacle layouts and random draws:
`fire_delay` is unchanged and `fire_timer` is in `0..f` after every frame; a
frame spawns at most one projectile, and spawns one exactly when the player is
seen on it and `fire_timer <= 0` at its start; and after a frame that spawns, no
frame spawns before `f` frames have passed. -/
theorem ShootingMonster.fire_cooldown (s : ShootingMonster) (frames : List FrameInput)
    (i : FrameInput) (later : List FrameInput) (j : FrameInput)
    (hf : 1 ≤ s.fire_delay) (ht : 0 ≤ s.fire_timer ∧ s.fire_timer ≤ s.fire_delay) :
    ((s.run frames).fire_delay = s.fire_delay ∧
      0 ≤ (s.run frames).fire_timer ∧ (s.run frames).fire_timer ≤ s.fire_delay) ∧
    spawns ((s.run frames).frame i).2 ≤ 1 ∧
    (spawns ((s.run frames).frame i).2 = 1 ↔
      (((s.run frames).frame i).1.sees_player = true ∧ (s.run frames).fire_timer ≤ 0)) ∧
    (spawns ((s.run frames).frame i).2 = 1 → later.length + 1 < s.fire_delay →
      spawns ((((s.run frames).frame i).1.run later).frame j).2 = 0) := by
  obtain ⟨r1, r2, r3⟩ := ShootingMonster.run_range frames s hf ht
  generalize s.run frames = q at r1 r2 r3 ⊢
  obtain ⟨h1, h2, h3⟩ := ShootingMonster.on_frame_fire i.grid i.room_obstacle i.obstacle
    i.player i.r1 i.r2 q
  have hsee : (q.frame i).1.sees_player = q.sight i.obstacle i.player :=
    ShootingMonster.on_frame_sees_player i.grid i.room_obstacle i.obstacle i.player i.r1 i.r2 q
  have hsp : spawns (q.frame i).2 =
      (if q.sight i.obstacle i.player = true ∧ q.fire_timer ≤ 0 then 1 else 0) := h3
  refine ⟨⟨r1, r2, r3⟩, ?_, ?_, ?_⟩
  · rw [hsp]; split <;> omega
  · rw [hsp, hsee]
    constructor
    · intro h
      by_contra hc
      rw [if_neg hc] at h
      cases h
    · intro h
      rw [if_pos h]
  · intro hspawn hlen
    have hc : q.sight i.obstacle i.player = true ∧ q.fire_timer ≤ 0 := by
      by_contra hc
      rw [hsp, if_neg hc] at hspawn
      cases hspawn
    have h2f : (q.frame i).1.fire_timer =
        (if q.sight i.obstacle i.player = true ∧ q.fire_timer ≤ 0 then
          (if q.fire_delay > 0 then q.fire_delay - 1 else q.fire_delay)
        else if q.fire_timer > 0 then q.fire_timer - 1 else q.fire_timer) := h2
    have ht1 : (q.frame i).1.fire_timer = q.fire_delay - 1 := by
      rw [h2f, if_pos hc, if_pos (by omega)]
    have hcool := ShootingMonster.run_cooling later (q.frame i).1 (by omega)
    have g3 : spawns (((q.frame i).1.run later).frame j).2 =
        (if ((q.frame i).1.run later).sight j.obstacle j.player = true ∧
            ((q.frame i).1.run later).fire_timer ≤ 0 then 1 else 0) :=
      (ShootingMonster.on_frame_fire j.grid j.room_obstacle j.obstacle
        j.player j.r1 j.r2 ((q.frame i).1.run later)).2.2
    rw [g3, if_neg]
    rintro ⟨_, h5⟩
    rw [hcool, ht1] at h5
    omega

/-- Witness of C22: the shooting monster constructed with `fire_delay = 5` sees
the player at `(0, 2)`; its first frame spawns a projectile and leaves
`fire_timer = 4`, and none of the next four frames spawns one. -/
theorem ShootingMonster.fire_cooldown_witness :
    (1 ≤ exampleShooter.fire_delay ∧ 0 ≤ exampleShooter.fire_timer ∧
      exampleShooter.fire_timer ≤ exampleShooter.fire_delay) ∧
    spawns ((exampleShooter.run []).frame exampleFrame).2 = 1 ∧
    spawns ((((exampleShooter.run []).frame exampleFrame).1.run
      [exampleFrame, exampleFrame, exampleFrame]).frame exampleFrame).2 = 0 :=
  have h := ShootingMonster.fire_cooldown exampleShooter [] exampleFrame
    [exampleFrame, exampleFrame, exampleFrame] exampleFrame (by decide)
    ⟨by decide, by decide⟩
  have hsee : ((exampleShooter.run []).frame exampleFrame).1.sees_player = true := by
    unfold ShootingMonster.frame
    rw [ShootingMonster.on_frame_sees_player]
    decide
  have h1 : spawns ((exampleShooter.run []).frame exampleFrame).2 = 1 :=
    h.2.2.1.mpr ⟨hsee, by decide⟩
  ⟨⟨by decide, by decide, by decide⟩, h1, h.2.2.2 h1 (by decide)⟩

end JsYoda
